import Mathlib

/-!
Main-channel reconciliation: the configuration differ, the channel builder and the pass.

A shallow embedding of `controllers/mainchannel/mainchannel_controller.go`.
Go maps with string keys are association lists read by first match, Go slices
are lists (a slice whose nil-ness the code inspects is an `Option (List _)`),
Go `int` is `Int`, and every call that leaves the repository (the fabric-config
library, the Kubernetes API, the ordering service) is either modelled by its
documented behaviour or answered by a field of an explicit environment record.
-/

namespace MainChannel

/-! ## Go maps -/

/-- Go `map[string]V`, as an association list; a key's value is its first entry. -/
abbrev GoMap (V : Type) := List (String × V)

/-- Map read `m[k]` with the comma-ok result as an option. -/
def GoMap.get {V : Type} (m : GoMap V) (k : String) : Option V :=
  List.lookup k m

/-- Key presence, the `_, ok := m[k]` idiom. -/
def GoMap.has {V : Type} (m : GoMap V) (k : String) : Bool :=
  (m.get k).isSome

/-! ## fabric-config data types (`configtx`, `membership`, `orderer`) -/

/-- Parsed certificate (`*x509.Certificate` is `Option Certificate`, nil being `none`). -/
structure Certificate where
  Raw : String
deriving DecidableEq

/-- Policy of `configtx.Policy`; `PolicyType` is the Go field `Type`. -/
structure Policy where
  PolicyType : String
  Rule : String
deriving DecidableEq

/-- Identifier of `membership.OUIdentifier`. -/
structure OUIdentifier where
  Certificate : Option Certificate
  OrganizationalUnitIdentifier : String
deriving DecidableEq

/-- Node classification of `membership.NodeOUs`. -/
structure NodeOUs where
  Enable : Bool
  ClientOUIdentifier : OUIdentifier
  PeerOUIdentifier : OUIdentifier
  AdminOUIdentifier : OUIdentifier
  OrdererOUIdentifier : OUIdentifier
deriving DecidableEq

/-- Hash configuration of `membership.CryptoConfig`. -/
structure CryptoConfig where
  SignatureHashFamily : String
  IdentityIdentifierHashFunction : String
deriving DecidableEq

/-- Membership service provider of `configtx.MSP`. -/
structure MSP where
  Name : String
  RootCerts : List (Option Certificate)
  TLSRootCerts : List (Option Certificate)
  NodeOUs : NodeOUs
  Admins : List (Option Certificate)
  IntermediateCerts : List (Option Certificate)
  RevocationList : List String
  OrganizationalUnitIdentifiers : List OUIdentifier
  CryptoConfig : CryptoConfig
  TLSIntermediateCerts : List (Option Certificate)
deriving DecidableEq

/-- Anchor peer address of `configtx.Address`. -/
structure Address where
  Host : String
  Port : Int
deriving DecidableEq

/-- Organization definition of `configtx.Organization`. -/
structure Organization where
  Name : String
  Policies : GoMap Policy
  MSP : MSP
  AnchorPeers : List Address
  OrdererEndpoints : List String
  ModPolicy : String
deriving DecidableEq

/-- Application section of `configtx.Application`. -/
structure Application where
  Organizations : List Organization
  Capabilities : List String
  Policies : GoMap Policy
  ACLs : GoMap String
deriving DecidableEq

/-- Raft address of `orderer.EtcdAddress`. -/
structure EtcdAddress where
  Host : String
  Port : Int
deriving DecidableEq

/-- Consenter of `orderer.Consenter`. -/
structure Consenter where
  Address : EtcdAddress
  ClientTLSCert : Option Certificate
  ServerTLSCert : Option Certificate
deriving DecidableEq

/-- Consensus options of `orderer.EtcdRaftOptions`; the numeric fields are `uint32`. -/
structure EtcdRaftOptions where
  TickInterval : String
  ElectionTick : Nat
  HeartbeatTick : Nat
  MaxInflightBlocks : Nat
  SnapshotIntervalSize : Nat
deriving DecidableEq

/-- Raft section of `orderer.EtcdRaft`. -/
structure EtcdRaft where
  Consenters : List Consenter
  Options : EtcdRaftOptions
deriving DecidableEq

/-- Batch limits of `orderer.BatchSize`; the fields are `uint32`. -/
structure BatchSize where
  MaxMessageCount : Nat
  AbsoluteMaxBytes : Nat
  PreferredMaxBytes : Nat
deriving DecidableEq

/-- Orderer section of `configtx.Orderer`; `BatchTimeout` is a `time.Duration` in nanoseconds. -/
structure Orderer where
  OrdererType : String
  Organizations : List Organization
  EtcdRaft : EtcdRaft
  Policies : GoMap Policy
  Capabilities : List String
  BatchSize : BatchSize
  BatchTimeout : Int
  State : String
deriving DecidableEq

/-- Target channel configuration of `configtx.Channel`. -/
structure Channel where
  Orderer : Orderer
  Application : Application
  Capabilities : List String
  Policies : GoMap Policy
deriving DecidableEq

/-! ## The current configuration held by a `configtx.ConfigTx` -/

/-- Application group of a channel configuration: organization groups keyed by
name, the policy map and the ACL value. -/
structure ApplicationGroup where
  Groups : List Organization
  Policies : GoMap Policy
  ACLs : GoMap String
  Capabilities : List String
deriving DecidableEq

/-- Channel configuration (`common.Config`): the application group, and the
remainder of the channel group carried as an uninterpreted payload. -/
structure Config where
  Application : ApplicationGroup
  Rest : String
deriving DecidableEq

/-- Transaction of `configtx.ConfigTx`: the configuration as fetched and the working copy. -/
structure ConfigTx where
  original : Config
  updated : Config
deriving DecidableEq

/-- Constructor `configtx.New`: both copies start as the fetched configuration. -/
def ConfigTx.New (config : Config) : ConfigTx :=
  { original := config, updated := config }

/-- Accessor `ConfigTx.UpdatedConfig`. -/
def ConfigTx.UpdatedConfig (c : ConfigTx) : Config :=
  c.updated

/-- Answers of the fabric-config library that depend on encodings the model does
not interpret: each field gives the error text of a failing call, `none` on success. -/
structure Lib where
  policyErr : Policy → Option String
  orgErr : Organization → Option String
  aclsErr : GoMap String → Option String
  decodeErr : ApplicationGroup → Option String

/-- Mutating library calls made on the application group, in call order. -/
inductive AppOp where
  | setPolicies (policies : GoMap Policy)
  | removeOrganization (name : String)
  | setOrganization (org : Organization)
  | setACLs (acls : GoMap String)
deriving DecidableEq

/-- Working state of one differ run: the transaction and the log of mutating calls. -/
structure DiffState where
  tx : ConfigTx
  ops : List AppOp
deriving DecidableEq

/-- First policy of the map that the library rejects, in entry order. -/
def firstPolicyErr (lib : Lib) : GoMap Policy → Option String
  | [] => none
  | (_, p) :: rest =>
    match lib.policyErr p with
    | some e => some e
    | none => firstPolicyErr lib rest

/-- Library call `ApplicationGroup.SetPolicies`: requires the Admins, Readers and
Writers keys, then replaces the group's whole policy map by the given one. A
nil map is the empty list. -/
def SetPolicies (lib : Lib) (s : DiffState) (policies : GoMap Policy) : Except String DiffState :=
  if policies.isEmpty then .error "no policies defined"
  else if !policies.has "Admins" then .error "no Admins policy defined"
  else if !policies.has "Readers" then .error "no Readers policy defined"
  else if !policies.has "Writers" then .error "no Writers policy defined"
  else
    match firstPolicyErr lib policies with
    | some e => .error e
    | none =>
      .ok { tx := { s.tx with updated := { s.tx.updated with
                      Application := { s.tx.updated.Application with Policies := policies } } },
            ops := s.ops ++ [AppOp.setPolicies policies] }

/-- Library call `ApplicationGroup.Configuration`: the organizations of the
working copy (each named by its group key), its policies and its ACLs. -/
def Configuration (lib : Lib) (s : DiffState) : Except String Application :=
  match lib.decodeErr s.tx.updated.Application with
  | some e => .error e
  | none =>
    .ok { Organizations := s.tx.updated.Application.Groups,
          Capabilities := s.tx.updated.Application.Capabilities,
          Policies := s.tx.updated.Application.Policies,
          ACLs := s.tx.updated.Application.ACLs }

/-- Library call `ApplicationGroup.RemoveOrganization`: deletes the group key. -/
def RemoveOrganization (s : DiffState) (orgName : String) : DiffState :=
  { tx := { s.tx with updated := { s.tx.updated with
              Application := { s.tx.updated.Application with
                Groups := s.tx.updated.Application.Groups.filter (fun o => o.Name != orgName) } } },
    ops := s.ops ++ [AppOp.removeOrganization orgName] }

/-- Library call `ApplicationGroup.SetOrganization`: stores the organization under
its name, replacing a group of that name. -/
def SetOrganization (lib : Lib) (s : DiffState) (org : Organization) : Except String DiffState :=
  match lib.orgErr org with
  | some e => .error ("failed to create application org " ++ org.Name ++ ": " ++ e)
  | none =>
    .ok { tx := { s.tx with updated := { s.tx.updated with
                    Application := { s.tx.updated.Application with
                      Groups := org :: s.tx.updated.Application.Groups.filter
                                  (fun o => o.Name != org.Name) } } },
          ops := s.ops ++ [AppOp.setOrganization org] }

/-- Library call `ApplicationGroup.SetACLs`: replaces the ACL value. -/
def SetACLs (lib : Lib) (s : DiffState) (acls : GoMap String) : Except String DiffState :=
  match lib.aclsErr acls with
  | some e => .error e
  | none =>
    .ok { tx := { s.tx with updated := { s.tx.updated with
                    Application := { s.tx.updated.Application with ACLs := acls } } },
          ops := s.ops ++ [AppOp.setACLs acls] }

/-- Wrapper `errors.Wrapf(err, msg)`: the message, a colon and the cause. -/
def wrapf (err : String) (msg : String) : String :=
  msg ++ ": " ++ err

/-! ## `updateApplicationChannelConfigTx` -/

/-- First loop of `updateApplicationChannelConfigTx` (lines 1069-1081): every
current organization whose name no target organization carries is removed. -/
def removeLoop (newOrgs : List Organization) : List Organization → DiffState → DiffState
  | [], s => s
  | channelPeerOrg :: rest, s =>
    let deleted := !(newOrgs.any (fun organization => organization.Name == channelPeerOrg.Name))
    removeLoop newOrgs rest (if deleted then RemoveOrganization s channelPeerOrg.Name else s)

/-- Second loop of `updateApplicationChannelConfigTx` (lines 1082-1097): every
target organization whose name no current organization carries is set; the
first failure ends the function. -/
def setLoop (lib : Lib) (appOrgs : List Organization) :
    List Organization → DiffState → Except String DiffState
  | [], s => .ok s
  | organization :: rest, s =>
    let found := appOrgs.any (fun channelPeerOrg => channelPeerOrg.Name == organization.Name)
    if !found then
      match SetOrganization lib s organization with
      | .error e => .error (wrapf e ("failed to set organization " ++ organization.Name))
      | .ok s1 => setLoop lib appOrgs rest s1
    else setLoop lib appOrgs rest s

/-- Function `updateApplicationChannelConfigTx` (lines 1056-1111), run on a
transaction with an empty call log. -/
def updateApplicationChannelConfigTx (lib : Lib) (currentConfigTX : ConfigTx)
    (newConfigTx : Channel) : Except String DiffState :=
  match SetPolicies lib { tx := currentConfigTX, ops := [] } newConfigTx.Application.Policies with
  | .error e => .error (wrapf e "failed to set application")
  | .ok s1 =>
    match Configuration lib s1 with
    | .error e => .error (wrapf e "failed to get application configuration")
    | .ok app =>
      let s2 := removeLoop newConfigTx.Application.Organizations app.Organizations s1
      match setLoop lib app.Organizations newConfigTx.Application.Organizations s2 with
      | .error e => .error e
      | .ok s3 =>
        match SetPolicies lib s3 newConfigTx.Application.Policies with
        | .error e => .error (wrapf e "failed to set application policies")
        | .ok s4 =>
          match SetACLs lib s4 newConfigTx.Application.ACLs with
          | .error e => .error (wrapf e "failed to set ACLs")
          | .ok s5 => .ok s5

/-! ## Reading an application group by organization name -/

/-- Names of a list of organizations, in order. -/
def orgNames (l : List Organization) : List String :=
  l.map (fun o => o.Name)

/-- Group read by name: the organization stored under the key, if any. -/
def findOrg (l : List Organization) (n : String) : Option Organization :=
  l.find? (fun o => o.Name == n)

/-- Organization groups of the working copy. -/
def DiffState.groups (s : DiffState) : List Organization :=
  s.tx.updated.Application.Groups

/-- State with the organization groups and the call log replaced. -/
def DiffState.put (s : DiffState) (g : List Organization) (ops : List AppOp) : DiffState :=
  { tx := { s.tx with updated := { s.tx.updated with
              Application := { s.tx.updated.Application with Groups := g } } },
    ops := ops }

/-- Groups left by the first loop, as a function of the groups it started with. -/
def removedGroups (newOrgs : List Organization) : List Organization → List Organization →
    List Organization
  | [], g => g
  | c :: rest, g =>
    removedGroups newOrgs rest
      (if !(newOrgs.any (fun t => t.Name == c.Name)) then g.filter (fun o => o.Name != c.Name)
       else g)

/-- Removal calls of the first loop. -/
def removedOps (newOrgs : List Organization) (appOrgs : List Organization) : List AppOp :=
  (appOrgs.filter (fun c => !(newOrgs.any (fun t => t.Name == c.Name)))).map
    (fun c => AppOp.removeOrganization c.Name)

/-- Groups left by the second loop, as a function of the groups it started with. -/
def setGroups (appOrgs : List Organization) : List Organization → List Organization →
    List Organization
  | [], g => g
  | t :: rest, g =>
    setGroups appOrgs rest
      (if !(appOrgs.any (fun c => c.Name == t.Name)) then
         t :: g.filter (fun o => o.Name != t.Name)
       else g)

/-- Set calls of the second loop. -/
def setOps (appOrgs : List Organization) (newOrgs : List Organization) : List AppOp :=
  (newOrgs.filter (fun t => !(appOrgs.any (fun c => c.Name == t.Name)))).map
    (fun t => AppOp.setOrganization t)

/-- State after a policy replacement. -/
def DiffState.withPolicies (s : DiffState) (policies : GoMap Policy) : DiffState :=
  { tx := { s.tx with updated := { s.tx.updated with
              Application := { s.tx.updated.Application with Policies := policies } } },
    ops := s.ops ++ [AppOp.setPolicies policies] }

/-- State after an ACL replacement. -/
def DiffState.withACLs (s : DiffState) (acls : GoMap String) : DiffState :=
  { tx := { s.tx with updated := { s.tx.updated with
              Application := { s.tx.updated.Application with ACLs := acls } } },
    ops := s.ops ++ [AppOp.setACLs acls] }

/-! ## The declarative channel description (`hlfv1alpha1.FabricMainChannelSpec`) -/

/-- Secret reference of `FabricMainChannelIdentity`. -/
structure FabricMainChannelIdentity where
  SecretNamespace : String
  SecretName : String
  SecretKey : String
deriving DecidableEq

/-- Admin peer organization of the spec. -/
structure FabricMainChannelAdminPeerOrganizationSpec where
  MSPID : String
deriving DecidableEq

/-- Admin orderer organization of the spec. -/
structure FabricMainChannelAdminOrdererOrganizationSpec where
  MSPID : String
deriving DecidableEq

/-- Peer organization resolved through a certificate authority of the cluster. -/
structure FabricMainChannelPeerOrganization where
  MSPID : String
  CAName : String
  CANamespace : String
deriving DecidableEq

/-- Peer organization declared with its certificates. -/
structure FabricMainChannelExternalPeerOrganization where
  MSPID : String
  TLSRootCert : String
  SignRootCert : String
deriving DecidableEq

/-- Cluster-managed ordering node to join. -/
structure FabricMainChannelOrdererNode where
  Name : String
  Namespace : String
deriving DecidableEq

/-- Externally declared ordering node to join. -/
structure FabricMainChannelExternalOrdererNode where
  Host : String
  AdminPort : Int
deriving DecidableEq

/-- Orderer organization of the spec. -/
structure FabricMainChannelOrdererOrganization where
  MSPID : String
  CAName : String
  CANamespace : String
  TLSCACert : String
  SignCACert : String
  OrdererEndpoints : List String
  OrderersToJoin : List FabricMainChannelOrdererNode
  ExternalOrderersToJoin : List FabricMainChannelExternalOrdererNode
deriving DecidableEq

/-- Orderer organization declared with its certificates. -/
structure FabricMainChannelExternalOrdererOrganization where
  MSPID : String
  TLSRootCert : String
  SignRootCert : String
  OrdererEndpoints : List String
deriving DecidableEq

/-- Consenter of the spec. -/
structure FabricMainChannelConsenter where
  Host : String
  Port : Int
  TLSCert : String
deriving DecidableEq

/-- Raft options block of the spec; the numeric fields are `uint32`. -/
structure FabricMainChannelEtcdRaftOptions where
  TickInterval : String
  ElectionTick : Nat
  HeartbeatTick : Nat
  MaxInflightBlocks : Nat
  SnapshotIntervalSize : Nat
deriving DecidableEq

/-- Raft block of the spec; `Options` is a pointer. -/
structure FabricMainChannelEtcdRaft where
  Options : Option FabricMainChannelEtcdRaftOptions
deriving DecidableEq

/-- Batch-size block of the spec; the fields are Go `int`. -/
structure FabricMainChannelOrdererBatchSize where
  MaxMessageCount : Int
  AbsoluteMaxBytes : Int
  PreferredMaxBytes : Int
deriving DecidableEq

/-- Orderer override block of the spec; `BatchSize` and `EtcdRaft` are pointers. -/
structure FabricMainChannelOrdererConfig where
  BatchTimeout : String
  BatchSize : Option FabricMainChannelOrdererBatchSize
  EtcdRaft : Option FabricMainChannelEtcdRaft
deriving DecidableEq

/-- Channel-config override of the spec; `Orderer` is a pointer. -/
structure FabricMainChannelConfig where
  Orderer : Option FabricMainChannelOrdererConfig
deriving DecidableEq

/-- Spec of a main channel. `AdminOrdererOrganizations` is `none` for a nil
slice and `some []` for an empty one, since line 759 tells them apart. -/
structure FabricMainChannelSpec where
  Name : String
  Identities : GoMap FabricMainChannelIdentity
  AdminPeerOrganizations : List FabricMainChannelAdminPeerOrganizationSpec
  PeerOrganizations : List FabricMainChannelPeerOrganization
  ExternalPeerOrganizations : List FabricMainChannelExternalPeerOrganization
  ChannelConfig : Option FabricMainChannelConfig
  AdminOrdererOrganizations : Option (List FabricMainChannelAdminOrdererOrganizationSpec)
  OrdererOrganizations : List FabricMainChannelOrdererOrganization
  ExternalOrdererOrganizations : List FabricMainChannelExternalOrdererOrganization
  Consenters : List FabricMainChannelConsenter
deriving DecidableEq

/-- Status part of a certificate authority resource that the builder reads. -/
structure FabricCAStatus where
  TLSCACert : String
  CACert : String
deriving DecidableEq

/-- Calls of `mapToConfigTX` that leave the file: certificate parsing, the two
client constructors (an error text, or `none`), the certificate-authority
lookup and `time.ParseDuration` (nanoseconds). Each field gives what the call
returns, a value or an error; a call that panics instead of returning is not
described. -/
structure BuildEnv where
  ParseX509Certificate : String → Except String Certificate
  GetClientKubeWithConf : Option String
  NewForConfig : Option String
  GetCertAuthByName : String → String → Except String FabricCAStatus
  ParseDuration : String → Except String Int

/-! ## `mapOrdererOrg`, `mapPeerOrg`, `defaultACLs` -/

/-- Function `mapOrdererOrg` (lines 915-970). -/
def mapOrdererOrg (mspID : String) (ordererEndpoints : List String)
    (caCert : Option Certificate) (tlsCACert : Option Certificate) : Organization :=
  { Name := mspID,
    Policies := [
      ("Admins", { PolicyType := "Signature", Rule := "OR('" ++ mspID ++ ".admin')" }),
      ("Readers", { PolicyType := "Signature", Rule := "OR('" ++ mspID ++ ".member')" }),
      ("Writers", { PolicyType := "Signature", Rule := "OR('" ++ mspID ++ ".member')" }),
      ("Endorsement", { PolicyType := "Signature", Rule := "OR('" ++ mspID ++ ".member')" })],
    MSP := {
      Name := mspID,
      RootCerts := [caCert],
      TLSRootCerts := [tlsCACert],
      NodeOUs := {
        Enable := true,
        ClientOUIdentifier :=
          { Certificate := caCert, OrganizationalUnitIdentifier := "client" },
        PeerOUIdentifier :=
          { Certificate := caCert, OrganizationalUnitIdentifier := "peer" },
        AdminOUIdentifier :=
          { Certificate := caCert, OrganizationalUnitIdentifier := "admin" },
        OrdererOUIdentifier :=
          { Certificate := caCert, OrganizationalUnitIdentifier := "orderer" } },
      Admins := [],
      IntermediateCerts := [],
      RevocationList := [],
      OrganizationalUnitIdentifiers := [],
      CryptoConfig := { SignatureHashFamily := "", IdentityIdentifierHashFunction := "" },
      TLSIntermediateCerts := [] },
    AnchorPeers := [],
    OrdererEndpoints := ordererEndpoints,
    ModPolicy := "" }

/-- Function `mapPeerOrg` (lines 972-1027). -/
def mapPeerOrg (mspID : String) (caCert : Option Certificate)
    (tlsCACert : Option Certificate) : Organization :=
  { Name := mspID,
    Policies := [
      ("Admins", { PolicyType := "Signature", Rule := "OR('" ++ mspID ++ ".admin')" }),
      ("Readers", { PolicyType := "Signature", Rule := "OR('" ++ mspID ++ ".member')" }),
      ("Writers", { PolicyType := "Signature", Rule := "OR('" ++ mspID ++ ".member')" }),
      ("Endorsement", { PolicyType := "Signature", Rule := "OR('" ++ mspID ++ ".member')" })],
    MSP := {
      Name := mspID,
      RootCerts := [caCert],
      TLSRootCerts := [tlsCACert],
      NodeOUs := {
        Enable := true,
        ClientOUIdentifier :=
          { Certificate := caCert, OrganizationalUnitIdentifier := "client" },
        PeerOUIdentifier :=
          { Certificate := caCert, OrganizationalUnitIdentifier := "peer" },
        AdminOUIdentifier :=
          { Certificate := caCert, OrganizationalUnitIdentifier := "admin" },
        OrdererOUIdentifier :=
          { Certificate := caCert, OrganizationalUnitIdentifier := "orderer" } },
      Admins := [],
      IntermediateCerts := [],
      RevocationList := [],
      OrganizationalUnitIdentifiers := [],
      CryptoConfig := { SignatureHashFamily := "", IdentityIdentifierHashFunction := "" },
      TLSIntermediateCerts := [] },
    AnchorPeers := [],
    OrdererEndpoints := [],
    ModPolicy := "" }

/-- Function `defaultACLs` (lines 1113-1181), entries in source order. -/
def defaultACLs : GoMap String :=
  [ ("_lifecycle/CheckCommitReadiness", "/Channel/Application/Writers"),
    ("_lifecycle/CommitChaincodeDefinition", "/Channel/Application/Writers"),
    ("_lifecycle/QueryChaincodeDefinition", "/Channel/Application/Writers"),
    ("_lifecycle/QueryChaincodeDefinitions", "/Channel/Application/Writers"),
    ("lscc/ChaincodeExists", "/Channel/Application/Readers"),
    ("lscc/GetDeploymentSpec", "/Channel/Application/Readers"),
    ("lscc/GetChaincodeData", "/Channel/Application/Readers"),
    ("lscc/GetInstantiatedChaincodes", "/Channel/Application/Readers"),
    ("qscc/GetChainInfo", "/Channel/Application/Readers"),
    ("qscc/GetBlockByNumber", "/Channel/Application/Readers"),
    ("qscc/GetBlockByHash", "/Channel/Application/Readers"),
    ("qscc/GetTransactionByID", "/Channel/Application/Readers"),
    ("qscc/GetBlockByTxID", "/Channel/Application/Readers"),
    ("cscc/GetConfigBlock", "/Channel/Application/Readers"),
    ("cscc/GetChannelConfig", "/Channel/Application/Readers"),
    ("peer/Propose", "/Channel/Application/Writers"),
    ("peer/ChaincodeToChaincode", "/Channel/Application/Writers"),
    ("event/Block", "/Channel/Application/Readers"),
    ("event/FilteredBlock", "/Channel/Application/Readers") ]

/-! ## `mapToConfigTX` -/

/-- Conversion `uint32(x)` of a Go `int`. -/
def toUint32 (x : Int) : Nat :=
  (x % 4294967296).toNat

/-- Consenter loop of `mapToConfigTX` (lines 673-687). -/
def consentersLoop (env : BuildEnv) :
    List FabricMainChannelConsenter → List Consenter → Except String (List Consenter)
  | [], consenters => .ok consenters
  | consenter :: rest, consenters =>
    match env.ParseX509Certificate consenter.TLSCert with
    | .error err => .error err
    | .ok tlsCert =>
      let channelConsenter : Consenter :=
        { Address := { Host := consenter.Host, Port := consenter.Port },
          ClientTLSCert := some tlsCert,
          ServerTLSCert := some tlsCert }
      consentersLoop env rest (consenters ++ [channelConsenter])

/-- Certificates of one orderer organization (lines 698-727): through the
certificate authority when both its name and namespace are given, else from the
two inline certificates when both are given, else both stay nil. -/
def ordererOrgCerts (env : BuildEnv) (ordererOrg : FabricMainChannelOrdererOrganization) :
    Except String (Option Certificate × Option Certificate) :=
  if ordererOrg.CAName != "" && ordererOrg.CANamespace != "" then
    match env.GetCertAuthByName ordererOrg.CAName ordererOrg.CANamespace with
    | .error err => .error err
    | .ok certAuth =>
      match env.ParseX509Certificate certAuth.TLSCACert with
      | .error err => .error err
      | .ok tlsCACert =>
        match env.ParseX509Certificate certAuth.CACert with
        | .error err => .error err
        | .ok caCert => .ok (some tlsCACert, some caCert)
  else if ordererOrg.TLSCACert != "" && ordererOrg.SignCACert != "" then
    match env.ParseX509Certificate ordererOrg.TLSCACert with
    | .error err => .error err
    | .ok tlsCACert =>
      match env.ParseX509Certificate ordererOrg.SignCACert with
      | .error err => .error err
      | .ok caCert => .ok (some tlsCACert, some caCert)
  else .ok (none, none)

/-- Orderer organization loop of `mapToConfigTX` (lines 697-729). -/
def ordererOrgsLoop (env : BuildEnv) :
    List FabricMainChannelOrdererOrganization → List Organization →
      Except String (List Organization)
  | [], ordererOrgs => .ok ordererOrgs
  | ordererOrg :: rest, ordererOrgs =>
    match ordererOrgCerts env ordererOrg with
    | .error err => .error err
    | .ok (tlsCACert, caCert) =>
      ordererOrgsLoop env rest
        (ordererOrgs ++
          [mapOrdererOrg ordererOrg.MSPID ordererOrg.OrdererEndpoints caCert tlsCACert])

/-- External orderer organization loop of `mapToConfigTX` (lines 730-740). -/
def externalOrdererOrgsLoop (env : BuildEnv) :
    List FabricMainChannelExternalOrdererOrganization → List Organization →
      Except String (List Organization)
  | [], ordererOrgs => .ok ordererOrgs
  | ordererOrg :: rest, ordererOrgs =>
    match env.ParseX509Certificate ordererOrg.TLSRootCert with
    | .error err => .error err
    | .ok tlsCACert =>
      match env.ParseX509Certificate ordererOrg.SignRootCert with
      | .error err => .error err
      | .ok caCert =>
        externalOrdererOrgsLoop env rest
          (ordererOrgs ++
            [mapOrdererOrg ordererOrg.MSPID ordererOrg.OrdererEndpoints (some caCert)
              (some tlsCACert)])

/-- Raft options of `mapToConfigTX` (lines 741-757): the defaults, replaced as a
block when the spec carries an options block. -/
def etcdRaftOptionsOf (spec : FabricMainChannelSpec) : EtcdRaftOptions :=
  let etcdRaftOptions : EtcdRaftOptions :=
    { TickInterval := "500ms",
      ElectionTick := 10,
      HeartbeatTick := 1,
      MaxInflightBlocks := 5,
      SnapshotIntervalSize := 16 * 1024 * 1024 }
  match spec.ChannelConfig with
  | none => etcdRaftOptions
  | some channelConfig =>
    match channelConfig.Orderer with
    | none => etcdRaftOptions
    | some ordererCfg =>
      match ordererCfg.EtcdRaft with
      | none => etcdRaftOptions
      | some etcdRaft =>
        match etcdRaft.Options with
        | none => etcdRaftOptions
        | some options =>
          { TickInterval := options.TickInterval,
            ElectionTick := options.ElectionTick,
            HeartbeatTick := options.HeartbeatTick,
            MaxInflightBlocks := options.MaxInflightBlocks,
            SnapshotIntervalSize := options.SnapshotIntervalSize }

/-- Body of the two admin-rule loops (lines 761-766 and 857-862): the quoted
identifier with the `.admin` suffix is appended, then a comma unless the index
is the last one. `len` is the length of the whole list. -/
def adminRuleLoop (len : Nat) : Nat → List String → String → String
  | _, [], rule => rule
  | idx, mspID :: rest, rule =>
    let rule1 := rule ++ ("'" ++ mspID ++ ".admin'")
    let rule2 := if (idx : Int) < (len : Int) - 1 then rule1 ++ "," else rule1
    adminRuleLoop len (idx + 1) rest rule2

/-- Orderer admin rule of `mapToConfigTX` (lines 758-768): the majority rule
unless the admin orderer list is non-nil. -/
def ordererAdminRuleOf (spec : FabricMainChannelSpec) : String :=
  match spec.AdminOrdererOrganizations with
  | none => "MAJORITY Admins"
  | some adminOrgs =>
    adminRuleLoop adminOrgs.length 0 (adminOrgs.map (fun adminOrg => adminOrg.MSPID)) "OR("
      ++ ")"

/-- Application admin rule of `mapToConfigTX` (lines 852-864): the majority rule
when the admin peer list has length zero. -/
def adminAppPolicyOf (spec : FabricMainChannelSpec) : String :=
  if spec.AdminPeerOrganizations.length == 0 then "MAJORITY Admins"
  else
    adminRuleLoop spec.AdminPeerOrganizations.length 0
        (spec.AdminPeerOrganizations.map (fun adminPeerOrg => adminPeerOrg.MSPID)) "OR("
      ++ ")"

/-- Orderer section before the overrides (lines 769-803). -/
def baseOrderer (spec : FabricMainChannelSpec) (ordererOrgs : List Organization)
    (consenters : List Consenter) : Orderer :=
  { OrdererType := "etcdraft",
    Organizations := ordererOrgs,
    EtcdRaft := { Consenters := consenters, Options := etcdRaftOptionsOf spec },
    Policies := [
      ("Readers", { PolicyType := "ImplicitMeta", Rule := "ANY Readers" }),
      ("Writers", { PolicyType := "ImplicitMeta", Rule := "ANY Writers" }),
      ("Admins", { PolicyType := "Signature", Rule := ordererAdminRuleOf spec }),
      ("BlockValidation", { PolicyType := "ImplicitMeta", Rule := "ANY Writers" })],
    Capabilities := ["V2_0"],
    BatchSize :=
      { MaxMessageCount := 100,
        AbsoluteMaxBytes := 1024 * 1024,
        PreferredMaxBytes := 512 * 1024 },
    BatchTimeout := 2 * 1000000000,
    State := "STATE_NORMAL" }

/-- Batch overrides of `mapToConfigTX` (lines 804-819). -/
def applyOrdererOverrides (env : BuildEnv) (spec : FabricMainChannelSpec)
    (ordConfigtx : Orderer) : Except String Orderer :=
  match spec.ChannelConfig with
  | none => .ok ordConfigtx
  | some channelConfig =>
    match channelConfig.Orderer with
    | none => .ok ordConfigtx
    | some ordererCfg =>
      let withTimeout : Except String Orderer :=
        if ordererCfg.BatchTimeout != "" then
          match env.ParseDuration ordererCfg.BatchTimeout with
          | .error err => .error err
          | .ok batchTimeout => .ok { ordConfigtx with BatchTimeout := batchTimeout }
        else .ok ordConfigtx
      match withTimeout with
      | .error err => .error err
      | .ok ord1 =>
        match ordererCfg.BatchSize with
        | none => .ok ord1
        | some batchSize =>
          .ok { ord1 with
                  BatchSize :=
                    { MaxMessageCount := toUint32 batchSize.MaxMessageCount,
                      AbsoluteMaxBytes := toUint32 batchSize.AbsoluteMaxBytes,
                      PreferredMaxBytes := toUint32 batchSize.PreferredMaxBytes } }

/-- Peer organization loop of `mapToConfigTX` (lines 821-840). -/
def peerOrgsLoop (env : BuildEnv) :
    List FabricMainChannelPeerOrganization → List Organization →
      Except String (List Organization)
  | [], peerOrgs => .ok peerOrgs
  | peerOrg :: rest, peerOrgs =>
    match env.GetCertAuthByName peerOrg.CAName peerOrg.CANamespace with
    | .error err => .error err
    | .ok certAuth =>
      match env.ParseX509Certificate certAuth.TLSCACert with
      | .error err => .error err
      | .ok tlsCACert =>
        match env.ParseX509Certificate certAuth.CACert with
        | .error err => .error err
        | .ok caCert =>
          peerOrgsLoop env rest
            (peerOrgs ++ [mapPeerOrg peerOrg.MSPID (some caCert) (some tlsCACert)])

/-- External peer organization loop of `mapToConfigTX` (lines 841-851). -/
def externalPeerOrgsLoop (env : BuildEnv) :
    List FabricMainChannelExternalPeerOrganization → List Organization →
      Except String (List Organization)
  | [], peerOrgs => .ok peerOrgs
  | peerOrg :: rest, peerOrgs =>
    match env.ParseX509Certificate peerOrg.TLSRootCert with
    | .error err => .error err
    | .ok tlsCACert =>
      match env.ParseX509Certificate peerOrg.SignRootCert with
      | .error err => .error err
      | .ok caCert =>
        externalPeerOrgsLoop env rest
          (peerOrgs ++ [mapPeerOrg peerOrg.MSPID (some caCert) (some tlsCACert)])

/-- Function `mapToConfigTX` (lines 671-913) on the spec of the channel. -/
def mapToConfigTX (env : BuildEnv) (spec : FabricMainChannelSpec) : Except String Channel :=
  match consentersLoop env spec.Consenters [] with
  | .error err => .error err
  | .ok consenters =>
    match env.GetClientKubeWithConf with
    | some err => .error err
    | none =>
      match env.NewForConfig with
      | some err => .error err
      | none =>
        match ordererOrgsLoop env spec.OrdererOrganizations [] with
        | .error err => .error err
        | .ok ordererOrgs1 =>
          match externalOrdererOrgsLoop env spec.ExternalOrdererOrganizations ordererOrgs1 with
          | .error err => .error err
          | .ok ordererOrgs =>
            match applyOrdererOverrides env spec (baseOrderer spec ordererOrgs consenters) with
            | .error err => .error err
            | .ok ordConfigtx =>
              match peerOrgsLoop env spec.PeerOrganizations [] with
              | .error err => .error err
              | .ok peerOrgs1 =>
                match externalPeerOrgsLoop env spec.ExternalPeerOrganizations peerOrgs1 with
                | .error err => .error err
                | .ok peerOrgs =>
                  .ok
                    { Orderer := ordConfigtx,
                      Application :=
                        { Organizations := peerOrgs,
                          Capabilities := ["V2_0"],
                          Policies := [
                            ("Readers",
                              { PolicyType := "ImplicitMeta", Rule := "ANY Readers" }),
                            ("Writers",
                              { PolicyType := "ImplicitMeta", Rule := "ANY Writers" }),
                            ("Admins",
                              { PolicyType := "Signature", Rule := adminAppPolicyOf spec }),
                            ("Endorsement",
                              { PolicyType := "ImplicitMeta", Rule := "MAJORITY Endorsement" }),
                            ("LifecycleEndorsement",
                              { PolicyType := "ImplicitMeta", Rule := "MAJORITY Endorsement" })],
                          ACLs := defaultACLs },
                      Capabilities := ["V2_0"],
                      Policies := [
                        ("Readers", { PolicyType := "ImplicitMeta", Rule := "ANY Readers" }),
                        ("Writers", { PolicyType := "ImplicitMeta", Rule := "ANY Writers" }),
                        ("Admins", { PolicyType := "ImplicitMeta", Rule := "MAJORITY Admins" })] }

/-! ## The update computation (`resmgmt.CalculateConfigUpdate`) -/

/-- Delta of `common.ConfigUpdate`: the channel and the two configurations it was
computed from. -/
structure ConfigUpdate where
  ChannelId : String
  ReadFrom : Config
  WriteTo : Config
deriving DecidableEq

/-- Text that line 422 looks for in the error of the update computation. -/
def noDifferences : String :=
  "no differences detected between original and updated config"

/-! ## Statements of the specification, and sample data -/

/-- Round-trip law as the specification words it: after a successful run the
working copy has, under every name, the target's organization, and the target's
policies and ACLs. -/
def RoundTripLaw (lib : Lib) (c : ConfigTx) (t : Channel) : Prop :=
  ∀ s, updateApplicationChannelConfigTx lib c t = .ok s →
    (∀ n, findOrg s.groups n = findOrg t.Application.Organizations n) ∧
      s.tx.updated.Application.Policies = t.Application.Policies ∧
      s.tx.updated.Application.ACLs = t.Application.ACLs

/-- Library in which no call fails. -/
def libOk : Lib :=
  { policyErr := fun _ => none,
    orgErr := fun _ => none,
    aclsErr := fun _ => none,
    decodeErr := fun _ => none }

/-- Library in which only the ACL replacement fails. -/
def libAclFail : Lib :=
  { policyErr := fun _ => none,
    orgErr := fun _ => none,
    aclsErr := fun _ => some "marshal",
    decodeErr := fun _ => none }

/-- Library that rejects every policy. -/
def libPolicyFail : Lib :=
  { policyErr := fun _ => some "unknown policy type",
    orgErr := fun _ => none,
    aclsErr := fun _ => none,
    decodeErr := fun _ => none }

/-- Sample application policies. -/
def samplePolicies : GoMap Policy :=
  [ ("Readers", { PolicyType := "ImplicitMeta", Rule := "ANY Readers" }),
    ("Writers", { PolicyType := "ImplicitMeta", Rule := "ANY Writers" }),
    ("Admins", { PolicyType := "ImplicitMeta", Rule := "MAJORITY Admins" }) ]

/-- Sample organization `A`. -/
def orgA : Organization := mapPeerOrg "A" (some ⟨"ca-a"⟩) (some ⟨"tls-a"⟩)

/-- Sample organization `B` as the current configuration holds it. -/
def orgB : Organization := mapPeerOrg "B" (some ⟨"ca-b"⟩) (some ⟨"tls-b"⟩)

/-- Sample organization `B` as a target redefines it, with renewed certificates. -/
def orgBRenewed : Organization := mapPeerOrg "B" (some ⟨"ca-b2"⟩) (some ⟨"tls-b2"⟩)

/-- Sample organization `C`. -/
def orgC : Organization := mapPeerOrg "C" (some ⟨"ca-c"⟩) (some ⟨"tls-c"⟩)

/-- Current configuration with the organizations `A` and `B` and old policies. -/
def configAB : Config :=
  { Application :=
      { Groups := [orgA, orgB],
        Policies := [
          ("Readers", { PolicyType := "ImplicitMeta", Rule := "ANY Readers" }),
          ("Writers", { PolicyType := "ImplicitMeta", Rule := "ANY Writers" }),
          ("Admins", { PolicyType := "ImplicitMeta", Rule := "ANY Admins" }),
          ("Legacy", { PolicyType := "ImplicitMeta", Rule := "ANY Readers" }) ],
        ACLs := [("peer/Propose", "/Channel/Application/Readers")],
        Capabilities := ["V2_0"] },
    Rest := "orderer" }

/-- Orderer section used by the sample targets. -/
def sampleOrderer : Orderer :=
  { OrdererType := "etcdraft",
    Organizations := [],
    EtcdRaft :=
      { Consenters := [],
        Options :=
          { TickInterval := "500ms", ElectionTick := 10, HeartbeatTick := 1,
            MaxInflightBlocks := 5, SnapshotIntervalSize := 16 * 1024 * 1024 } },
    Policies := [],
    Capabilities := ["V2_0"],
    BatchSize :=
      { MaxMessageCount := 100, AbsoluteMaxBytes := 1024 * 1024,
        PreferredMaxBytes := 512 * 1024 },
    BatchTimeout := 2 * 1000000000,
    State := "STATE_NORMAL" }

/-- Target channel with the given application organizations, policies and ACLs. -/
def targetWith (orgs : List Organization) (policies : GoMap Policy) (acls : GoMap String) :
    Channel :=
  { Orderer := sampleOrderer,
    Application :=
      { Organizations := orgs, Capabilities := ["V2_0"], Policies := policies, ACLs := acls },
    Capabilities := ["V2_0"],
    Policies := [] }

/-- Target with the organizations `B` and `C`. -/
def targetBC : Channel := targetWith [orgB, orgC] samplePolicies defaultACLs

/-- Target that keeps `B` by name but with renewed certificates. -/
def targetBRenewed : Channel := targetWith [orgA, orgBRenewed] samplePolicies defaultACLs

/-- Quoted admin principal of one organization, `'<mspID>.admin'`. -/
def adminPrincipal (mspID : String) : String :=
  "'" ++ mspID ++ ".admin'"

/-- Admin rule as the specification words it: `OR(` and `)` around the quoted
admin principals of the identifiers, in list order, separated by single commas. -/
def orAdminRule (mspIDs : List String) : String :=
  "OR(" ++ ",".intercalate (mspIDs.map adminPrincipal) ++ ")"

/-- Environment in which every external call of the builder succeeds; a
certificate parses to itself. -/
def envOk : BuildEnv :=
  { ParseX509Certificate := fun pem => .ok ⟨pem⟩,
    GetClientKubeWithConf := none,
    NewForConfig := none,
    GetCertAuthByName := fun name _ => .ok { TLSCACert := "tls-" ++ name, CACert := "ca-" ++ name },
    ParseDuration := fun _ => .error "time: invalid duration" }

/-- Spec with the given admin lists: two peer organizations, one orderer
organization and no channel-config override. -/
def specWithAdmins (adminPeers : List String) (adminOrderers : Option (List String)) :
    FabricMainChannelSpec :=
  { Name := "mychannel",
    Identities := [],
    AdminPeerOrganizations := adminPeers.map (fun m => { MSPID := m }),
    PeerOrganizations :=
      [ { MSPID := "Org1MSP", CAName := "org1-ca", CANamespace := "default" },
        { MSPID := "Org2MSP", CAName := "org2-ca", CANamespace := "default" } ],
    ExternalPeerOrganizations := [],
    ChannelConfig := none,
    AdminOrdererOrganizations :=
      adminOrderers.map (fun l => l.map (fun m => { MSPID := m })),
    OrdererOrganizations :=
      [ { MSPID := "OrdererMSP", CAName := "ord-ca", CANamespace := "default",
          TLSCACert := "", SignCACert := "", OrdererEndpoints := ["ord0:7050"],
          OrderersToJoin := [], ExternalOrderersToJoin := [] } ],
    ExternalOrdererOrganizations := [],
    Consenters := [ { Host := "ord0", Port := 7050, TLSCert := "tls-ord0" } ] }

/-! ## The reconciled object and its status -/

/-- Deployment status of `hlfv1alpha1.DeploymentStatus`, a string. -/
abbrev DeploymentStatus := String

/-- Constant `hlfv1alpha1.FailedStatus`. -/
def FailedStatus : DeploymentStatus := "FAILED"

/-- Constant `hlfv1alpha1.RunningStatus`. -/
def RunningStatus : DeploymentStatus := "RUNNING"

/-- Condition of `status.Condition`; `CondType` is the Go field `Type`, and the
transition time is left out. -/
structure Condition where
  CondType : String
  Status : String
  Reason : String
  Message : String
deriving DecidableEq

/-- Status of the object, `FabricMainChannelStatus`. -/
structure FabricMainChannelStatus where
  Status : DeploymentStatus
  Message : String
  Conditions : List Condition
deriving DecidableEq

/-- Object under reconciliation, `hlfv1alpha1.FabricMainChannel`. -/
structure FabricMainChannel where
  Name : String
  DeletionTimestamp : Option String
  Finalizers : List String
  Spec : FabricMainChannelSpec
  Status : FabricMainChannelStatus
deriving DecidableEq

/-- Modelled from the spec: `Conditions.SetCondition` of `pkg/status`, the status
sink, is not among the sources. The condition replaces the recorded condition of
its type, or is appended when there is none; the result tells whether the record
changed. -/
def SetCondition : List Condition → Condition → List Condition × Bool
  | [], newCond => ([newCond], true)
  | condition :: rest, newCond =>
    if condition.CondType == newCond.CondType then
      (newCond :: rest,
        condition.Status != newCond.Status || condition.Reason != newCond.Reason ||
          condition.Message != newCond.Message)
    else
      let r := SetCondition rest newCond
      (condition :: r.1, r.2)

/-! ## Values exchanged with the outside during a pass -/

/-- Block of `common.Block`, by its serialized content. -/
structure Block where
  Data : String
deriving DecidableEq

/-- Response of the admin endpoint: the status code and the result of reading the body. -/
structure JoinResponse where
  StatusCode : Int
  Body : Except String String

/-- Secret of the cluster, by its data map. -/
structure Secret where
  Data : GoMap String
deriving DecidableEq

/-- Enrolled identity read from a secret, the type `identity` (lines 1029-1035). -/
structure identity where
  Cert : String
  Key : String
deriving DecidableEq

/-- Signing identity created for an organization. -/
structure SigningIdentity where
  MSPID : String
  Cert : String
  Key : String
deriving DecidableEq

/-- Signature of `cb.ConfigSignature`: who signed and over which bytes. -/
structure ConfigSignature where
  Signer : SigningIdentity
  Over : String
deriving DecidableEq

/-- Result of `ctrl.Result`; the delay is in nanoseconds. -/
structure Result where
  Requeue : Bool
  RequeueAfter : Int
deriving DecidableEq

/-- Outcome of reading the config map. -/
inductive ConfigMapGet where
  | found (data : GoMap String)
  | notFound (err : String)
  | failed (err : String)
deriving DecidableEq

/-- Outcome of `r.Get` on the request. -/
inductive GetOutcome where
  | found (obj : FabricMainChannel)
  | notFound (err : String)
  | failed (err : String)
deriving DecidableEq

/-- Effects of a pass that the claims speak about, in program order. The number
of a `setFailed` event is the source line of the `setConditionStatus` call. -/
inductive Event where
  | setFailed (line : Nat) (err : String)
  | statusPatch (status : DeploymentStatus)
  | statusUpdate
  | joinRequest (osnUrl : String)
  | queryConfigBlock (idx : Nat)
  | sleep (millis : Nat)
  | createSignature (mspID : String) (payload : String)
  | saveChannel (channelID : String) (payload : String) (signatures : List ConfigSignature)
  | startPoller
  | configMapCreate (name : String)
  | configMapUpdate (name : String)
deriving DecidableEq

/-- Everything a pass asks of the outside: the cluster API, the admin endpoints,
the SDK and the ordering service. Calls whose answer may change during a pass
take the number of earlier calls of their kind. -/
structure Env where
  build : BuildEnv
  lib : Lib
  Get : GetOutcome
  UpdateObject : Option String
  StatusPatch : DeploymentStatus → Option String
  StatusUpdate : FabricMainChannelStatus → Option String
  NewApplicationChannelGenesisBlock : Channel → String → Except String Block
  MarshalBlock : Block → Except String String
  AppendCertsFromPEM : String → Bool
  SecretsGet : String → String → Except String Secret
  yamlUnmarshal : String → Except String identity
  Join : Nat → String → String → Except String JoinResponse
  jsonUnmarshalChannelInfo : String → Option String
  OrdererNodesGet : String → String → Except String String
  GetOrdererAdminHostAndPort : String → Except String (String × Int)
  GenerateNetworkConfig : Except String String
  fabsdkNew : String → Option String
  sdkConfig : Option String
  GetSuiteByConfig : Option String
  ConfigFromBackend : Option String
  NewIdentityManager : String → Option String
  CreateSigningIdentity : String → identity → Except String SigningIdentity
  resmgmtNew : SigningIdentity → String → Option String
  QueryConfigBlockFromOrderer : Nat → Except String Block
  queryMillis : Nat → Nat
  ExtractConfigFromBlock : Block → Except String Config
  DeepMarshalJSON : Config → Except String String
  CalculateConfigUpdate : String → Config → Config → Except String ConfigUpdate
  MarshalConfigUpdate : ConfigUpdate → Except String String
  CreateSignedEnvelope : String → String → Except String String
  MarshalEnvelope : String → Except String String
  CreateConfigSignatureFromReader : SigningIdentity → String → Except String ConfigSignature
  SaveChannel : String → String → List ConfigSignature → List String → Except String String
  ConfigMapsGet : String → String → ConfigMapGet
  ConfigMapsCreate : String → String → Option String
  ConfigMapsUpdate : String → GoMap String → Option String

/-- Mutable part of a pass: the status of the object and the events so far. -/
structure Pass where
  status : FabricMainChannelStatus
  trace : List Event
deriving DecidableEq

/-- What `Reconcile` hands back: the result and the error, or a run-time panic. -/
inductive Return where
  | returned (result : Result) (err : Option String)
  | panicked (msg : String)
deriving DecidableEq

/-- Progress of a pass after a step: it goes on with a value, or it has ended. -/
inductive Flow (α : Type) where
  | next (a : α) (p : Pass)
  | done (r : Return) (p : Pass)

/-- Function `setConditionStatus` (lines 624-661). When the status changes, the
result of the status patch overwrites the error that was passed in. -/
def setConditionStatus (env : Env) (p : Pass) (conditionType : DeploymentStatus)
    (statusFlag : Bool) (err : Option String) (statusUnknown : Bool) : Pass × Bool :=
  let statusStr : String :=
    if statusUnknown then "Unknown" else if statusFlag then "True" else "False"
  let changed : Bool := p.status.Status != conditionType
  let p1 : Pass :=
    if changed then
      { status := { p.status with Status := conditionType },
        trace := p.trace ++ [Event.statusPatch conditionType] }
    else p
  let err1 : Option String := if changed then env.StatusPatch conditionType else err
  let p2 : Pass :=
    match err1 with
    | some e => { p1 with status := { p1.status with Message := e } }
    | none => p1
  let condition : Condition :=
    match err1 with
    | some e => { CondType := conditionType, Status := statusStr, Reason := e, Message := e }
    | none => { CondType := conditionType, Status := statusStr, Reason := "", Message := "" }
  let r := SetCondition p2.status.Conditions condition
  ({ p2 with status := { p2.status with Conditions := r.1 } }, r.2)

/-- Function `updateCRStatusOrFailReconcile` (lines 615-622). -/
def updateCRStatusOrFailReconcile (env : Env) (p : Pass) : Return × Pass :=
  let p1 : Pass := { p with trace := p.trace ++ [Event.statusUpdate] }
  match env.StatusUpdate p.status with
  | some err => (Return.returned { Requeue := false, RequeueAfter := 0 } (some err), p1)
  | none => (Return.returned { Requeue := false, RequeueAfter := 0 } none, p1)

/-- The failure idiom of `Reconcile`: `setConditionStatus` with `FailedStatus` and
the error, at the given source line, then `updateCRStatusOrFailReconcile`. -/
def failAt {α : Type} (env : Env) (p : Pass) (line : Nat) (err : String) : Flow α :=
  let p1 : Pass := { p with trace := p.trace ++ [Event.setFailed line err] }
  let p2 := (setConditionStatus env p1 FailedStatus false (some err) false).1
  let r := updateCRStatusOrFailReconcile env p2
  Flow.done r.1 r.2

/-! ## `Reconcile`, phase by phase -/

/-- Sequencing of steps: a pass that has ended stays ended. -/
def Flow.bind {α β : Type} (f : Flow α) (g : α → Pass → Flow β) : Flow β :=
  match f with
  | Flow.next a p => g a p
  | Flow.done r p => Flow.done r p

/-- The idiom `if err != nil { fail }` on a call that returns a value. -/
def orFail {α : Type} (env : Env) (p : Pass) (line : Nat) (r : Except String α) : Flow α :=
  match r with
  | .ok a => Flow.next a p
  | .error err => failAt env p line err

/-- The idiom `if err != nil { fail }` on a call that returns only an error. -/
def orFailErr (env : Env) (p : Pass) (line : Nat) (r : Option String) : Flow Unit :=
  match r with
  | none => Flow.next () p
  | some err => failAt env p line err

/-- Test `strings.Contains` on the characters of the two strings. -/
def containsChars : List Char → List Char → Bool
  | [], substr => substr.isEmpty
  | c :: cs, substr => substr.isPrefixOf (c :: cs) || containsChars cs substr

/-- Function `strings.Contains`. -/
def strContains (s substr : String) : Bool :=
  containsChars s.toList substr.toList

/-- Number of join requests sent so far in the pass. -/
def joinCount (p : Pass) : Nat :=
  (p.trace.filter (fun e => match e with
    | Event.joinRequest _ => true
    | _ => false)).length

/-- Number of ordering-service queries issued so far in the pass. -/
def queryCount (p : Pass) : Nat :=
  (p.trace.filter (fun e => match e with
    | Event.queryConfigBlock _ => true
    | _ => false)).length

/-- Text of the error for a join response that is neither 201 nor 405. -/
def joinStatusError (osnUrl : String) (channelName : String) (statusCode : Int)
    (responseData : String) : String :=
  "response from orderer " ++ osnUrl ++ " trying to join to the channel " ++ channelName
    ++ ": " ++ toString statusCode ++ ", response: " ++ responseData

/-- One join request and the handling of its response (lines 200-239 for an
external node, 255-293 for a cluster node); `lines` are the source lines of the
four failure sites. HTTP 405 continues with the next node without reading the
body; any status other than 201 fails the pass. -/
def joinRequest (env : Env) (channelName : String) (blockBytes : String) (osnUrl : String)
    (lines : Nat × Nat × Nat × Nat) (p : Pass) : Flow Unit :=
  let p1 : Pass := { p with trace := p.trace ++ [Event.joinRequest osnUrl] }
  match env.Join (joinCount p) osnUrl blockBytes with
  | .error err => failAt env p1 lines.1 err
  | .ok chResponse =>
    if chResponse.StatusCode == 405 then Flow.next () p1
    else
      match chResponse.Body with
      | .error err => failAt env p1 lines.2.1 err
      | .ok responseData =>
        if chResponse.StatusCode != 201 then
          failAt env p1 lines.2.2.1
            (joinStatusError osnUrl channelName chResponse.StatusCode responseData)
        else
          match env.jsonUnmarshalChannelInfo responseData with
          | some err => failAt env p1 lines.2.2.2 err
          | none => Flow.next () p1

/-- Loop over the external orderers of one organization (lines 197-240). -/
def joinExternalOrderers (env : Env) (channelName : String) (blockBytes : String) :
    List FabricMainChannelExternalOrdererNode → Pass → Flow Unit
  | [], p => Flow.next () p
  | cc :: rest, p =>
    let osnUrl := "https://" ++ cc.Host ++ ":" ++ toString cc.AdminPort
    (joinRequest env channelName blockBytes osnUrl (202, 212, 218, 237) p).bind
      (fun _ p1 => joinExternalOrderers env channelName blockBytes rest p1)

/-- Loop over the cluster orderers of one organization (lines 242-294). -/
def joinClusterOrderers (env : Env) (channelName : String) (blockBytes : String) :
    List FabricMainChannelOrdererNode → Pass → Flow Unit
  | [], p => Flow.next () p
  | cc :: rest, p =>
    (orFail env p 245 (env.OrdererNodesGet cc.Namespace cc.Name)).bind (fun ordererNode p1 =>
      (orFail env p1 250 (env.GetOrdererAdminHostAndPort ordererNode)).bind (fun hp p2 =>
        let osnUrl := "https://" ++ hp.1 ++ ":" ++ toString hp.2
        (joinRequest env channelName blockBytes osnUrl (257, 267, 272, 291) p2).bind
          (fun _ p3 => joinClusterOrderers env channelName blockBytes rest p3)))

/-- TLS root certificate used towards the nodes of one orderer organization
(lines 149-165); it stays empty when neither route applies. -/
def joinTLSCACert (env : Env) (ordererOrg : FabricMainChannelOrdererOrganization)
    (p : Pass) : Flow String :=
  if ordererOrg.CAName != "" && ordererOrg.CANamespace != "" then
    (orFail env p 158 (env.build.GetCertAuthByName ordererOrg.CAName ordererOrg.CANamespace)).bind
      (fun certAuth p1 => Flow.next certAuth.TLSCACert p1)
  else if ordererOrg.TLSCACert != "" && ordererOrg.SignCACert != "" then
    Flow.next ordererOrg.TLSCACert p
  else Flow.next "" p

/-- Body of the loop over the orderer organizations (lines 148-295): the
certificate pool and the client identity of the organization, then its external
and its cluster nodes. -/
def joinOrdererOrg (env : Env) (spec : FabricMainChannelSpec) (blockBytes : String)
    (ordererOrg : FabricMainChannelOrdererOrganization) (p : Pass) : Flow Unit :=
  (joinTLSCACert env ordererOrg p).bind (fun tlsCACert p1 =>
    if !env.AppendCertsFromPEM tlsCACert then
      failAt env p1 169 ("couldn't append certs from org " ++ ordererOrg.MSPID)
    else
      match spec.Identities.get ordererOrg.MSPID with
      | none => failAt env p1 174 ("identity not found for MSPID " ++ ordererOrg.MSPID)
      | some idConfig =>
        (orFail env p1 179 (env.SecretsGet idConfig.SecretNamespace idConfig.SecretName)).bind
          (fun secret p2 =>
            match secret.Data.get idConfig.SecretKey with
            | none => failAt env p2 185 ("secret key " ++ idConfig.SecretKey ++ " not found")
            | some secretData =>
              (orFail env p2 190 (env.yamlUnmarshal secretData)).bind (fun _ p3 =>
                (joinExternalOrderers env spec.Name blockBytes
                    ordererOrg.ExternalOrderersToJoin p3).bind (fun _ p4 =>
                  joinClusterOrderers env spec.Name blockBytes ordererOrg.OrderersToJoin p4))))

/-- Join phase (lines 148-295). -/
def joinOrderers (env : Env) (spec : FabricMainChannelSpec) (blockBytes : String) :
    List FabricMainChannelOrdererOrganization → Pass → Flow Unit
  | [], p => Flow.next () p
  | ordererOrg :: rest, p =>
    (joinOrdererOrg env spec blockBytes ordererOrg p).bind
      (fun _ p1 => joinOrderers env spec blockBytes rest p1)

/-- Resolution of the signing identity of one organization and of a resource
client for it (lines 309-368 for the first admin organization, 436-496 inside
the signature loop); `lines` are the source lines of the ten failure sites. -/
def resolveSigner (env : Env) (spec : FabricMainChannelSpec) (mspID : String)
    (lines : List Nat) (p : Pass) : Flow SigningIdentity :=
  match spec.Identities.get mspID with
  | none => failAt env p (lines.getD 0 0) ("identity not found for MSPID " ++ mspID)
  | some idConfig =>
    (orFail env p (lines.getD 1 0)
        (env.SecretsGet idConfig.SecretNamespace idConfig.SecretName)).bind (fun secret p1 =>
      match secret.Data.get idConfig.SecretKey with
      | none =>
        failAt env p1 (lines.getD 2 0) ("secret key " ++ idConfig.SecretKey ++ " not found")
      | some secretData =>
        (orFail env p1 (lines.getD 3 0) (env.yamlUnmarshal secretData)).bind (fun id p2 =>
          (orFailErr env p2 (lines.getD 4 0) env.sdkConfig).bind (fun _ p3 =>
            (orFailErr env p3 (lines.getD 5 0) env.GetSuiteByConfig).bind (fun _ p4 =>
              (orFailErr env p4 (lines.getD 6 0) env.ConfigFromBackend).bind (fun _ p5 =>
                (orFailErr env p5 (lines.getD 7 0) (env.NewIdentityManager mspID)).bind
                  (fun _ p6 =>
                    (orFail env p6 (lines.getD 8 0)
                        (env.CreateSigningIdentity mspID id)).bind (fun signingIdentity p7 =>
                      (orFailErr env p7 (lines.getD 9 0)
                          (env.resmgmtNew signingIdentity mspID)).bind (fun _ p8 =>
                        Flow.next signingIdentity p8))))))))

/-- Fetch of the current configuration block before the diff (lines 376-388):
the query is repeated after a pause of 1500 ms while it fails and attempts are
left. -/
def fetchLoop (env : Env) : Nat → Pass → Except String Block × Pass
  | attemptsLeft, p =>
    let p1 : Pass := { p with trace := p.trace ++ [Event.queryConfigBlock (queryCount p)] }
    match env.QueryConfigBlockFromOrderer (queryCount p) with
    | .ok ordererChannelBlock => (.ok ordererChannelBlock, p1)
    | .error err =>
      match attemptsLeft with
      | 0 => (.error err, p1)
      | n + 1 => fetchLoop env n { p1 with trace := p1.trace ++ [Event.sleep 1500] }

/-- Function `CreateConfigUpdateEnvelope` (lines 1037-1054). -/
def CreateConfigUpdateEnvelope (env : Env) (channelID : String) (configUpdate : ConfigUpdate) :
    Except String String :=
  match env.MarshalConfigUpdate { configUpdate with ChannelId := channelID } with
  | .error err => .error err
  | .ok configUpdateData =>
    match env.CreateSignedEnvelope channelID configUpdateData with
    | .error err => .error err
    | .ok envelope =>
      match env.MarshalEnvelope envelope with
      | .error err => .error err
      | .ok envelopeData => .ok envelopeData

/-- Map write `m[k] = v`. -/
def GoMap.set {V : Type} (m : GoMap V) (k : String) (v : V) : GoMap V :=
  (k, v) :: m.filter (fun e => e.1 != k)

/-- Source lines of the failure sites of the first admin organization's identity. -/
def firstAdminLines : List Nat := [311, 316, 321, 327, 332, 338, 344, 349, 357, 366]

/-- Source lines of the failure sites of an identity inside the signature loop. -/
def signatureLoopLines : List Nat := [438, 443, 448, 454, 459, 465, 471, 476, 484, 494]

/-- Signature loop (lines 434-503): for each admin peer organization in order,
its signing identity is resolved and its signature over the envelope bytes is
appended; the first failure ends the pass. -/
def collectSignatures (env : Env) (spec : FabricMainChannelSpec) (channelConfigBytes : String) :
    List FabricMainChannelAdminPeerOrganizationSpec → List ConfigSignature → Pass →
      Flow (List ConfigSignature)
  | [], configSignatures, p => Flow.next configSignatures p
  | adminPeer :: rest, configSignatures, p =>
    (resolveSigner env spec adminPeer.MSPID signatureLoopLines p).bind
      (fun signingIdentity p1 =>
        let p2 : Pass :=
          { p1 with trace :=
              p1.trace ++ [Event.createSignature adminPeer.MSPID channelConfigBytes] }
        (orFail env p2 499
            (env.CreateConfigSignatureFromReader signingIdentity channelConfigBytes)).bind
          (fun signature p3 =>
            collectSignatures env spec channelConfigBytes rest
              (configSignatures ++ [signature]) p3))

/-- Lines 420-522 of `Reconcile`, on the result of the update computation: an
error that does not contain the no-differences text fails the pass, one that
contains it is passed over, and an update is enveloped, signed by every admin
peer organization and submitted. -/
def diffStep (env : Env) (spec : FabricMainChannelSpec) (resmgmtOptions : List String)
    (computed : Except String ConfigUpdate) (p : Pass) : Flow Unit :=
  match computed with
  | .error err =>
    if !strContains err noDifferences then
      failAt env p 423 (wrapf err "error calculating config update")
    else Flow.next () p
  | .ok configUpdate =>
    match CreateConfigUpdateEnvelope env spec.Name configUpdate with
    | .error err => failAt env p 430 (wrapf err "error creating config update envelope")
    | .ok channelConfigBytes =>
      (collectSignatures env spec channelConfigBytes spec.AdminPeerOrganizations [] p).bind
        (fun configSignatures p1 =>
          let p2 : Pass :=
            { p1 with trace :=
                p1.trace ++ [Event.saveChannel spec.Name channelConfigBytes configSignatures] }
          match env.SaveChannel spec.Name channelConfigBytes configSignatures
              resmgmtOptions with
          | .error err => failAt env p2 518 (wrapf err "error saving application configuration")
          | .ok _ => Flow.next () p2)

/-- The poller and its caller up to the deadline (lines 525-541), with time in
milliseconds since the poller started: a query that succeeds before 12000 hands
its block over; a failed query is followed by a pause of 1000. Each round takes
at least 1000, so the twelve rounds of the initial fuel cover the time before
the deadline and the pass sees a timeout when they are used up. -/
def pollLoop (env : Env) : Nat → Nat → Pass → Option Block × Pass
  | 0, _, p => (none, p)
  | fuel + 1, elapsed, p =>
    let p1 : Pass := { p with trace := p.trace ++ [Event.queryConfigBlock (queryCount p)] }
    let finished := elapsed + env.queryMillis (queryCount p)
    match env.QueryConfigBlockFromOrderer (queryCount p) with
    | .ok ordererChannelBlock =>
      if finished < 12000 then (some ordererChannelBlock, p1) else (none, p1)
    | .error _ =>
      let p2 : Pass := { p1 with trace := p1.trace ++ [Event.sleep 1000] }
      if finished + 1000 < 12000 then pollLoop env fuel (finished + 1000) p2 else (none, p2)

/-- Lines 523-545 of `Reconcile`: the poller is started and the pass waits for its
block or for the deadline. -/
def pollStep (env : Env) (p : Pass) : Flow Block :=
  let p1 : Pass := { p with trace := p.trace ++ [Event.startPoller] }
  match pollLoop env 12 0 p1 with
  | (some res, p2) => Flow.next res p2
  | (none, p2) => failAt env p2 543 "timeout querying orderer channel"

/-- Lines 593-608 of `Reconcile`: the Running status, the CREATED condition and
the final status update. -/
def markRunning (env : Env) (p : Pass) : Flow Unit :=
  let st : FabricMainChannelStatus :=
    { p.status with Status := RunningStatus, Message := "Channel setup completed" }
  let st1 : FabricMainChannelStatus :=
    { st with Conditions :=
        (SetCondition st.Conditions
          { CondType := "CREATED", Status := "True", Reason := "", Message := "" }).1 }
  let p1 : Pass := { status := st1, trace := p.trace ++ [Event.statusUpdate] }
  match env.StatusUpdate st1 with
  | some err => failAt env p1 602 err
  | none => Flow.done (Return.returned { Requeue := false, RequeueAfter := 0 } none) p1

/-- Lines 546-608 of `Reconcile`: the converged block is written to the config
map and the object is marked Running. -/
def finishStep (env : Env) (obj : FabricMainChannel) (ordererChannelBlock : Block)
    (p : Pass) : Flow Unit :=
  match env.ExtractConfigFromBlock ordererChannelBlock with
  | .error err => failAt env p 548 (wrapf err "error extracting the config from block")
  | .ok cmnConfig =>
    match env.DeepMarshalJSON cmnConfig with
    | .error err => failAt env p 554 (wrapf err "error converting block to JSON")
    | .ok buf =>
      let configMapName := obj.Name ++ "-config"
      match env.ConfigMapsGet "default" configMapName with
      | ConfigMapGet.failed err => failAt env p 566 (wrapf err "error getting configmap")
      | ConfigMapGet.notFound _ =>
        let p1 : Pass := { p with trace := p.trace ++ [Event.configMapCreate configMapName] }
        match env.ConfigMapsCreate configMapName buf with
        | some err => failAt env p1 582 (wrapf err "error creating config map")
        | none => markRunning env p1
      | ConfigMapGet.found data =>
        let p1 : Pass := { p with trace := p.trace ++ [Event.configMapUpdate configMapName] }
        match env.ConfigMapsUpdate configMapName (data.set "channel.json" buf) with
        | some err => failAt env p1 589 (wrapf err "error updating config map")
        | none => markRunning env p1

/-- Lines 420-608 of `Reconcile`, from the result of the update computation to
the end of the pass. -/
def reconcileFromCalculate (env : Env) (obj : FabricMainChannel)
    (resmgmtOptions : List String) (computed : Except String ConfigUpdate) (p : Pass) : Flow Unit :=
  (diffStep env obj.Spec resmgmtOptions computed p).bind (fun _ p1 =>
    (pollStep env p1).bind (fun ordererChannelBlock p2 =>
      finishStep env obj ordererChannelBlock p2))

/-- Lines 122-146 of `Reconcile`: the clients, the target configuration, the
genesis block and its bytes. -/
def genesisStep (env : Env) (spec : FabricMainChannelSpec) (p : Pass) : Flow String :=
  (orFailErr env p 124 env.build.GetClientKubeWithConf).bind (fun _ p1 =>
    (orFailErr env p1 129 env.build.NewForConfig).bind (fun _ p2 =>
      (orFail env p2 134 (mapToConfigTX env.build spec)).bind (fun channelConfig p3 =>
        (orFail env p3 139
            (env.NewApplicationChannelGenesisBlock channelConfig spec.Name)).bind
          (fun block p4 => orFail env p4 144 (env.MarshalBlock block)))))

/-- Lines 296-368 of `Reconcile`: the network configuration, the SDK, and the
identity and resource client of the first admin peer organization. Reading
element 0 of an empty list is a run-time panic. -/
def firstAdminStep (env : Env) (spec : FabricMainChannelSpec) (p : Pass) :
    Flow SigningIdentity :=
  match env.GenerateNetworkConfig with
  | .error err => failAt env p 298 (wrapf err "failed to generate network config")
  | .ok networkConfig =>
    (orFailErr env p 305 (env.fabsdkNew networkConfig)).bind (fun _ p1 =>
      match spec.AdminPeerOrganizations with
      | [] =>
        Flow.done (Return.panicked "runtime error: index out of range [0] with length 0") p1
      | first :: _ => resolveSigner env spec first.MSPID firstAdminLines p1)

/-- Orderer endpoints passed as request options (lines 369-374). -/
def resmgmtOptionsOf (spec : FabricMainChannelSpec) : List String :=
  spec.OrdererOrganizations.flatMap (fun ordOrg => ordOrg.OrdererEndpoints)

/-- Lines 375-419 of `Reconcile`: the current block is fetched, its configuration
extracted, the target built again and applied to the working copy; the result
is the fetched configuration and the transaction after the differ. -/
def fetchAndDiff (env : Env) (spec : FabricMainChannelSpec) (p : Pass) :
    Flow (Config × ConfigTx) :=
  match fetchLoop env 5 p with
  | (.error err, p1) =>
    failAt env p1 392 (wrapf err ("failed to get block from channel " ++ spec.Name))
  | (.ok ordererChannelBlock, p1) =>
    match env.ExtractConfigFromBlock ordererChannelBlock with
    | .error err => failAt env p1 398 (wrapf err "failed to extract config from channel block")
    | .ok cfgBlock =>
      match mapToConfigTX env.build spec with
      | .error err => failAt env p1 404 (wrapf err "error mapping channel to configtx channel")
      | .ok newConfigTx =>
        match env.DeepMarshalJSON cfgBlock with
        | .error err => failAt env p1 410 (wrapf err "error converting block to JSON")
        | .ok _ =>
          match updateApplicationChannelConfigTx env.lib (ConfigTx.New cfgBlock)
              newConfigTx with
          | .error err =>
            failAt env p1 417 (wrapf err "failed to update application channel config")
          | .ok s => Flow.next (cfgBlock, s.tx) p1

/-- Lines 122-608 of `Reconcile`, on the object that was read. -/
def reconcileObject (env : Env) (obj : FabricMainChannel) (p : Pass) : Flow Unit :=
  (genesisStep env obj.Spec p).bind (fun blockBytes p1 =>
    (joinOrderers env obj.Spec blockBytes obj.Spec.OrdererOrganizations p1).bind (fun _ p2 =>
      (firstAdminStep env obj.Spec p2).bind (fun _ p3 =>
        (fetchAndDiff env obj.Spec p3).bind (fun cur p4 =>
          reconcileFromCalculate env obj (resmgmtOptionsOf obj.Spec)
            (env.CalculateConfigUpdate obj.Spec.Name cur.1 cur.2.UpdatedConfig) p4))))

/-- Constant `mainChannelFinalizer`. -/
def mainChannelFinalizer : String := "finalizer.mainChannel.hlf.kungfusoftware.es"

/-- Result and final state of a flow that has run to its end. -/
def Flow.result (f : Flow Unit) : Return × Pass :=
  match f with
  | Flow.done r p => (r, p)
  | Flow.next _ p => (Return.returned { Requeue := false, RequeueAfter := 0 } none, p)

/-- Function `Reconcile` (lines 89-609). -/
def Reconcile (env : Env) : Return × Pass :=
  let empty : Pass := { status := { Status := "", Message := "", Conditions := [] }, trace := [] }
  match env.Get with
  | GetOutcome.notFound _ =>
    (Return.returned { Requeue := false, RequeueAfter := 0 } none, empty)
  | GetOutcome.failed err =>
    (Return.returned { Requeue := false, RequeueAfter := 0 } (some err), empty)
  | GetOutcome.found fabricMainChannel =>
    let p : Pass := { status := fabricMainChannel.Status, trace := [] }
    if fabricMainChannel.DeletionTimestamp.isSome then
      if fabricMainChannel.Finalizers.contains mainChannelFinalizer then
        match env.UpdateObject with
        | some err => (Return.returned { Requeue := false, RequeueAfter := 0 } (some err), p)
        | none => (Return.returned { Requeue := false, RequeueAfter := 0 } none, p)
      else (Return.returned { Requeue := false, RequeueAfter := 0 } none, p)
    else
      let added : Option String :=
        if !fabricMainChannel.Finalizers.contains mainChannelFinalizer then env.UpdateObject
        else none
      match added with
      | some err => (Return.returned { Requeue := false, RequeueAfter := 0 } (some err), p)
      | none => (reconcileObject env fabricMainChannel p).result

/-! ## Reading a flow, and sample passes -/

/-- State of the pass after a step. -/
def Flow.pass {α : Type} (f : Flow α) : Pass :=
  match f with
  | Flow.next _ p => p
  | Flow.done _ p => p

/-- Whether the pass has ended at the step. -/
def Flow.ended {α : Type} (f : Flow α) : Bool :=
  match f with
  | Flow.next _ _ => false
  | Flow.done _ _ => true

/-- Signature collection: a signature is requested from an organization. -/
def Event.isSigning : Event → Bool
  | Event.createSignature _ _ => true
  | _ => false

/-- Submission: the envelope is handed to `SaveChannel`. -/
def Event.isSubmission : Event → Bool
  | Event.saveChannel _ _ _ => true
  | _ => false

/-- Convergence polling: the poller is started, or the ordering service is queried. -/
def Event.isPolling : Event → Bool
  | Event.startPoller => true
  | Event.queryConfigBlock _ => true
  | _ => false

/-- Short-circuit on an empty update as the specification words it: from the
update computation on, a pass whose computation reported no differences adds no
signature, no submission and no polling event. -/
def ShortCircuitsOnNoChange (env : Env) (obj : FabricMainChannel)
    (resmgmtOptions : List String) (err : String) (p : Pass) : Prop :=
  strContains err noDifferences = true →
    ∀ added, (reconcileFromCalculate env obj resmgmtOptions (.error err) p).pass.trace
        = p.trace ++ added →
      ∀ ev, ev ∈ added →
        ev.isSigning = false ∧ ev.isSubmission = false ∧ ev.isPolling = false

/-- Spec of the sample object: `specWithAdmins` with the orderer organization as
admin of the orderer section and the identities of its organizations. -/
def sampleSpec (adminPeers : List String) : FabricMainChannelSpec :=
  { specWithAdmins adminPeers (some ["OrdererMSP"]) with
    Identities :=
      [ ("Org1MSP", { SecretNamespace := "default", SecretName := "org1-admin",
                      SecretKey := "user.yaml" }),
        ("Org2MSP", { SecretNamespace := "default", SecretName := "org2-admin",
                      SecretKey := "user.yaml" }),
        ("OrdererMSP", { SecretNamespace := "default", SecretName := "ord-admin",
                         SecretKey := "user.yaml" }) ] }

/-- Sample object, already carrying the finalizer. -/
def sampleObject (adminPeers : List String) : FabricMainChannel :=
  { Name := "demo",
    DeletionTimestamp := none,
    Finalizers := [mainChannelFinalizer],
    Spec := sampleSpec adminPeers,
    Status := { Status := "PENDING", Message := "", Conditions := [] } }

/-- Configuration of a channel that already has what the sample spec asks for. -/
def convergedConfig (adminPeers : List String) : Config :=
  match mapToConfigTX envOk (sampleSpec adminPeers) with
  | .ok t =>
    { Application :=
        { Groups := t.Application.Organizations,
          Policies := t.Application.Policies,
          ACLs := t.Application.ACLs,
          Capabilities := t.Application.Capabilities },
      Rest := "orderer" }
  | .error _ => configAB

/-- Policy of type Signature whose rule is the majority rule of an implicit-meta
policy, which is no signature expression. -/
def majoritySignature : Policy :=
  { PolicyType := "Signature", Rule := "MAJORITY Admins" }

/-- The genesis-block constructor of the library refuses a channel whose
application Admins policy is `majoritySignature`: the rule of a Signature policy
has to parse as a signature expression. -/
def GenesisRefusesMajoritySignature (env : Env) : Prop :=
  ∀ channel name, channel.Application.Policies.get "Admins" = some majoritySignature →
    ∃ err, env.NewApplicationChannelGenesisBlock channel name = .error err

/-- Sample genesis-block constructor: it refuses a channel whose application or
orderer Admins policy is `majoritySignature` and builds a block otherwise. -/
def sampleGenesisBlock (channel : Channel) (name : String) : Except String Block :=
  if channel.Application.Policies.get "Admins" == some majoritySignature
      || channel.Orderer.Policies.get "Admins" == some majoritySignature then
    .error "invalid signature policy rule: 'MAJORITY Admins'"
  else .ok { Data := "genesis-" ++ name }

/-- Environment of a pass in which every call succeeds but the genesis block of a
channel with a `majoritySignature` policy, every query takes 100 ms, the
ordering service holds the given configuration, and the update computation
reports a delta between the fetched configuration and the working copy, which
the differ has written anew. -/
def sampleEnv (adminPeers : List String) (current : Config) : Env :=
  { build := envOk,
    lib := libOk,
    Get := GetOutcome.found (sampleObject adminPeers),
    UpdateObject := none,
    StatusPatch := fun _ => none,
    StatusUpdate := fun _ => none,
    NewApplicationChannelGenesisBlock := sampleGenesisBlock,
    MarshalBlock := fun b => .ok b.Data,
    AppendCertsFromPEM := fun pem => pem != "",
    SecretsGet := fun _ name => .ok { Data := [("user.yaml", name)] },
    yamlUnmarshal := fun data => .ok { Cert := "cert-" ++ data, Key := "key-" ++ data },
    Join := fun _ _ _ => .ok { StatusCode := 201, Body := .ok "\x7b\x7d" },
    jsonUnmarshalChannelInfo := fun _ => none,
    OrdererNodesGet := fun _ name => .ok name,
    GetOrdererAdminHostAndPort := fun node => .ok (node, 7053),
    GenerateNetworkConfig := .ok "network-config",
    fabsdkNew := fun _ => none,
    sdkConfig := none,
    GetSuiteByConfig := none,
    ConfigFromBackend := none,
    NewIdentityManager := fun _ => none,
    CreateSigningIdentity := fun mspID id => .ok { MSPID := mspID, Cert := id.Cert, Key := id.Key },
    resmgmtNew := fun _ _ => none,
    QueryConfigBlockFromOrderer := fun _ => .ok { Data := "config-block" },
    queryMillis := fun _ => 100,
    ExtractConfigFromBlock := fun _ => .ok current,
    DeepMarshalJSON := fun _ => .ok "json",
    CalculateConfigUpdate := fun channelID currentConfig updatedConfig =>
      .ok { ChannelId := channelID, ReadFrom := currentConfig, WriteTo := updatedConfig },
    MarshalConfigUpdate := fun u => .ok ("update-" ++ u.ChannelId),
    CreateSignedEnvelope := fun _ data => .ok ("envelope-" ++ data),
    MarshalEnvelope := fun e => .ok e,
    CreateConfigSignatureFromReader := fun signer bytes => .ok { Signer := signer, Over := bytes },
    SaveChannel := fun _ _ _ _ => .ok "txid",
    ConfigMapsGet := fun _ _ => ConfigMapGet.notFound "not found",
    ConfigMapsCreate := fun _ _ => none,
    ConfigMapsUpdate := fun _ _ => none }

/-- The second state continues the first, and every event added satisfies `P`. -/
def Adds (P : Event → Prop) (p q : Pass) : Prop :=
  ∃ added, q.trace = p.trace ++ added ∧ ∀ ev, ev ∈ added → P ev

/-- Event that is neither a signature request nor a submission. -/
def Quiet (ev : Event) : Prop :=
  ev.isSigning = false ∧ ev.isSubmission = false

/-- State in which the sample passes start: the status of the sample object and
no event. -/
def samplePass : Pass :=
  { status := { Status := "PENDING", Message := "", Conditions := [] }, trace := [] }

/-! ## Reading the default ACL table -/

/-- Policy path of the application readers. -/
def readersPath : String := "/Channel/Application/Readers"

/-- Policy path of the application writers. -/
def writersPath : String := "/Channel/Application/Writers"

/-- Operation of an ACL key `<system-chaincode>/<operation>`: the characters after
the first slash. -/
def operationOf (key : String) : List Char :=
  (key.toList.dropWhile (fun c => c != '/')).drop 1

/-- System chaincode of an ACL key: the characters before the first slash. -/
def chaincodeOf (key : String) : List Char :=
  key.toList.takeWhile (fun c => c != '/')

/-- Query key in the sense of the specification: the operation name begins with
`Get` or `Query`, or the key is `lscc/ChaincodeExists`. -/
def isQueryKey (key : String) : Bool :=
  "Get".toList.isPrefixOf (operationOf key) || "Query".toList.isPrefixOf (operationOf key)
    || key == "lscc/ChaincodeExists"

/-- Event key: a key of the `event` resource. -/
def isEventKey (key : String) : Bool :=
  chaincodeOf key == "event".toList

/-- Mapping rule of the ACL table as the specification words it: every value is
the readers or the writers path, every query key and every event key maps to
the readers, and the three propose operations map to the writers. -/
def readersForQueries (table : GoMap String) : Bool :=
  table.all (fun e => e.2 == readersPath || e.2 == writersPath) &&
    table.all (fun e => !(isQueryKey e.1 || isEventKey e.1) || e.2 == readersPath) &&
    decide (table.get "peer/Propose" = some writersPath) &&
    decide (table.get "peer/ChaincodeToChaincode" = some writersPath) &&
    decide (table.get "_lifecycle/CommitChaincodeDefinition" = some writersPath)

/-- Mapping rule that the table follows: every value is the readers or the
writers path, every key of the `lscc`, `qscc`, `cscc` and `event` resources maps
to the readers, and every key of the `_lifecycle` and `peer` resources, the two
`_lifecycle` query operations included, maps to the writers. -/
def readersByChaincode (table : GoMap String) : Bool :=
  table.all (fun e => e.2 == readersPath || e.2 == writersPath) &&
    table.all (fun e =>
      !(chaincodeOf e.1 == "lscc".toList || chaincodeOf e.1 == "qscc".toList ||
          chaincodeOf e.1 == "cscc".toList || chaincodeOf e.1 == "event".toList)
        || e.2 == readersPath) &&
    table.all (fun e =>
      !(chaincodeOf e.1 == "_lifecycle".toList || chaincodeOf e.1 == "peer".toList)
        || e.2 == writersPath) &&
    table.all (fun e =>
      chaincodeOf e.1 == "lscc".toList || chaincodeOf e.1 == "qscc".toList ||
        chaincodeOf e.1 == "cscc".toList || chaincodeOf e.1 == "event".toList ||
        chaincodeOf e.1 == "_lifecycle".toList || chaincodeOf e.1 == "peer".toList)

/-! ## Statements and sample data for the join phase and the signature loop -/

/-- State of the pass after one join request that did not end it: the request is
on the trace and the status is as it was. -/
def Pass.afterJoin (p : Pass) (osnUrl : String) : Pass :=
  { p with trace := p.trace ++ [Event.joinRequest osnUrl] }

/-- Address of the admin endpoint of a node, `https://<host>:<port>`. -/
def osnUrlOf (host : String) (port : Int) : String :=
  "https://" ++ host ++ ":" ++ toString port

/-- HTTP 201 as the specification words it: whatever the body of the response, a
join answered with 201 leaves the pass running, with the request on the trace
and the status untouched. -/
def JoinedOnCreated (env : Env) (channelName : String) (blockBytes : String)
    (osnUrl : String) (lines : Nat × Nat × Nat × Nat) (p : Pass) : Prop :=
  ∀ resp, env.Join (joinCount p) osnUrl blockBytes = .ok resp → resp.StatusCode = 201 →
    joinRequest env channelName blockBytes osnUrl lines p = Flow.next () (p.afterJoin osnUrl)

/-- One round of the signature loop (lines 435-502): the signing identity of the
organization is resolved, then its signature over the envelope bytes is made. -/
def signFor (env : Env) (spec : FabricMainChannelSpec) (channelConfigBytes : String)
    (mspID : String) (p : Pass) : Flow ConfigSignature :=
  (resolveSigner env spec mspID signatureLoopLines p).bind (fun signingIdentity p1 =>
    orFail env
      { p1 with trace := p1.trace ++ [Event.createSignature mspID channelConfigBytes] } 499
      (env.CreateConfigSignatureFromReader signingIdentity channelConfigBytes))

/-- Signature of an admin peer organization over the given bytes: its signing
identity resolves, and the signature is the one made with that identity. -/
def SignedBy (env : Env) (spec : FabricMainChannelSpec) (channelConfigBytes : String)
    (adminPeer : FabricMainChannelAdminPeerOrganizationSpec) (signature : ConfigSignature) :
    Prop :=
  ∃ q signingIdentity q1,
    resolveSigner env spec adminPeer.MSPID signatureLoopLines q
        = Flow.next signingIdentity q1 ∧
      env.CreateConfigSignatureFromReader signingIdentity channelConfigBytes = .ok signature

/-- A step either goes on or has ended with status Failed, and in both cases
every event it added satisfies `P`. -/
def Flow.FailsOrAdds {α : Type} (P : Event → Prop) (p : Pass) (f : Flow α) : Prop :=
  match f with
  | Flow.next _ q => Adds P p q
  | Flow.done _ q => Adds P p q ∧ q.status.Status = FailedStatus

/-- Event that is not a submission. -/
def NotSubmission (ev : Event) : Prop :=
  ev.isSubmission = false

/-- Sample spec with nodes to join: two external orderers and one cluster orderer
of the orderer organization. -/
def sampleJoinSpec : FabricMainChannelSpec :=
  { sampleSpec ["Org1MSP"] with
    OrdererOrganizations :=
      [ { MSPID := "OrdererMSP", CAName := "ord-ca", CANamespace := "default",
          TLSCACert := "", SignCACert := "", OrdererEndpoints := ["ord0:7050"],
          OrderersToJoin := [ { Name := "ord0", Namespace := "default" } ],
          ExternalOrderersToJoin :=
            [ { Host := "ext0", AdminPort := 7053 }, { Host := "ext1", AdminPort := 7053 } ] } ] }

/-- Sample object with nodes to join, in the given status. -/
def sampleJoinObject (status : DeploymentStatus) : FabricMainChannel :=
  { Name := "demo",
    DeletionTimestamp := none,
    Finalizers := [mainChannelFinalizer],
    Spec := sampleJoinSpec,
    Status := { Status := status, Message := "", Conditions := [] } }

/-- Sample environment of a pass over `sampleJoinObject` in which the admin
endpoints answer by address, and a body other than `ok` does not parse as
channel information. -/
def sampleJoinEnv (status : DeploymentStatus) (answer : String → Int × String) : Env :=
  { sampleEnv ["Org1MSP"] (convergedConfig ["Org1MSP"]) with
    Get := GetOutcome.found (sampleJoinObject status),
    Join := fun _ osnUrl _ =>
      .ok { StatusCode := (answer osnUrl).1, Body := .ok (answer osnUrl).2 },
    jsonUnmarshalChannelInfo := fun body =>
      if body == "ok" then none else some "invalid character" }

/-- Answers in which every node has just joined. -/
def allCreated : String → Int × String :=
  fun _ => (201, "ok")

/-- Answers in which `ext0` is already a member and the others join. -/
def firstAlreadyJoined : String → Int × String :=
  fun osnUrl => if osnUrl == "https://ext0:7053" then (405, "") else (201, "ok")

/-- Answers in which `ext0` fails with 500 and the others join. -/
def firstFails : String → Int × String :=
  fun osnUrl => if osnUrl == "https://ext0:7053" then (500, "boom") else (201, "ok")

/-- Answers in which `ext0` answers 201 with a body that is not channel information. -/
def firstCreatedUnparsable : String → Int × String :=
  fun osnUrl => if osnUrl == "https://ext0:7053" then (201, "not-json") else (201, "ok")

/-- Spec with the admins `Org1MSP` and `Org2MSP` in which `Org2MSP` has no
identity entry. -/
def specMissingIdentity : FabricMainChannelSpec :=
  { sampleSpec ["Org1MSP", "Org2MSP"] with
    Identities :=
      [ ("Org1MSP", { SecretNamespace := "default", SecretName := "org1-admin",
                      SecretKey := "user.yaml" }),
        ("OrdererMSP", { SecretNamespace := "default", SecretName := "ord-admin",
                         SecretKey := "user.yaml" }) ] }

/-- Sample environment of a pass over an object whose spec lacks the identity of
`Org2MSP`. -/
def sampleEnvMissingIdentity : Env :=
  { sampleEnv ["Org1MSP", "Org2MSP"] configAB with
    Get := GetOutcome.found
      { sampleObject ["Org1MSP", "Org2MSP"] with Spec := specMissingIdentity } }

/-- Sample update between `configAB` and the converged configuration. -/
def sampleUpdate : ConfigUpdate :=
  { ChannelId := "mychannel", ReadFrom := configAB,
    WriteTo := convergedConfig ["Org1MSP", "Org2MSP"] }

/-- Condition of the given type recorded on the object, if any. -/
def conditionOf (conditions : List Condition) (condType : String) : Option Condition :=
  conditions.find? (fun c => c.CondType == condType)

/-- Text of the diagnostic of the sample node that fails with 500. -/
def sampleJoinDiagnostic : String :=
  "response from orderer https://ext0:7053 trying to join to the channel mychannel: 500, response: boom"

/-! ## Sample data for the builder's error paths -/

/-- Spec whose only orderer organization gives no certificate-authority name and
no inline certificate, so neither resolution route applies. -/
def specUnresolvableOrderer : FabricMainChannelSpec :=
  { specWithAdmins [] none with
    OrdererOrganizations :=
      [ { MSPID := "OrdererMSP", CAName := "", CANamespace := "",
          TLSCACert := "", SignCACert := "", OrdererEndpoints := ["ord0:7050"],
          OrderersToJoin := [], ExternalOrderersToJoin := [] } ] }

/-- The certificate parser returns an error for the text. -/
def ParserRejects (env : BuildEnv) (pem : String) : Prop :=
  ∃ err, env.ParseX509Certificate pem = .error err

/-- Propagation of parse errors for orderer organizations as the specification
words it: a supplied inline certificate for which the parser returns an error
makes `mapToConfigTX` return an error. -/
def SuppliedOrdererCertErrorsPropagate (env : BuildEnv) (spec : FabricMainChannelSpec) : Prop :=
  (∃ o, o ∈ spec.OrdererOrganizations ∧
      ((o.TLSCACert ≠ "" ∧ ParserRejects env o.TLSCACert) ∨
        (o.SignCACert ≠ "" ∧ ParserRejects env o.SignCACert))) →
    ∃ err, mapToConfigTX env spec = .error err

/-- PEM block of type CERTIFICATE whose bytes are not a certificate. -/
def badCertificate : String :=
  "-----BEGIN CERTIFICATE-----\nZ2FyYmFnZQ==\n-----END CERTIFICATE-----\n"

/-- Environment of the builder in which the parser returns an error for
`badCertificate` and a certificate for every other text. -/
def envParse : BuildEnv :=
  { envOk with
    ParseX509Certificate := fun pem =>
      if pem == badCertificate then .error "x509: malformed certificate" else .ok ⟨pem⟩ }

/-- Spec whose orderer organization is resolved through its certificate authority
and also carries two inline certificates that the parser refuses. -/
def specIgnoredInlineCerts : FabricMainChannelSpec :=
  { specWithAdmins [] none with
    OrdererOrganizations :=
      [ { MSPID := "OrdererMSP", CAName := "ord-ca", CANamespace := "default",
          TLSCACert := badCertificate, SignCACert := badCertificate,
          OrdererEndpoints := ["ord0:7050"],
          OrderersToJoin := [], ExternalOrderersToJoin := [] } ] }

/-- Spec whose consenter certificate the parser refuses. -/
def specBadConsenter : FabricMainChannelSpec :=
  { specWithAdmins [] none with
    Consenters := [ { Host := "ord0", Port := 7050, TLSCert := badCertificate } ] }

/-- Spec whose orderer organization is resolved through its inline certificates,
of which the signing certificate is refused by the parser. -/
def specBadInlineCert : FabricMainChannelSpec :=
  { specWithAdmins [] none with
    OrdererOrganizations :=
      [ { MSPID := "OrdererMSP", CAName := "", CANamespace := "",
          TLSCACert := "tls-pem", SignCACert := badCertificate,
          OrdererEndpoints := ["ord0:7050"],
          OrderersToJoin := [], ExternalOrderersToJoin := [] } ] }

/-- Spec with a channel-config override: an options block of empty and zero
values, a batch-size block, and the given batch timeout. -/
def specWithOverrides (batchTimeout : String) : FabricMainChannelSpec :=
  { specWithAdmins [] none with
    ChannelConfig := some
      { Orderer := some
          { BatchTimeout := batchTimeout,
            BatchSize := some
              { MaxMessageCount := 10, AbsoluteMaxBytes := -1,
                PreferredMaxBytes := 4294967296 + 5 },
            EtcdRaft := some
              { Options := some
                  { TickInterval := "", ElectionTick := 0, HeartbeatTick := 0,
                    MaxInflightBlocks := 0, SnapshotIntervalSize := 0 } } } } }

/-! ## Sample data for the fetch of the current block -/

/-- Events of a fetch that starts with query number `base` and retries `k` times:
each failed query is followed by the pause of 1500 ms and the next query. -/
def fetchEvents (base : Nat) : Nat → List Event
  | 0 => [Event.queryConfigBlock base]
  | k + 1 => Event.queryConfigBlock base :: Event.sleep 1500 :: fetchEvents (base + 1) k

/-- Number of pauses so far in the pass. -/
def sleepCount (p : Pass) : Nat :=
  (p.trace.filter (fun e => match e with
    | Event.sleep _ => true
    | _ => false)).length

/-- Sample environment of a pass over an object of the given status in which the
ordering service answers the queries as given. -/
def sampleEnvQueries (status : DeploymentStatus) (answers : Nat → Except String Block) : Env :=
  { sampleEnv ["Org1MSP"] configAB with
    Get := GetOutcome.found
      { sampleObject ["Org1MSP"] with
        Status := { Status := status, Message := "", Conditions := [] } },
    QueryConfigBlockFromOrderer := answers }

/-- Ordering service that answers no query. -/
def allQueriesFail : Nat → Except String Block :=
  fun _ => .error "unavailable"

/-- Ordering service that answers from the third query on. -/
def thirdQueryAnswers : Nat → Except String Block :=
  fun idx => if idx < 2 then .error "unavailable" else .ok { Data := "config-block" }

/-- Text of the error of the sample pass whose fetch fails. -/
def sampleFetchDiagnostic : String :=
  "failed to get block from channel mychannel: unavailable"

/-! ## The generated fake client of FabricCA (`fake_fabricca.go`) -/

/-- Type `metav1.ListMeta`. -/
structure ListMeta where
  ResourceVersion : String
  Continue : String
deriving DecidableEq

/-- Type `v1alpha1.FabricCA`, with the metadata that selectors read. -/
structure FabricCA where
  Name : String
  Namespace : String
  Labels : GoMap String
deriving DecidableEq

/-- Type `v1alpha1.FabricCAList`. -/
structure FabricCAList where
  ListMeta : ListMeta
  Items : List FabricCA
deriving DecidableEq

/-- Type `metav1.ListOptions`. -/
structure ListOptions where
  LabelSelector : String
  FieldSelector : String
  ResourceVersion : String
deriving DecidableEq

/-- Interfaces `labels.Selector` and `fields.Selector`: what a selector answers for
a set of key-value pairs. -/
structure Selector where
  Matches : GoMap String → Bool

/-- Function `labels.Everything`. -/
def Everything : Selector :=
  { Matches := fun _ => true }

/-- The three results of `testing.ExtractFromListOptions`; a selector may be nil. -/
structure Extracted where
  label : Option Selector
  field : Option Selector
  resourceVersion : String

/-- Package `testing` of client-go as far as `List` calls it; an error of
`ExtractFromListOptions` stands for a panic of the call. -/
structure Testing where
  ExtractFromListOptions : ListOptions → Except String Extracted

/-- Type `FakeFabricCAs`: the namespace and, for `c.Fake.Invokes` on the list action
of a namespace and options, the object (nil or a list) and the error it
returns. -/
structure FakeFabricCAs where
  Invokes : String → ListOptions → Option FabricCAList × Option String
  ns : String

/-- What `List` hands back: the list (nil or not) and the error, or a panic. -/
inductive ListReturn where
  | returned (result : Option FabricCAList) (err : Option String)
  | panicked (msg : String)
deriving DecidableEq

/-- Method `FakeFabricCAs.List` (lines 54-74), announced by its comment as taking
label and field selectors and returning the items that match them. The field
selector and the resource version that `ExtractFromListOptions` returns are
discarded. -/
def FakeFabricCAs.List (c : FakeFabricCAs) (testing : Testing) (opts : ListOptions) :
    ListReturn :=
  match c.Invokes c.ns opts with
  | (none, err) => ListReturn.returned none err
  | (some obj, err) =>
    match testing.ExtractFromListOptions opts with
    | .error msg => ListReturn.panicked msg
    | .ok extracted =>
      let label : Selector :=
        match extracted.label with
        | none => Everything
        | some label => label
      ListReturn.returned
        (some
          { ListMeta := obj.ListMeta,
            Items := obj.Items.filter (fun item => label.Matches item.Labels) })
        err

/-- Label selector in force for the extracted options: `labels.Everything` for nil. -/
def Extracted.labelOrEverything (extracted : Extracted) : Selector :=
  match extracted.label with
  | none => Everything
  | some label => label

/-- Field selector in force for the extracted options: everything for nil. -/
def Extracted.fieldOrEverything (extracted : Extracted) : Selector :=
  match extracted.field with
  | none => Everything
  | some field => field

/-- Fields of an item that a field selector is matched against. -/
def fieldsOf (item : FabricCA) : GoMap String :=
  [("metadata.name", item.Name), ("metadata.namespace", item.Namespace)]

/-- Filtering as the specification and the comment of the method word it: `List`
returns the items that match the label selector and the field selector of the
options, in order, with the metadata of the underlying list. -/
def ListFiltersByBothSelectors (c : FakeFabricCAs) (testing : Testing) (opts : ListOptions) :
    Prop :=
  ∀ obj err extracted,
    c.Invokes c.ns opts = (some obj, err) →
    testing.ExtractFromListOptions opts = .ok extracted →
    c.List testing opts =
      ListReturn.returned
        (some
          { ListMeta := obj.ListMeta,
            Items := obj.Items.filter (fun item =>
              extracted.labelOrEverything.Matches item.Labels &&
                extracted.fieldOrEverything.Matches (fieldsOf item)) })
        err

/-- Sample selector parser: the empty text selects everything, `key=value` selects
the sets that hold `value` under `key`, any other text is rejected. -/
def sampleParse (text : String) : Except String Selector :=
  if text == "" then .ok Everything
  else
    match text.toList.dropWhile (fun ch => ch != '=') with
    | [] => .error ("invalid selector " ++ text)
    | _ :: value =>
      .ok { Matches := fun set =>
              set.get (String.mk (text.toList.takeWhile (fun ch => ch != '=')))
                == some (String.mk value) }

/-- Sample of the package `testing`: both selectors are parsed, a text that does
not parse makes the call panic. -/
def sampleTesting : Testing :=
  { ExtractFromListOptions := fun opts =>
      match sampleParse opts.LabelSelector with
      | .error msg => .error msg
      | .ok label =>
        match sampleParse opts.FieldSelector with
        | .error msg => .error msg
        | .ok field =>
          .ok { label := some label, field := some field,
                resourceVersion := opts.ResourceVersion } }

/-- Two sample certificate authorities. -/
def sampleCAs : FabricCAList :=
  { ListMeta := { ResourceVersion := "42", Continue := "" },
    Items :=
      [ { Name := "ca1", Namespace := "default", Labels := [("app", "ca"), ("org", "org1")] },
        { Name := "ca2", Namespace := "default", Labels := [("app", "ca"), ("org", "org2")] } ] }

/-- Sample fake whose tracker holds `sampleCAs` in the namespace `default` and
nothing, with an error, elsewhere. -/
def sampleFake (ns : String) : FakeFabricCAs :=
  { Invokes := fun ns _ =>
      if ns == "default" then (some sampleCAs, none) else (none, some "no reaction"),
    ns := ns }

/-- Options that select by the name `ca1` through the field selector. -/
def optsFieldName : ListOptions :=
  { LabelSelector := "", FieldSelector := "metadata.name=ca1", ResourceVersion := "" }

/-- Options that select by the label `org=org2`. -/
def optsLabelOrg : ListOptions :=
  { LabelSelector := "org=org2", FieldSelector := "", ResourceVersion := "" }

/-! ## Causes of an incomplete signature set, and the end of a pass -/

/-- The signing identity exists but the signature cannot be produced: the resource
client of the identity cannot be made, or the signing call fails. -/
def SigningFails (env : Env) (channelConfigBytes : String) (mspID : String)
    (signingIdentity : SigningIdentity) : Prop :=
  (∃ err, env.resmgmtNew signingIdentity mspID = some err) ∨
    ∃ err, env.CreateConfigSignatureFromReader signingIdentity channelConfigBytes = .error err

/-- The identity document of the organization has been read but no signature comes
of it: the SDK cannot be set up for it, the signing identity cannot be created,
or signing fails. -/
def IdentityUnusable (env : Env) (channelConfigBytes : String) (mspID : String)
    (id : identity) : Prop :=
  (∃ err, env.sdkConfig = some err) ∨ (∃ err, env.GetSuiteByConfig = some err) ∨
    (∃ err, env.ConfigFromBackend = some err) ∨
    (∃ err, env.NewIdentityManager mspID = some err) ∨
    (∃ err, env.CreateSigningIdentity mspID id = .error err) ∨
    ∃ signingIdentity, env.CreateSigningIdentity mspID id = .ok signingIdentity ∧
      SigningFails env channelConfigBytes mspID signingIdentity

/-- Causes for which an organization contributes no signature over the given
bytes: its identity entry is missing from the spec, its secret cannot be read,
the secret lacks the key, the identity under the key does not parse, or the
parsed identity is unusable. -/
def CannotSign (env : Env) (spec : FabricMainChannelSpec) (channelConfigBytes : String)
    (mspID : String) : Prop :=
  spec.Identities.get mspID = none ∨
    ∃ idConfig, spec.Identities.get mspID = some idConfig ∧
      ((∃ err, env.SecretsGet idConfig.SecretNamespace idConfig.SecretName = .error err) ∨
        ∃ secret, env.SecretsGet idConfig.SecretNamespace idConfig.SecretName = .ok secret ∧
          (secret.Data.get idConfig.SecretKey = none ∨
            ∃ secretData, secret.Data.get idConfig.SecretKey = some secretData ∧
              ((∃ err, env.yamlUnmarshal secretData = .error err) ∨
                ∃ id, env.yamlUnmarshal secretData = .ok id ∧
                  IdentityUnusable env channelConfigBytes mspID id)))

/-- Sample environment over the admins `Org1MSP` and `Org2MSP` in which the secret
of `Org2MSP` cannot be read. -/
def sampleEnvMissingSecret : Env :=
  { sampleEnv ["Org1MSP", "Org2MSP"] configAB with
    SecretsGet := fun _ name =>
      if name == "org2-admin" then .error "secret org2-admin not found"
      else .ok { Data := [("user.yaml", name)] } }

/-- Sample environment over the admins `Org1MSP` and `Org2MSP` in which the secret
of `Org2MSP` lacks the key of the identity. -/
def sampleEnvMissingKey : Env :=
  { sampleEnv ["Org1MSP", "Org2MSP"] configAB with
    SecretsGet := fun _ name =>
      if name == "org2-admin" then .ok { Data := [("other.yaml", name)] }
      else .ok { Data := [("user.yaml", name)] } }

/-- Sample environment over the admins `Org1MSP` and `Org2MSP` in which the
identity of `Org2MSP` does not parse. -/
def sampleEnvUnparsableIdentity : Env :=
  { sampleEnv ["Org1MSP", "Org2MSP"] configAB with
    yamlUnmarshal := fun data =>
      if data == "org2-admin" then .error "yaml: unmarshal errors"
      else .ok { Cert := "cert-" ++ data, Key := "key-" ++ data } }

/-- Sample environment over the admins `Org1MSP` and `Org2MSP` in which signing
with the identity of `Org2MSP` fails. -/
def sampleEnvSigningFails : Env :=
  { sampleEnv ["Org1MSP", "Org2MSP"] configAB with
    CreateConfigSignatureFromReader := fun signer bytes =>
      if signer.MSPID == "Org2MSP" then .error "signing failed"
      else .ok { Signer := signer, Over := bytes } }

/-- A step that has ended has returned, without a panic, and has left the status
Failed or Running. -/
def Flow.EndsDoneOrFailed {α : Type} (f : Flow α) : Prop :=
  match f with
  | Flow.next _ _ => True
  | Flow.done r q =>
    (∃ result err, r = Return.returned result err) ∧
      (q.status.Status = FailedStatus ∨ q.status.Status = RunningStatus)

/-! ## Theorems -/

/-! ## Lemmas on the two loops -/

theorem any_name_iff (l : List Organization) (n : String) :
    (l.any (fun o => o.Name == n)) = true ↔ n ∈ orgNames l := by
  simp only [orgNames, List.any_eq_true, List.mem_map, beq_iff_eq]

theorem any_name_iff_rev (l : List Organization) (n : String) :
    (l.any (fun o => n == o.Name)) = true ↔ n ∈ orgNames l := by
  simp only [orgNames, List.any_eq_true, List.mem_map, beq_iff_eq]
  constructor
  · rintro ⟨o, ho, h⟩; exact ⟨o, ho, h.symm⟩
  · rintro ⟨o, ho, h⟩; exact ⟨o, ho, h.symm⟩

theorem findOrg_isSome_iff (l : List Organization) (n : String) :
    (findOrg l n).isSome = true ↔ n ∈ orgNames l := by
  simp only [findOrg, List.find?_isSome, orgNames, List.mem_map, beq_iff_eq]

theorem findOrg_eq_none_iff (l : List Organization) (n : String) :
    findOrg l n = none ↔ n ∉ orgNames l := by
  rw [← findOrg_isSome_iff]
  cases findOrg l n <;> simp

theorem findOrg_filter_ne (l : List Organization) (m n : String) (h : n ≠ m) :
    findOrg (l.filter (fun o => o.Name != m)) n = findOrg l n := by
  unfold findOrg
  induction l with
  | nil => rfl
  | cons a l ih =>
    by_cases hn : a.Name = n
    · have ha : a.Name ≠ m := fun e => h (hn ▸ e)
      have h1 : (a.Name != m) = true := by simpa using ha
      have h2 : (a.Name == n) = true := by simpa using hn
      simp only [List.filter_cons, List.find?_cons, h1, h2, if_true]
    · have h2 : (a.Name == n) = false := by simpa using hn
      by_cases ha : a.Name = m
      · have h1 : (a.Name != m) = false := by simpa using ha
        simp only [List.filter_cons, List.find?_cons, h1, h2]
        exact ih
      · have h1 : (a.Name != m) = true := by simpa using ha
        simp only [List.filter_cons, List.find?_cons, h1, h2, if_true]
        exact ih

theorem mem_names_filter_ne (l : List Organization) (m n : String) :
    n ∈ orgNames (l.filter (fun o => o.Name != m)) ↔ n ∈ orgNames l ∧ n ≠ m := by
  simp only [orgNames, List.mem_map, List.mem_filter, bne_iff_ne, ne_eq]
  constructor
  · rintro ⟨o, ⟨ho, hne⟩, rfl⟩; exact ⟨⟨o, ho, rfl⟩, hne⟩
  · rintro ⟨⟨o, ho, rfl⟩, hne⟩; exact ⟨o, ⟨ho, hne⟩, rfl⟩

theorem put_put (s : DiffState) (g g2 : List Organization) (o o2 : List AppOp) :
    (s.put g o).put g2 o2 = s.put g2 o2 := rfl

theorem put_self (s : DiffState) : s.put s.groups s.ops = s := rfl

theorem put_groups (s : DiffState) (g : List Organization) (o : List AppOp) :
    (s.put g o).groups = g := rfl

theorem put_ops (s : DiffState) (g : List Organization) (o : List AppOp) :
    (s.put g o).ops = o := rfl

theorem removeLoop_eq (newOrgs : List Organization) (appOrgs : List Organization)
    (s : DiffState) :
    removeLoop newOrgs appOrgs s =
      s.put (removedGroups newOrgs appOrgs s.groups) (s.ops ++ removedOps newOrgs appOrgs) := by
  induction appOrgs generalizing s with
  | nil => simp [removeLoop, removedGroups, removedOps, put_self]
  | cons c rest ih =>
    unfold removeLoop removedGroups
    by_cases hd : (newOrgs.any (fun t => t.Name == c.Name)) = true
    · simp only [hd, Bool.not_true, Bool.false_eq_true, if_false]
      rw [ih]
      simp [removedOps, List.filter_cons, hd]
    · have hd2 : (newOrgs.any (fun t => t.Name == c.Name)) = false := by simpa using hd
      simp only [hd2, Bool.not_false, if_true]
      rw [ih]
      simp [removedOps, List.filter_cons, hd2, RemoveOrganization, DiffState.put,
        DiffState.groups]

theorem setLoop_eq (lib : Lib) (appOrgs : List Organization) (newOrgs : List Organization)
    (s s2 : DiffState) (h : setLoop lib appOrgs newOrgs s = .ok s2) :
    s2 = s.put (setGroups appOrgs newOrgs s.groups) (s.ops ++ setOps appOrgs newOrgs) := by
  induction newOrgs generalizing s with
  | nil =>
    simp only [setLoop, Except.ok.injEq] at h
    simp [setGroups, setOps, put_self, h]
  | cons t rest ih =>
    unfold setLoop at h
    unfold setGroups
    by_cases hf : (appOrgs.any (fun c => c.Name == t.Name)) = true
    · simp only [hf, Bool.not_true, Bool.false_eq_true, if_false] at h ⊢
      rw [ih s h]
      simp [setOps, List.filter_cons, hf]
    · have hf2 : (appOrgs.any (fun c => c.Name == t.Name)) = false := by simpa using hf
      simp only [hf2, Bool.not_false, if_true] at h ⊢
      cases hso : SetOrganization lib s t with
      | error e => simp [hso] at h
      | ok s1 =>
        simp only [hso] at h
        rw [ih s1 h]
        unfold SetOrganization at hso
        cases hoe : lib.orgErr t with
        | some e => simp [hoe] at hso
        | none =>
          simp only [hoe, Except.ok.injEq] at hso
          subst hso
          simp [setOps, List.filter_cons, hf2, DiffState.put, DiffState.groups]

theorem any_false_iff (l : List Organization) (n : String) :
    (l.any (fun o => o.Name == n)) = false ↔ n ∉ orgNames l := by
  rw [← any_name_iff]
  cases l.any (fun o => o.Name == n) <;> simp

theorem findOrg_removedGroups (newOrgs : List Organization) (appOrgs g : List Organization)
    (n : String) (h : n ∈ orgNames newOrgs ∨ n ∉ orgNames appOrgs) :
    findOrg (removedGroups newOrgs appOrgs g) n = findOrg g n := by
  induction appOrgs generalizing g with
  | nil => rfl
  | cons c rest ih =>
    have hrest : n ∈ orgNames newOrgs ∨ n ∉ orgNames rest := by
      rcases h with h | h
      · exact Or.inl h
      · exact Or.inr (fun hm => h (by simp [orgNames] at hm ⊢; exact Or.inr hm))
    unfold removedGroups
    by_cases hd : (newOrgs.any (fun t => t.Name == c.Name)) = true
    · simp only [hd, Bool.not_true, Bool.false_eq_true, if_false]
      exact ih g hrest
    · have hd2 : (newOrgs.any (fun t => t.Name == c.Name)) = false := by simpa using hd
      simp only [hd2, Bool.not_false, if_true]
      rw [ih _ hrest]
      apply findOrg_filter_ne
      intro hnc
      subst hnc
      rcases h with h | h
      · exact ((any_false_iff newOrgs _).1 hd2) h
      · exact h (by simp [orgNames])

theorem mem_names_removedGroups (newOrgs : List Organization) (appOrgs g : List Organization)
    (n : String) :
    n ∈ orgNames (removedGroups newOrgs appOrgs g) ↔
      n ∈ orgNames g ∧ (n ∈ orgNames newOrgs ∨ n ∉ orgNames appOrgs) := by
  induction appOrgs generalizing g with
  | nil => simp [removedGroups, orgNames]
  | cons c rest ih =>
    unfold removedGroups
    by_cases hd : (newOrgs.any (fun t => t.Name == c.Name)) = true
    · simp only [hd, Bool.not_true, Bool.false_eq_true, if_false]
      rw [ih]
      have hc : c.Name ∈ orgNames newOrgs := (any_name_iff newOrgs c.Name).1 hd
      constructor
      · rintro ⟨h1, h2⟩
        refine ⟨h1, ?_⟩
        rcases h2 with h2 | h2
        · exact Or.inl h2
        · by_cases hn : n = c.Name
          · exact Or.inl (hn ▸ hc)
          · exact Or.inr (by simp [orgNames] at h2 ⊢; exact ⟨hn, h2⟩)
      · rintro ⟨h1, h2⟩
        refine ⟨h1, ?_⟩
        rcases h2 with h2 | h2
        · exact Or.inl h2
        · exact Or.inr (fun hm => h2 (by simp [orgNames] at hm ⊢; exact Or.inr hm))
    · have hd2 : (newOrgs.any (fun t => t.Name == c.Name)) = false := by simpa using hd
      simp only [hd2, Bool.not_false, if_true]
      rw [ih, mem_names_filter_ne]
      have hc : c.Name ∉ orgNames newOrgs := (any_false_iff newOrgs c.Name).1 hd2
      constructor
      · rintro ⟨⟨h1, hne⟩, h2⟩
        refine ⟨h1, ?_⟩
        rcases h2 with h2 | h2
        · exact Or.inl h2
        · exact Or.inr (by simp [orgNames] at h2 ⊢; exact ⟨hne, h2⟩)
      · rintro ⟨h1, h2⟩
        have hne : n ≠ c.Name := by
          intro e
          subst e
          rcases h2 with h2 | h2
          · exact hc h2
          · exact h2 (by simp [orgNames])
        refine ⟨⟨h1, hne⟩, ?_⟩
        rcases h2 with h2 | h2
        · exact Or.inl h2
        · exact Or.inr (fun hm => h2 (by simp [orgNames] at hm ⊢; exact Or.inr hm))

theorem findOrg_setGroups_keep (appOrgs : List Organization) (newOrgs g : List Organization)
    (n : String) (h : n ∈ orgNames appOrgs ∨ n ∉ orgNames newOrgs) :
    findOrg (setGroups appOrgs newOrgs g) n = findOrg g n := by
  induction newOrgs generalizing g with
  | nil => rfl
  | cons t rest ih =>
    have hrest : n ∈ orgNames appOrgs ∨ n ∉ orgNames rest := by
      rcases h with h | h
      · exact Or.inl h
      · exact Or.inr (fun hm => h (by simp [orgNames] at hm ⊢; exact Or.inr hm))
    unfold setGroups
    by_cases hf : (appOrgs.any (fun c => c.Name == t.Name)) = true
    · simp only [hf, Bool.not_true, Bool.false_eq_true, if_false]
      exact ih g hrest
    · have hf2 : (appOrgs.any (fun c => c.Name == t.Name)) = false := by simpa using hf
      simp only [hf2, Bool.not_false, if_true]
      rw [ih _ hrest]
      have hne : n ≠ t.Name := by
        intro e
        subst e
        rcases h with h | h
        · exact ((any_false_iff appOrgs _).1 hf2) h
        · exact h (by simp [orgNames])
      have hb : (t.Name == n) = false := by simpa using (fun e => hne e.symm)
      show List.find? (fun o => o.Name == n) (t :: _) = _
      rw [List.find?_cons]
      simp only [hb]
      exact findOrg_filter_ne g t.Name n hne

theorem mem_names_setGroups (appOrgs : List Organization) (newOrgs g : List Organization)
    (n : String) :
    n ∈ orgNames (setGroups appOrgs newOrgs g) ↔
      n ∈ orgNames g ∨ (n ∈ orgNames newOrgs ∧ n ∉ orgNames appOrgs) := by
  induction newOrgs generalizing g with
  | nil => simp [setGroups, orgNames]
  | cons t rest ih =>
    unfold setGroups
    by_cases hf : (appOrgs.any (fun c => c.Name == t.Name)) = true
    · simp only [hf, Bool.not_true, Bool.false_eq_true, if_false]
      rw [ih]
      have ht : t.Name ∈ orgNames appOrgs := (any_name_iff appOrgs t.Name).1 hf
      constructor
      · rintro (h | ⟨h1, h2⟩)
        · exact Or.inl h
        · exact Or.inr ⟨by simp [orgNames] at h1 ⊢; exact Or.inr h1, h2⟩
      · rintro (h | ⟨h1, h2⟩)
        · exact Or.inl h
        · refine Or.inr ⟨?_, h2⟩
          simp only [orgNames, List.map_cons, List.mem_cons] at h1
          rcases h1 with h1 | h1
          · exact absurd (h1 ▸ ht) h2
          · exact h1
    · have hf2 : (appOrgs.any (fun c => c.Name == t.Name)) = false := by simpa using hf
      simp only [hf2, Bool.not_false, if_true]
      rw [ih]
      have ht : t.Name ∉ orgNames appOrgs := (any_false_iff appOrgs t.Name).1 hf2
      have hcons : n ∈ orgNames (t :: g.filter (fun o => o.Name != t.Name)) ↔
          n = t.Name ∨ (n ∈ orgNames g ∧ n ≠ t.Name) := by
        rw [← mem_names_filter_ne]
        simp [orgNames]
      rw [hcons]
      constructor
      · rintro ((h | ⟨h, _⟩) | ⟨h1, h2⟩)
        · exact Or.inr ⟨by simp [orgNames, h], h ▸ ht⟩
        · exact Or.inl h
        · exact Or.inr ⟨by simp [orgNames] at h1 ⊢; exact Or.inr h1, h2⟩
      · rintro (h | ⟨h1, h2⟩)
        · by_cases hn : n = t.Name
          · exact Or.inl (Or.inl hn)
          · exact Or.inl (Or.inr ⟨h, hn⟩)
        · simp only [orgNames, List.map_cons, List.mem_cons] at h1
          rcases h1 with h1 | h1
          · exact Or.inl (Or.inl h1)
          · exact Or.inr ⟨h1, h2⟩

theorem mem_names_reverse (l : List Organization) (n : String) :
    n ∈ orgNames l.reverse ↔ n ∈ orgNames l := by
  simp [orgNames]

theorem findOrg_setGroups_new (appOrgs : List Organization) (newOrgs g : List Organization)
    (n : String) (hA : n ∉ orgNames appOrgs) (hN : n ∈ orgNames newOrgs) :
    findOrg (setGroups appOrgs newOrgs g) n = findOrg newOrgs.reverse n := by
  induction newOrgs generalizing g with
  | nil => simp [orgNames] at hN
  | cons t rest ih =>
    unfold setGroups
    have hrev : findOrg (t :: rest).reverse n =
        (findOrg rest.reverse n).or (findOrg [t] n) := by
      simp only [findOrg, List.reverse_cons, List.find?_append]
    rw [hrev]
    by_cases hr : n ∈ orgNames rest
    · rw [ih _ hr]
      have hs : (findOrg rest.reverse n).isSome = true :=
        (findOrg_isSome_iff _ _).2 ((mem_names_reverse rest n).2 hr)
      cases hfo : findOrg rest.reverse n with
      | none => simp [hfo] at hs
      | some o => rfl
    · have hnt : n = t.Name := by
        simp only [orgNames, List.map_cons, List.mem_cons] at hN
        rcases hN with hN | hN
        · exact hN
        · exact absurd hN hr
      have hf2 : (appOrgs.any (fun c => c.Name == t.Name)) = false :=
        (any_false_iff appOrgs t.Name).2 (hnt ▸ hA)
      simp only [hf2, Bool.not_false, if_true]
      rw [findOrg_setGroups_keep appOrgs rest _ n (Or.inr hr)]
      have hnone : findOrg rest.reverse n = none :=
        (findOrg_eq_none_iff _ _).2 (fun hm => hr ((mem_names_reverse rest n).1 hm))
      rw [hnone]
      have hb : (t.Name == n) = true := by simp [hnt]
      simp [findOrg, List.find?_cons, hb]

theorem mem_removedOps (newOrgs appOrgs : List Organization) (n : String) :
    AppOp.removeOrganization n ∈ removedOps newOrgs appOrgs ↔
      n ∈ orgNames appOrgs ∧ n ∉ orgNames newOrgs := by
  simp only [removedOps, List.mem_map, List.mem_filter, AppOp.removeOrganization.injEq,
    Bool.not_eq_true_eq_eq_false, Bool.not_eq_eq_eq_not, Bool.not_true]
  constructor
  · rintro ⟨c, ⟨hc, hd⟩, rfl⟩
    exact ⟨by simp only [orgNames, List.mem_map]; exact ⟨c, hc, rfl⟩,
      (any_false_iff newOrgs c.Name).1 hd⟩
  · rintro ⟨hc, hd⟩
    simp only [orgNames, List.mem_map] at hc
    obtain ⟨c, hc, rfl⟩ := hc
    exact ⟨c, ⟨hc, (any_false_iff newOrgs c.Name).2 hd⟩, rfl⟩

theorem mem_setOps (appOrgs newOrgs : List Organization) (o : Organization) :
    AppOp.setOrganization o ∈ setOps appOrgs newOrgs ↔
      o ∈ newOrgs ∧ o.Name ∉ orgNames appOrgs := by
  simp only [setOps, List.mem_map, List.mem_filter, AppOp.setOrganization.injEq,
    Bool.not_eq_true_eq_eq_false, Bool.not_eq_eq_eq_not, Bool.not_true]
  constructor
  · rintro ⟨t, ⟨ht, hf⟩, rfl⟩
    exact ⟨ht, (any_false_iff appOrgs t.Name).1 hf⟩
  · rintro ⟨ht, hf⟩
    exact ⟨o, ⟨ht, (any_false_iff appOrgs o.Name).2 hf⟩, rfl⟩

theorem setOrganization_not_mem_removedOps (newOrgs appOrgs : List Organization)
    (o : Organization) : AppOp.setOrganization o ∉ removedOps newOrgs appOrgs := by
  simp [removedOps]

theorem removeOrganization_not_mem_setOps (appOrgs newOrgs : List Organization)
    (n : String) : AppOp.removeOrganization n ∉ setOps appOrgs newOrgs := by
  simp [setOps]

theorem SetPolicies_ok (lib : Lib) (s s2 : DiffState) (policies : GoMap Policy)
    (h : SetPolicies lib s policies = .ok s2) :
    s2 = s.withPolicies policies ∧ policies.has "Admins" = true ∧
      policies.has "Readers" = true ∧ policies.has "Writers" = true ∧
      firstPolicyErr lib policies = none := by
  unfold SetPolicies at h
  by_cases h0 : policies.isEmpty = true
  · simp [h0] at h
  · by_cases h1 : policies.has "Admins" = true
    · by_cases h2 : policies.has "Readers" = true
      · by_cases h3 : policies.has "Writers" = true
        · cases h4 : firstPolicyErr lib policies with
          | some e => simp [h0, h1, h2, h3, h4] at h
          | none =>
            simp only [h0, h1, h2, h3, h4, Bool.not_true, Bool.false_eq_true, if_false,
              Except.ok.injEq] at h
            exact ⟨h.symm, h1, h2, h3, rfl⟩
        · simp [h0, h1, h2, h3] at h
      · simp [h0, h1, h2] at h
    · simp [h0, h1] at h

theorem SetPolicies_of_checks (lib : Lib) (s : DiffState) (policies : GoMap Policy)
    (h1 : policies.has "Admins" = true) (h2 : policies.has "Readers" = true)
    (h3 : policies.has "Writers" = true) (h4 : firstPolicyErr lib policies = none) :
    SetPolicies lib s policies = .ok (s.withPolicies policies) := by
  have h0 : policies.isEmpty = false := by
    cases policies with
    | nil => simp [GoMap.has, GoMap.get] at h1
    | cons a l => rfl
  unfold SetPolicies
  simp only [h0, h1, h2, h3, h4, Bool.not_true, Bool.false_eq_true, if_false]
  rfl

theorem Configuration_ok (lib : Lib) (s : DiffState) (app : Application)
    (h : Configuration lib s = .ok app) :
    app.Organizations = s.groups ∧ lib.decodeErr s.tx.updated.Application = none := by
  unfold Configuration at h
  cases hd : lib.decodeErr s.tx.updated.Application with
  | some e => simp [hd] at h
  | none =>
    simp only [hd, Except.ok.injEq] at h
    subst h
    exact ⟨rfl, rfl⟩

theorem SetACLs_ok (lib : Lib) (s s2 : DiffState) (acls : GoMap String)
    (h : SetACLs lib s acls = .ok s2) :
    s2 = s.withACLs acls ∧ lib.aclsErr acls = none := by
  unfold SetACLs at h
  cases hd : lib.aclsErr acls with
  | some e => simp [hd] at h
  | none =>
    simp only [hd, Except.ok.injEq] at h
    exact ⟨h.symm, rfl⟩

/-- Shape of every successful run of the differ: the groups are those left by the
two loops, the policies and ACLs are the target's, and the call log is the
policy call, the removals, the sets, and the two closing replacements. -/
theorem update_ok_shape (lib : Lib) (c : ConfigTx) (t : Channel) (s : DiffState)
    (h : updateApplicationChannelConfigTx lib c t = .ok s) :
    s = { tx := { original := c.original,
                  updated := { Application :=
                                 { Groups := setGroups c.updated.Application.Groups
                                     t.Application.Organizations
                                     (removedGroups t.Application.Organizations
                                       c.updated.Application.Groups c.updated.Application.Groups),
                                   Policies := t.Application.Policies,
                                   ACLs := t.Application.ACLs,
                                   Capabilities := c.updated.Application.Capabilities },
                               Rest := c.updated.Rest } },
          ops := [AppOp.setPolicies t.Application.Policies]
                   ++ removedOps t.Application.Organizations c.updated.Application.Groups
                   ++ setOps c.updated.Application.Groups t.Application.Organizations
                   ++ [AppOp.setPolicies t.Application.Policies,
                       AppOp.setACLs t.Application.ACLs] } := by
  unfold updateApplicationChannelConfigTx at h
  cases h1 : SetPolicies lib { tx := c, ops := [] } t.Application.Policies with
  | error e => simp [h1] at h
  | ok s1 =>
    simp only [h1] at h
    cases h2 : Configuration lib s1 with
    | error e => simp [h2] at h
    | ok app =>
      simp only [h2] at h
      cases h3 : setLoop lib app.Organizations t.Application.Organizations
          (removeLoop t.Application.Organizations app.Organizations s1) with
      | error e => simp [h3] at h
      | ok s3 =>
        simp only [h3] at h
        cases h4 : SetPolicies lib s3 t.Application.Policies with
        | error e => simp [h4] at h
        | ok s4 =>
          simp only [h4] at h
          cases h5 : SetACLs lib s4 t.Application.ACLs with
          | error e => simp [h5] at h
          | ok s5 =>
            simp only [h5, Except.ok.injEq] at h
            subst h
            have e3 := setLoop_eq lib _ _ _ _ h3
            rw [removeLoop_eq] at e3
            obtain ⟨e1, -⟩ := SetPolicies_ok lib _ _ _ h1
            obtain ⟨e2, -⟩ := Configuration_ok lib _ _ h2
            obtain ⟨e4, -⟩ := SetPolicies_ok lib _ _ _ h4
            obtain ⟨e5, -⟩ := SetACLs_ok lib _ _ _ h5
            rw [e5, e4, e3, e2, e1]
            simp [DiffState.put, DiffState.groups, DiffState.withPolicies, DiffState.withACLs]

theorem update_ok_groups (lib : Lib) (c : ConfigTx) (t : Channel) (s : DiffState)
    (h : updateApplicationChannelConfigTx lib c t = .ok s) :
    s.groups = setGroups c.updated.Application.Groups t.Application.Organizations
      (removedGroups t.Application.Organizations c.updated.Application.Groups
        c.updated.Application.Groups) := by
  rw [update_ok_shape lib c t s h]
  rfl

theorem update_ok_names (lib : Lib) (c : ConfigTx) (t : Channel) (s : DiffState)
    (h : updateApplicationChannelConfigTx lib c t = .ok s) (n : String) :
    n ∈ orgNames s.groups ↔ n ∈ orgNames t.Application.Organizations := by
  rw [update_ok_groups lib c t s h, mem_names_setGroups, mem_names_removedGroups]
  by_cases hc : n ∈ orgNames c.updated.Application.Groups <;>
    by_cases ht : n ∈ orgNames t.Application.Organizations <;> simp [hc, ht]

theorem update_ok_kept (lib : Lib) (c : ConfigTx) (t : Channel) (s : DiffState)
    (h : updateApplicationChannelConfigTx lib c t = .ok s) (n : String)
    (hc : n ∈ orgNames c.updated.Application.Groups)
    (ht : n ∈ orgNames t.Application.Organizations) :
    findOrg s.groups n = findOrg c.updated.Application.Groups n := by
  rw [update_ok_groups lib c t s h, findOrg_setGroups_keep _ _ _ _ (Or.inl hc),
    findOrg_removedGroups _ _ _ _ (Or.inl ht)]

theorem update_ok_ops (lib : Lib) (c : ConfigTx) (t : Channel) (s : DiffState)
    (h : updateApplicationChannelConfigTx lib c t = .ok s) :
    s.ops = [AppOp.setPolicies t.Application.Policies]
              ++ removedOps t.Application.Organizations c.updated.Application.Groups
              ++ setOps c.updated.Application.Groups t.Application.Organizations
              ++ [AppOp.setPolicies t.Application.Policies,
                  AppOp.setACLs t.Application.ACLs] := by
  rw [update_ok_shape lib c t s h]

theorem update_ok_removed (lib : Lib) (c : ConfigTx) (t : Channel) (s : DiffState)
    (h : updateApplicationChannelConfigTx lib c t = .ok s) (n : String) :
    AppOp.removeOrganization n ∈ s.ops ↔
      n ∈ orgNames c.updated.Application.Groups ∧
        n ∉ orgNames t.Application.Organizations := by
  rw [update_ok_ops lib c t s h, ← mem_removedOps]
  simp [removeOrganization_not_mem_setOps]

theorem update_ok_set (lib : Lib) (c : ConfigTx) (t : Channel) (s : DiffState)
    (h : updateApplicationChannelConfigTx lib c t = .ok s) (o : Organization) :
    AppOp.setOrganization o ∈ s.ops ↔
      o ∈ t.Application.Organizations ∧ o.Name ∉ orgNames c.updated.Application.Groups := by
  rw [update_ok_ops lib c t s h, ← mem_setOps]
  simp [setOrganization_not_mem_removedOps]

/-! ## The differ: claims C1 to C5 -/

/-- C1, refuted as stated: with `B` in both configurations under different
definitions, the run succeeds and the working copy keeps the old `B`, so the
updated application configuration is not the target's. -/
theorem roundTripLaw_fails_on_redefined_org :
    ¬ RoundTripLaw libOk (ConfigTx.New configAB) targetBRenewed := by
  intro h
  have h1 := (h _ rfl).1 "B"
  revert h1
  decide

/-- C1, amended: after `updateApplicationChannelConfigTx` succeeds, the working
copy has exactly the target's organization names, policies and ACLs; a name that
the current configuration did not have carries the target's definition (the last
one the target lists under that name), and a name present in both keeps the
definition of the current configuration. -/
theorem differ_round_trip_by_name (lib : Lib) (c : ConfigTx) (t : Channel) (s : DiffState)
    (h : updateApplicationChannelConfigTx lib c t = .ok s) :
    (∀ n, n ∈ orgNames s.groups ↔ n ∈ orgNames t.Application.Organizations) ∧
      (∀ n, n ∉ orgNames c.updated.Application.Groups →
        findOrg s.groups n = findOrg t.Application.Organizations.reverse n) ∧
      (∀ n, n ∈ orgNames c.updated.Application.Groups →
        n ∈ orgNames t.Application.Organizations →
        findOrg s.groups n = findOrg c.updated.Application.Groups n) ∧
      s.tx.updated.Application.Policies = t.Application.Policies ∧
      s.tx.updated.Application.ACLs = t.Application.ACLs := by
  refine ⟨update_ok_names lib c t s h, ?_, update_ok_kept lib c t s h, ?_, ?_⟩
  · intro n hc
    by_cases ht : n ∈ orgNames t.Application.Organizations
    · rw [update_ok_groups lib c t s h]
      exact findOrg_setGroups_new _ _ _ n hc ht
    · have h1 : findOrg s.groups n = none :=
        (findOrg_eq_none_iff _ _).2 (fun hm => ht ((update_ok_names lib c t s h n).1 hm))
      have h2 : findOrg t.Application.Organizations.reverse n = none :=
        (findOrg_eq_none_iff _ _).2 (fun hm => ht ((mem_names_reverse _ n).1 hm))
      rw [h1, h2]
  · rw [update_ok_shape lib c t s h]
  · rw [update_ok_shape lib c t s h]

/-- Witness of C1 amended on the current `{A, B}` and a target that redefines `B`. -/
theorem differ_round_trip_by_name_witness :
    ∃ s, updateApplicationChannelConfigTx libOk (ConfigTx.New configAB) targetBRenewed = .ok s ∧
      findOrg s.groups "B" = some orgB ∧
      ((∀ n, n ∈ orgNames s.groups ↔ n ∈ orgNames targetBRenewed.Application.Organizations) ∧
        (∀ n, n ∉ orgNames (ConfigTx.New configAB).updated.Application.Groups →
          findOrg s.groups n = findOrg targetBRenewed.Application.Organizations.reverse n) ∧
        (∀ n, n ∈ orgNames (ConfigTx.New configAB).updated.Application.Groups →
          n ∈ orgNames targetBRenewed.Application.Organizations →
          findOrg s.groups n = findOrg (ConfigTx.New configAB).updated.Application.Groups n) ∧
        s.tx.updated.Application.Policies = targetBRenewed.Application.Policies ∧
        s.tx.updated.Application.ACLs = targetBRenewed.Application.ACLs) :=
  ⟨_, rfl, by decide,
    differ_round_trip_by_name libOk (ConfigTx.New configAB) targetBRenewed _ rfl⟩

/-- C2: on a successful run, `RemoveOrganization` is called on a name exactly when
the name is in the current configuration and is no target organization's name,
`SetOrganization` is called on a target organization exactly when its name is
not in the current configuration, and the organization names of the working
copy are then exactly the target's. -/
theorem differ_set_difference_by_name (lib : Lib) (c : ConfigTx) (t : Channel)
    (s : DiffState) (h : updateApplicationChannelConfigTx lib c t = .ok s) :
    (∀ n, AppOp.removeOrganization n ∈ s.ops ↔
        (n ∈ orgNames c.updated.Application.Groups ∧
          n ∉ orgNames t.Application.Organizations)) ∧
      (∀ o, AppOp.setOrganization o ∈ s.ops ↔
        (o ∈ t.Application.Organizations ∧
          o.Name ∉ orgNames c.updated.Application.Groups)) ∧
      (∀ n, n ∈ orgNames s.groups ↔ n ∈ orgNames t.Application.Organizations) :=
  ⟨update_ok_removed lib c t s h, update_ok_set lib c t s h, update_ok_names lib c t s h⟩

/-- Witness of C2 on the current `{A, B}` and the target `{B, C}`. -/
theorem differ_set_difference_by_name_witness :
    ∃ s, updateApplicationChannelConfigTx libOk (ConfigTx.New configAB) targetBC = .ok s ∧
      orgNames s.groups = ["C", "B"] ∧
      ((∀ n, AppOp.removeOrganization n ∈ s.ops ↔
          (n ∈ orgNames (ConfigTx.New configAB).updated.Application.Groups ∧
            n ∉ orgNames targetBC.Application.Organizations)) ∧
        (∀ o, AppOp.setOrganization o ∈ s.ops ↔
          (o ∈ targetBC.Application.Organizations ∧
            o.Name ∉ orgNames (ConfigTx.New configAB).updated.Application.Groups)) ∧
        (∀ n, n ∈ orgNames s.groups ↔ n ∈ orgNames targetBC.Application.Organizations)) :=
  ⟨_, rfl, by decide,
    differ_set_difference_by_name libOk (ConfigTx.New configAB) targetBC _ rfl⟩

/-- C3: on a successful run, a name carried by both the current and the target
configuration is neither removed nor set, and the working copy holds under it the
definition the current configuration had. -/
theorem differ_leaves_common_org_untouched (lib : Lib) (c : ConfigTx) (t : Channel)
    (s : DiffState) (n : String)
    (h : updateApplicationChannelConfigTx lib c t = .ok s)
    (hc : n ∈ orgNames c.updated.Application.Groups)
    (ht : n ∈ orgNames t.Application.Organizations) :
    AppOp.removeOrganization n ∉ s.ops ∧
      (∀ o, AppOp.setOrganization o ∈ s.ops → o.Name ≠ n) ∧
      findOrg s.groups n = findOrg c.updated.Application.Groups n := by
  refine ⟨?_, ?_, update_ok_kept lib c t s h n hc ht⟩
  · intro hr
    exact ((update_ok_removed lib c t s h n).1 hr).2 ht
  · intro o ho hn
    exact ((update_ok_set lib c t s h o).1 ho).2 (hn ▸ hc)

/-- Witness of C3, scenario C of the specification: current `{A, B}`, target
`{B, C}`; `A` is removed, `C` is set, and `B` is left as it was. -/
theorem differ_leaves_common_org_untouched_witness :
    ∃ s, updateApplicationChannelConfigTx libOk (ConfigTx.New configAB) targetBC = .ok s ∧
      s.ops = [AppOp.setPolicies samplePolicies, AppOp.removeOrganization "A",
        AppOp.setOrganization orgC, AppOp.setPolicies samplePolicies,
        AppOp.setACLs defaultACLs] ∧
      findOrg s.groups "B" = some orgB ∧
      (AppOp.removeOrganization "B" ∉ s.ops ∧
        (∀ o, AppOp.setOrganization o ∈ s.ops → o.Name ≠ "B") ∧
        findOrg s.groups "B" = findOrg (ConfigTx.New configAB).updated.Application.Groups "B") :=
  ⟨_, rfl, by decide, by decide,
    differ_leaves_common_org_untouched libOk (ConfigTx.New configAB) targetBC _ "B" rfl
      (by decide) (by decide)⟩

theorem update_ok_checks (lib : Lib) (c : ConfigTx) (t : Channel) (s : DiffState)
    (h : updateApplicationChannelConfigTx lib c t = .ok s) :
    t.Application.Policies.has "Admins" = true ∧
      t.Application.Policies.has "Readers" = true ∧
      t.Application.Policies.has "Writers" = true ∧
      firstPolicyErr lib t.Application.Policies = none ∧
      lib.aclsErr t.Application.ACLs = none := by
  unfold updateApplicationChannelConfigTx at h
  cases h1 : SetPolicies lib { tx := c, ops := [] } t.Application.Policies with
  | error e => simp [h1] at h
  | ok s1 =>
    simp only [h1] at h
    cases h2 : Configuration lib s1 with
    | error e => simp [h2] at h
    | ok app =>
      simp only [h2] at h
      cases h3 : setLoop lib app.Organizations t.Application.Organizations
          (removeLoop t.Application.Organizations app.Organizations s1) with
      | error e => simp [h3] at h
      | ok s3 =>
        simp only [h3] at h
        cases h4 : SetPolicies lib s3 t.Application.Policies with
        | error e => simp [h4] at h
        | ok s4 =>
          simp only [h4] at h
          cases h5 : SetACLs lib s4 t.Application.ACLs with
          | error e => simp [h5] at h
          | ok s5 =>
            obtain ⟨-, a1, a2, a3, a4⟩ := SetPolicies_ok lib _ _ _ h1
            obtain ⟨-, a5⟩ := SetACLs_ok lib _ _ _ h5
            exact ⟨a1, a2, a3, a4, a5⟩

theorem removedGroups_id (newOrgs appOrgs g : List Organization)
    (h : ∀ n, n ∈ orgNames appOrgs → n ∈ orgNames newOrgs) :
    removedGroups newOrgs appOrgs g = g := by
  induction appOrgs generalizing g with
  | nil => rfl
  | cons c rest ih =>
    unfold removedGroups
    have hc : (newOrgs.any (fun t => t.Name == c.Name)) = true :=
      (any_name_iff newOrgs c.Name).2 (h _ (by simp [orgNames]))
    simp only [hc, Bool.not_true, Bool.false_eq_true, if_false]
    exact ih g (fun n hn => h n (by simp [orgNames] at hn ⊢; exact Or.inr hn))

theorem removedOps_nil (newOrgs appOrgs : List Organization)
    (h : ∀ n, n ∈ orgNames appOrgs → n ∈ orgNames newOrgs) :
    removedOps newOrgs appOrgs = [] := by
  unfold removedOps
  rw [List.map_eq_nil_iff, List.filter_eq_nil_iff]
  intro c hc
  have h1 : (newOrgs.any (fun t => t.Name == c.Name)) = true :=
    (any_name_iff newOrgs c.Name).2
      (h _ (by simp only [orgNames, List.mem_map]; exact ⟨c, hc, rfl⟩))
  simp [h1]

theorem setGroups_id (appOrgs newOrgs g : List Organization)
    (h : ∀ n, n ∈ orgNames newOrgs → n ∈ orgNames appOrgs) :
    setGroups appOrgs newOrgs g = g := by
  induction newOrgs generalizing g with
  | nil => rfl
  | cons t rest ih =>
    unfold setGroups
    have hc : (appOrgs.any (fun c => c.Name == t.Name)) = true :=
      (any_name_iff appOrgs t.Name).2 (h _ (by simp [orgNames]))
    simp only [hc, Bool.not_true, Bool.false_eq_true, if_false]
    exact ih g (fun n hn => h n (by simp [orgNames] at hn ⊢; exact Or.inr hn))

theorem setOps_nil (appOrgs newOrgs : List Organization)
    (h : ∀ n, n ∈ orgNames newOrgs → n ∈ orgNames appOrgs) :
    setOps appOrgs newOrgs = [] := by
  unfold setOps
  rw [List.map_eq_nil_iff, List.filter_eq_nil_iff]
  intro t ht
  have h1 : (appOrgs.any (fun c => c.Name == t.Name)) = true :=
    (any_name_iff appOrgs t.Name).2
      (h _ (by simp only [orgNames, List.mem_map]; exact ⟨t, ht, rfl⟩))
  simp [h1]

/-- C4: on a successful run the policies of the working copy are the target's
policy map and its ACLs the target's ACL table, whatever the current
configuration held; and whenever the policy replacement or the ACL replacement
fails, `updateApplicationChannelConfigTx` returns an error. -/
theorem differ_replaces_policies_and_acls (lib : Lib) (c : ConfigTx) (t : Channel) :
    (∀ s, updateApplicationChannelConfigTx lib c t = .ok s →
        s.tx.updated.Application.Policies = t.Application.Policies ∧
          s.tx.updated.Application.ACLs = t.Application.ACLs) ∧
      ((∃ s0 e, SetPolicies lib s0 t.Application.Policies = .error e) →
        ∃ e, updateApplicationChannelConfigTx lib c t = .error e) ∧
      ((∃ s0 e, SetACLs lib s0 t.Application.ACLs = .error e) →
        ∃ e, updateApplicationChannelConfigTx lib c t = .error e) := by
  refine ⟨?_, ?_, ?_⟩
  · intro s h
    rw [update_ok_shape lib c t s h]
    exact ⟨rfl, rfl⟩
  · rintro ⟨s0, e, he⟩
    cases hu : updateApplicationChannelConfigTx lib c t with
    | error e2 => exact ⟨e2, rfl⟩
    | ok s =>
      obtain ⟨a1, a2, a3, a4, -⟩ := update_ok_checks lib c t s hu
      rw [SetPolicies_of_checks lib s0 _ a1 a2 a3 a4] at he
      cases he
  · rintro ⟨s0, e, he⟩
    cases hu : updateApplicationChannelConfigTx lib c t with
    | error e2 => exact ⟨e2, rfl⟩
    | ok s =>
      obtain ⟨-, -, -, -, a5⟩ := update_ok_checks lib c t s hu
      simp [SetACLs, a5] at he

/-- Witness of C4: a run that replaces the four old policies and the old ACL of
`configAB` by the target's, a run that fails on the ACL replacement, and a run
that fails on the policy replacement. -/
theorem differ_replaces_policies_and_acls_witness :
    (∃ s, updateApplicationChannelConfigTx libOk (ConfigTx.New configAB) targetBC = .ok s ∧
        s.tx.updated.Application.Policies = samplePolicies ∧
        s.tx.updated.Application.ACLs = defaultACLs) ∧
      (∃ e, updateApplicationChannelConfigTx libAclFail (ConfigTx.New configAB) targetBC
        = .error e) ∧
      (∃ e, updateApplicationChannelConfigTx libPolicyFail (ConfigTx.New configAB) targetBC
        = .error e) :=
  ⟨⟨_, rfl, (differ_replaces_policies_and_acls libOk (ConfigTx.New configAB) targetBC).1 _ rfl⟩,
    (differ_replaces_policies_and_acls libAclFail (ConfigTx.New configAB) targetBC).2.2
      ⟨{ tx := ConfigTx.New configAB, ops := [] }, "marshal", rfl⟩,
    (differ_replaces_policies_and_acls libPolicyFail (ConfigTx.New configAB) targetBC).2.1
      ⟨{ tx := ConfigTx.New configAB, ops := [] }, "unknown policy type", rfl⟩⟩

theorem update_unchanged (lib : Lib) (cfg : Config) (t : Channel) (s : DiffState)
    (hOrgs : ∀ o, o ∈ t.Application.Organizations ↔ o ∈ cfg.Application.Groups)
    (hPol : t.Application.Policies = cfg.Application.Policies)
    (hAcl : t.Application.ACLs = cfg.Application.ACLs)
    (h : updateApplicationChannelConfigTx lib (ConfigTx.New cfg) t = .ok s) :
    (∀ n, AppOp.removeOrganization n ∉ s.ops) ∧
      (∀ o, AppOp.setOrganization o ∉ s.ops) ∧
      s.tx.updated.Application.Groups = cfg.Application.Groups ∧
      s.tx.updated.Application.Policies = cfg.Application.Policies ∧
      s.tx.updated.Application.ACLs = cfg.Application.ACLs ∧
      s.ops =
        [AppOp.setPolicies t.Application.Policies, AppOp.setPolicies t.Application.Policies,
          AppOp.setACLs t.Application.ACLs] := by
  have hn1 : ∀ n, n ∈ orgNames cfg.Application.Groups →
      n ∈ orgNames t.Application.Organizations := by
    intro n hn
    simp only [orgNames, List.mem_map] at hn ⊢
    obtain ⟨o, ho, rfl⟩ := hn
    exact ⟨o, (hOrgs o).2 ho, rfl⟩
  have hn2 : ∀ n, n ∈ orgNames t.Application.Organizations →
      n ∈ orgNames cfg.Application.Groups := by
    intro n hn
    simp only [orgNames, List.mem_map] at hn ⊢
    obtain ⟨o, ho, rfl⟩ := hn
    exact ⟨o, (hOrgs o).1 ho, rfl⟩
  have hshape := update_ok_shape lib _ t s h
  have hops := update_ok_ops lib _ t s h
  simp only [ConfigTx.New] at hshape hops
  rw [removedGroups_id _ _ _ hn1, setGroups_id _ _ _ hn2] at hshape
  rw [removedOps_nil _ _ hn1, setOps_nil _ _ hn2] at hops
  refine ⟨?_, ?_, ?_, ?_, ?_, ?_⟩
  · intro n hr
    exact ((update_ok_removed lib _ t s h n).1 hr).2 (hn1 n ((update_ok_removed lib _ t s h n).1 hr).1)
  · intro o ho
    have h1 := (update_ok_set lib _ t s h o).1 ho
    exact h1.2 (hn2 _ (by simp only [orgNames, List.mem_map]; exact ⟨o, h1.1, rfl⟩))
  · rw [hshape]
  · rw [hshape]; exact hPol
  · rw [hshape]; exact hAcl
  · rw [hops]; rfl

/-- C5, the code at the failing input: when the target's application
organizations, policies and ACLs are those of the fetched configuration, a
successful run of the differ calls neither `RemoveOrganization` nor
`SetOrganization` and leaves the organizations, policies and ACLs as they were
fetched; but it is not idle, for it writes the policies twice and the ACLs once
all the same, and it is this rewritten copy that line 420 hands to the update
computation of the library. In the sample pass over a channel that already has
the target configuration, the update computation reports an update of the
rewritten copy, and the pass signs and submits it. -/
theorem differ_rewrites_unchanged_configuration :
    (∀ (lib : Lib) (cfg : Config) (t : Channel) (s : DiffState),
        (∀ o, o ∈ t.Application.Organizations ↔ o ∈ cfg.Application.Groups) →
        t.Application.Policies = cfg.Application.Policies →
        t.Application.ACLs = cfg.Application.ACLs →
        updateApplicationChannelConfigTx lib (ConfigTx.New cfg) t = .ok s →
        (∀ n, AppOp.removeOrganization n ∉ s.ops) ∧
          (∀ o, AppOp.setOrganization o ∉ s.ops) ∧
          s.tx.updated.Application.Groups = cfg.Application.Groups ∧
          s.tx.updated.Application.Policies = cfg.Application.Policies ∧
          s.tx.updated.Application.ACLs = cfg.Application.ACLs ∧
          s.ops =
            [AppOp.setPolicies t.Application.Policies,
              AppOp.setPolicies t.Application.Policies,
              AppOp.setACLs t.Application.ACLs]) ∧
      (∃ t s, mapToConfigTX envOk (sampleSpec ["Org1MSP"]) = .ok t ∧
        updateApplicationChannelConfigTx libOk (ConfigTx.New (convergedConfig ["Org1MSP"])) t
          = .ok s ∧
        s.tx.updated = convergedConfig ["Org1MSP"] ∧
        s.ops =
          [AppOp.setPolicies t.Application.Policies, AppOp.setPolicies t.Application.Policies,
            AppOp.setACLs defaultACLs]) ∧
      (Reconcile (sampleEnv ["Org1MSP"] (convergedConfig ["Org1MSP"]))).2.trace =
        [Event.queryConfigBlock 0,
          Event.createSignature "Org1MSP" "envelope-update-mychannel",
          Event.saveChannel "mychannel" "envelope-update-mychannel"
            [ { Signer := { MSPID := "Org1MSP", Cert := "cert-org1-admin",
                            Key := "key-org1-admin" },
                Over := "envelope-update-mychannel" } ],
          Event.startPoller, Event.queryConfigBlock 1,
          Event.configMapCreate "demo-config", Event.statusUpdate] := by
  refine ⟨?_, ⟨_, _, rfl, rfl, by decide, by decide⟩, by decide⟩
  intro lib cfg t s hOrgs hPol hAcl h
  exact update_unchanged lib cfg t s hOrgs hPol hAcl h

/-! ## Lemmas on the builder -/

theorem intercalate_go_append (p a s : String) (l : List String) :
    String.intercalate.go (p ++ a) s l = p ++ String.intercalate.go a s l := by
  induction l generalizing a with
  | nil => rfl
  | cons b l ih =>
    simp only [String.intercalate.go]
    rw [String.append_assoc, String.append_assoc, ih, ← String.append_assoc]

theorem adminRuleLoop_cons (len idx : Nat) (m : String) (ms : List String) (acc : String)
    (h : idx + ms.length + 1 = len) :
    adminRuleLoop len idx (m :: ms) acc =
      acc ++ String.intercalate.go (adminPrincipal m) "," (ms.map adminPrincipal) := by
  induction ms generalizing m idx acc with
  | nil =>
    have hc : ¬ ((idx : Int) < (len : Int) - 1) := by simp at h; omega
    simp only [adminRuleLoop, hc, if_false, List.map_nil, String.intercalate.go, adminPrincipal]
  | cons m2 ms ih =>
    have hc : (idx : Int) < (len : Int) - 1 := by simp at h; omega
    unfold adminRuleLoop
    simp only [hc, if_true]
    rw [ih (idx + 1) m2 _ (by simp at h ⊢; omega)]
    simp only [List.map_cons, String.intercalate.go]
    rw [intercalate_go_append (adminPrincipal m ++ ",") (adminPrincipal m2)]
    simp only [adminPrincipal, String.append_assoc]

theorem adminRuleLoop_eq (l : List String) (hne : l ≠ []) :
    adminRuleLoop l.length 0 l "OR(" ++ ")" = orAdminRule l := by
  cases l with
  | nil => exact absurd rfl hne
  | cons m ms =>
    rw [adminRuleLoop_cons (m :: ms).length 0 m ms "OR(" (by simp)]
    simp only [orAdminRule, List.map_cons, String.intercalate]

theorem applyOrdererOverrides_policies (env : BuildEnv) (spec : FabricMainChannelSpec)
    (o o2 : Orderer) (h : applyOrdererOverrides env spec o = .ok o2) :
    o2.Policies = o.Policies := by
  unfold applyOrdererOverrides at h
  cases hcc : spec.ChannelConfig with
  | none =>
    simp only [hcc, Except.ok.injEq] at h
    rw [← h]
  | some channelConfig =>
    simp only [hcc] at h
    cases hco : channelConfig.Orderer with
    | none =>
      simp only [hco, Except.ok.injEq] at h
      rw [← h]
    | some ordererCfg =>
      simp only [hco] at h
      by_cases hbt : (ordererCfg.BatchTimeout != "") = true
      · simp only [hbt, if_true] at h
        cases hpd : env.ParseDuration ordererCfg.BatchTimeout with
        | error e => simp [hpd] at h
        | ok d =>
          simp only [hpd] at h
          cases hbs : ordererCfg.BatchSize with
          | none =>
            simp only [hbs, Except.ok.injEq] at h
            rw [← h]
          | some bs =>
            simp only [hbs, Except.ok.injEq] at h
            rw [← h]
      · simp only [hbt, Bool.false_eq_true, if_false] at h
        cases hbs : ordererCfg.BatchSize with
        | none =>
          simp only [hbs, Except.ok.injEq] at h
          rw [← h]
        | some bs =>
          simp only [hbs, Except.ok.injEq] at h
          rw [← h]

theorem mapToConfigTX_ok_policies (env : BuildEnv) (spec : FabricMainChannelSpec)
    (cfg : Channel) (h : mapToConfigTX env spec = .ok cfg) :
    cfg.Application.Policies =
        [ ("Readers", { PolicyType := "ImplicitMeta", Rule := "ANY Readers" }),
          ("Writers", { PolicyType := "ImplicitMeta", Rule := "ANY Writers" }),
          ("Admins", { PolicyType := "Signature", Rule := adminAppPolicyOf spec }),
          ("Endorsement", { PolicyType := "ImplicitMeta", Rule := "MAJORITY Endorsement" }),
          ("LifecycleEndorsement",
            { PolicyType := "ImplicitMeta", Rule := "MAJORITY Endorsement" }) ] ∧
      cfg.Orderer.Policies =
        [ ("Readers", { PolicyType := "ImplicitMeta", Rule := "ANY Readers" }),
          ("Writers", { PolicyType := "ImplicitMeta", Rule := "ANY Writers" }),
          ("Admins", { PolicyType := "Signature", Rule := ordererAdminRuleOf spec }),
          ("BlockValidation", { PolicyType := "ImplicitMeta", Rule := "ANY Writers" }) ] := by
  unfold mapToConfigTX at h
  cases h1 : consentersLoop env spec.Consenters [] with
  | error e => simp [h1] at h
  | ok consenters =>
    simp only [h1] at h
    cases h2 : env.GetClientKubeWithConf with
    | some e => simp [h2] at h
    | none =>
      simp only [h2] at h
      cases h3 : env.NewForConfig with
      | some e => simp [h3] at h
      | none =>
        simp only [h3] at h
        cases h4 : ordererOrgsLoop env spec.OrdererOrganizations [] with
        | error e => simp [h4] at h
        | ok ordererOrgs1 =>
          simp only [h4] at h
          cases h5 : externalOrdererOrgsLoop env spec.ExternalOrdererOrganizations
              ordererOrgs1 with
          | error e => simp [h5] at h
          | ok ordererOrgs =>
            simp only [h5] at h
            cases h6 : applyOrdererOverrides env spec
                (baseOrderer spec ordererOrgs consenters) with
            | error e => simp [h6] at h
            | ok ordConfigtx =>
              simp only [h6] at h
              cases h7 : peerOrgsLoop env spec.PeerOrganizations [] with
              | error e => simp [h7] at h
              | ok peerOrgs1 =>
                simp only [h7] at h
                cases h8 : externalPeerOrgsLoop env spec.ExternalPeerOrganizations
                    peerOrgs1 with
                | error e => simp [h8] at h
                | ok peerOrgs =>
                  simp only [h8, Except.ok.injEq] at h
                  subst h
                  refine ⟨rfl, ?_⟩
                  show ordConfigtx.Policies = _
                  rw [applyOrdererOverrides_policies env spec _ _ h6]
                  rfl

/-! ## The admin rules of the builder: claims C8 to C10 -/

/-- C8: when the admin peer organization list is non-empty, the Admins policy of
the application section built by `mapToConfigTX` has type Signature and its rule
is `OR(` and `)` around the quoted `.admin` principals of the identifiers in
list order, joined by single commas. -/
theorem application_admin_rule_of_declared_admins (env : BuildEnv)
    (spec : FabricMainChannelSpec) (cfg : Channel)
    (hne : spec.AdminPeerOrganizations ≠ [])
    (h : mapToConfigTX env spec = .ok cfg) :
    cfg.Application.Policies.get "Admins" =
      some { PolicyType := "Signature",
             Rule := orAdminRule (spec.AdminPeerOrganizations.map (fun o => o.MSPID)) } := by
  rw [(mapToConfigTX_ok_policies env spec cfg h).1]
  have hlen : (spec.AdminPeerOrganizations.length == 0) = false := by
    cases hl : spec.AdminPeerOrganizations with
    | nil => exact absurd hl hne
    | cons a l => rfl
  have hrule : adminAppPolicyOf spec =
      orAdminRule (spec.AdminPeerOrganizations.map (fun o => o.MSPID)) := by
    unfold adminAppPolicyOf
    simp only [hlen, Bool.false_eq_true, if_false]
    have := adminRuleLoop_eq (spec.AdminPeerOrganizations.map (fun o => o.MSPID))
      (by simpa using hne)
    rw [List.length_map] at this
    exact this
  rw [hrule]
  rfl

/-- Witness of C8, scenario B of the specification: the admin organizations
`Org1MSP` and `Org2MSP` give the rule `OR('Org1MSP.admin','Org2MSP.admin')`. -/
theorem application_admin_rule_of_declared_admins_witness :
    ∃ cfg, mapToConfigTX envOk (specWithAdmins ["Org1MSP", "Org2MSP"] none) = .ok cfg ∧
      orAdminRule ["Org1MSP", "Org2MSP"] = "OR('Org1MSP.admin','Org2MSP.admin')" ∧
      cfg.Application.Policies.get "Admins" =
        some { PolicyType := "Signature",
               Rule := orAdminRule
                 ((specWithAdmins ["Org1MSP", "Org2MSP"] none).AdminPeerOrganizations.map
                   (fun o => o.MSPID)) } :=
  ⟨_, rfl, by decide,
    application_admin_rule_of_declared_admins envOk
      (specWithAdmins ["Org1MSP", "Org2MSP"] none) _ (by decide) rfl⟩

/-- C9: when the admin peer organization list is empty, the rule of the
application Admins policy built by `mapToConfigTX` is `MAJORITY Admins`. -/
theorem application_admin_rule_default (env : BuildEnv) (spec : FabricMainChannelSpec)
    (cfg : Channel) (h0 : spec.AdminPeerOrganizations = [])
    (h : mapToConfigTX env spec = .ok cfg) :
    cfg.Application.Policies.get "Admins" =
      some { PolicyType := "Signature", Rule := "MAJORITY Admins" } := by
  rw [(mapToConfigTX_ok_policies env spec cfg h).1]
  have hrule : adminAppPolicyOf spec = "MAJORITY Admins" := by
    unfold adminAppPolicyOf
    rw [h0]
    rfl
  rw [hrule]
  rfl

/-- Witness of C9, scenario A of the specification: two peer organizations, one
orderer organization, no admin organization declared. -/
theorem application_admin_rule_default_witness :
    ∃ cfg, mapToConfigTX envOk (specWithAdmins [] none) = .ok cfg ∧
      cfg.Application.Policies.get "Admins" =
        some { PolicyType := "Signature", Rule := "MAJORITY Admins" } :=
  ⟨_, rfl, application_admin_rule_default envOk (specWithAdmins [] none) _ rfl rfl⟩

/-- C10, the code at the failing input: with an admin orderer organization list
that is present but empty, `mapToConfigTX` succeeds and the rule of the orderer
Admins policy is `OR()`, not `MAJORITY Admins`; the application side of the same
spec, whose admin list is empty too, gets `MAJORITY Admins`, and so does the
orderer side when the list is nil. -/
theorem orderer_admin_rule_on_empty_list :
    (∃ cfg, mapToConfigTX envOk (specWithAdmins [] (some [])) = .ok cfg ∧
        cfg.Orderer.Policies.get "Admins" =
          some { PolicyType := "Signature", Rule := "OR()" } ∧
        cfg.Application.Policies.get "Admins" =
          some { PolicyType := "Signature", Rule := "MAJORITY Admins" }) ∧
      (∃ cfg, mapToConfigTX envOk (specWithAdmins [] none) = .ok cfg ∧
        cfg.Orderer.Policies.get "Admins" =
          some { PolicyType := "Signature", Rule := "MAJORITY Admins" }) :=
  ⟨⟨_, rfl, by decide, by decide⟩, ⟨_, rfl, by decide⟩⟩

/-! ## Lemmas on the steps of a pass -/

theorem containsChars_iff_infix (l substr : List Char) :
    containsChars l substr = true ↔ substr <:+: l := by
  induction l with
  | nil =>
    cases substr <;> simp [containsChars]
  | cons c cs ih =>
    unfold containsChars
    rw [Bool.or_eq_true, ih, List.infix_cons_iff, List.isPrefixOf_iff_prefix]

theorem setConditionStatus_status (env : Env) (p : Pass) (conditionType : DeploymentStatus)
    (statusFlag : Bool) (err : Option String) (statusUnknown : Bool) :
    (setConditionStatus env p conditionType statusFlag err statusUnknown).1.status.Status
      = conditionType := by
  unfold setConditionStatus
  by_cases hch : (p.status.Status != conditionType) = true
  · simp only [hch, if_true]
    cases env.StatusPatch conditionType <;> rfl
  · have hch2 : (p.status.Status != conditionType) = false := by simpa using hch
    have heq : p.status.Status = conditionType := by simpa using hch2
    simp only [hch2, Bool.false_eq_true, if_false]
    cases err <;> exact heq

theorem setConditionStatus_trace (env : Env) (p : Pass) (conditionType : DeploymentStatus)
    (statusFlag : Bool) (err : Option String) (statusUnknown : Bool) :
    (setConditionStatus env p conditionType statusFlag err statusUnknown).1.trace
      = p.trace ++ (if (p.status.Status != conditionType) = true
          then [Event.statusPatch conditionType] else []) := by
  unfold setConditionStatus
  by_cases hch : (p.status.Status != conditionType) = true
  · simp only [hch, if_true]
    cases env.StatusPatch conditionType <;> rfl
  · have hch2 : (p.status.Status != conditionType) = false := by simpa using hch
    simp only [hch2, Bool.false_eq_true, if_false, List.append_nil]
    cases err <;> rfl

theorem Adds.refl (P : Event → Prop) (p : Pass) : Adds P p p :=
  ⟨[], by simp, by simp⟩

theorem Adds.trans {P : Event → Prop} {p q r : Pass} (h1 : Adds P p q) (h2 : Adds P q r) :
    Adds P p r := by
  obtain ⟨a1, e1, f1⟩ := h1
  obtain ⟨a2, e2, f2⟩ := h2
  refine ⟨a1 ++ a2, by rw [e2, e1, List.append_assoc], ?_⟩
  intro ev hev
  rcases List.mem_append.1 hev with h | h
  · exact f1 ev h
  · exact f2 ev h

theorem Adds.step {P : Event → Prop} (p : Pass) (st : FabricMainChannelStatus) (ev : Event)
    (h : P ev) : Adds P p { status := st, trace := p.trace ++ [ev] } :=
  ⟨[ev], rfl, by simpa using h⟩

theorem updateCRStatusOrFailReconcile_pass (env : Env) (p : Pass) :
    (updateCRStatusOrFailReconcile env p).2 = { p with trace := p.trace ++ [Event.statusUpdate] } := by
  unfold updateCRStatusOrFailReconcile
  cases env.StatusUpdate p.status <;> rfl

theorem failAt_ended {α : Type} (env : Env) (p : Pass) (line : Nat) (err : String) :
    (failAt env p line err : Flow α).ended = true := rfl

theorem failAt_pass {α : Type} (env : Env) (p : Pass) (line : Nat) (err : String) :
    (failAt env p line err : Flow α).pass =
      { (setConditionStatus env { p with trace := p.trace ++ [Event.setFailed line err] }
          FailedStatus false (some err) false).1 with
        trace := (setConditionStatus env
          { p with trace := p.trace ++ [Event.setFailed line err] }
          FailedStatus false (some err) false).1.trace ++ [Event.statusUpdate] } := by
  show (updateCRStatusOrFailReconcile env _).2 = _
  rw [updateCRStatusOrFailReconcile_pass]

theorem failAt_status {α : Type} (env : Env) (p : Pass) (line : Nat) (err : String) :
    (failAt env p line err : Flow α).pass.status.Status = FailedStatus := by
  rw [failAt_pass]
  exact setConditionStatus_status _ _ _ _ _ _

theorem failAt_trace {α : Type} (env : Env) (p : Pass) (line : Nat) (err : String) :
    (failAt env p line err : Flow α).pass.trace =
      p.trace ++ (Event.setFailed line err ::
        ((if (p.status.Status != FailedStatus) = true
            then [Event.statusPatch FailedStatus] else []) ++ [Event.statusUpdate])) := by
  rw [failAt_pass]
  show (setConditionStatus env _ FailedStatus false (some err) false).1.trace
      ++ [Event.statusUpdate] = _
  rw [setConditionStatus_trace]
  simp

theorem failAt_adds {α : Type} (env : Env) (p : Pass) (line : Nat) (err : String) :
    Adds Quiet p (failAt env p line err : Flow α).pass := by
  refine ⟨_, failAt_trace env p line err, ?_⟩
  intro ev hev
  rcases List.mem_cons.1 hev with h | h
  · subst h; exact ⟨rfl, rfl⟩
  · rcases List.mem_append.1 h with h | h
    · by_cases hc : (p.status.Status != FailedStatus) = true
      · rw [if_pos hc] at h
        simp only [List.mem_singleton] at h
        subst h; exact ⟨rfl, rfl⟩
      · rw [if_neg hc] at h
        simp at h
    · simp only [List.mem_singleton] at h
      subst h; exact ⟨rfl, rfl⟩

theorem bind_failAt {α β : Type} (env : Env) (p : Pass) (line : Nat) (err : String)
    (g : α → Pass → Flow β) :
    (failAt env p line err : Flow α).bind g = (failAt env p line err : Flow β) := rfl

theorem pollStep_of_none (env : Env) (p p2 : Pass)
    (h : pollLoop env 12 0 { p with trace := p.trace ++ [Event.startPoller] } = (none, p2)) :
    pollStep env p = failAt env p2 543 "timeout querying orderer channel" := by
  unfold pollStep
  simp only [h]

theorem pollStep_of_some (env : Env) (p p2 : Pass) (b : Block)
    (h : pollLoop env 12 0 { p with trace := p.trace ++ [Event.startPoller] } = (some b, p2)) :
    pollStep env p = Flow.next b p2 := by
  unfold pollStep
  simp only [h]

theorem queryCount_append_startPoller (p : Pass) :
    queryCount { p with trace := p.trace ++ [Event.startPoller] } = queryCount p := by
  simp [queryCount, List.filter_append]

theorem pollLoop_trace (env : Env) (fuel elapsed : Nat) (p : Pass) :
    ∃ added, (pollLoop env fuel elapsed p).2.trace = p.trace ++ added ∧
      (∀ ev, ev ∈ added → Quiet ev) ∧
      (fuel ≠ 0 → Event.queryConfigBlock (queryCount p) ∈ added) := by
  induction fuel generalizing elapsed p with
  | zero => exact ⟨[], by simp [pollLoop], by simp, by simp⟩
  | succ fuel ih =>
    unfold pollLoop
    cases hq : env.QueryConfigBlockFromOrderer (queryCount p) with
    | ok b =>
      simp only
      refine ⟨[Event.queryConfigBlock (queryCount p)], ?_, ?_, by simp⟩
      · split <;> rfl
      · intro ev hev
        simp only [List.mem_singleton] at hev
        subst hev; exact ⟨rfl, rfl⟩
    | error e =>
      simp only
      split
      · obtain ⟨added, e1, f1, -⟩ := ih (elapsed + env.queryMillis (queryCount p) + 1000)
          { p with trace := p.trace ++ [Event.queryConfigBlock (queryCount p)]
                     ++ [Event.sleep 1000] }
        refine ⟨Event.queryConfigBlock (queryCount p) :: Event.sleep 1000 :: added, ?_, ?_,
          by simp⟩
        · rw [e1]; simp
        · intro ev hev
          simp only [List.mem_cons] at hev
          rcases hev with h | h | h
          · subst h; exact ⟨rfl, rfl⟩
          · subst h; exact ⟨rfl, rfl⟩
          · exact f1 ev h
      · refine ⟨[Event.queryConfigBlock (queryCount p), Event.sleep 1000], by simp, ?_,
          by simp⟩
        intro ev hev
        simp only [List.mem_cons, List.mem_singleton, List.not_mem_nil, or_false] at hev
        rcases hev with h | h
        · subst h; exact ⟨rfl, rfl⟩
        · subst h; exact ⟨rfl, rfl⟩

theorem markRunning_adds (env : Env) (p : Pass) : Adds Quiet p (markRunning env p).pass := by
  unfold markRunning
  simp only
  split
  · exact Adds.trans (Adds.step p _ Event.statusUpdate ⟨rfl, rfl⟩) (failAt_adds _ _ _ _)
  · exact Adds.step p _ Event.statusUpdate ⟨rfl, rfl⟩

theorem finishStep_adds (env : Env) (obj : FabricMainChannel) (b : Block) (p : Pass) :
    Adds Quiet p (finishStep env obj b p).pass := by
  unfold finishStep
  split
  · exact failAt_adds _ _ _ _
  · split
    · exact failAt_adds _ _ _ _
    · simp only
      split
      · exact failAt_adds _ _ _ _
      · split
        · exact Adds.trans (Adds.step p p.status (Event.configMapCreate _) ⟨rfl, rfl⟩)
            (failAt_adds _ _ _ _)
        · exact Adds.trans (Adds.step p p.status (Event.configMapCreate _) ⟨rfl, rfl⟩)
            (markRunning_adds _ _)
      · split
        · exact Adds.trans (Adds.step p p.status (Event.configMapUpdate _) ⟨rfl, rfl⟩)
            (failAt_adds _ _ _ _)
        · exact Adds.trans (Adds.step p p.status (Event.configMapUpdate _) ⟨rfl, rfl⟩)
            (markRunning_adds _ _)

theorem poll_and_finish_trace (env : Env) (obj : FabricMainChannel) (p : Pass) :
    ∃ added, ((pollStep env p).bind (fun b p2 => finishStep env obj b p2)).pass.trace
        = p.trace ++ Event.startPoller :: added ∧
      (∀ ev, ev ∈ added → Quiet ev) ∧
      Event.queryConfigBlock (queryCount p) ∈ added := by
  obtain ⟨a1, e1, f1, g1⟩ := pollLoop_trace env 12 0
    { p with trace := p.trace ++ [Event.startPoller] }
  rw [queryCount_append_startPoller] at g1
  have hg := g1 (by decide)
  cases hpl : pollLoop env 12 0 { p with trace := p.trace ++ [Event.startPoller] } with
  | mk r p2 =>
    rw [hpl] at e1
    simp only at e1
    cases r with
    | none =>
      rw [pollStep_of_none env p p2 hpl, bind_failAt]
      obtain ⟨a2, e2, f2⟩ := failAt_adds (α := Unit) env p2 543 "timeout querying orderer channel"
      refine ⟨a1 ++ a2, ?_, ?_, List.mem_append_left _ hg⟩
      · rw [e2, e1]
        simp
      · intro ev hev
        rcases List.mem_append.1 hev with h | h
        · exact f1 ev h
        · exact f2 ev h
    | some b =>
      rw [pollStep_of_some env p p2 b hpl]
      obtain ⟨a2, e2, f2⟩ := finishStep_adds env obj b p2
      refine ⟨a1 ++ a2, ?_, ?_, List.mem_append_left _ hg⟩
      · show (finishStep env obj b p2).pass.trace = _
        rw [e2, e1]
        simp
      · intro ev hev
        rcases List.mem_append.1 hev with h | h
        · exact f1 ev h
        · exact f2 ev h

/-! ## The update computation inside a pass: claims C6 and C7 -/

/-- C6, refuted as stated: when the update computation reports no differences in
the sample pass, the rest of the pass (lines 420-608) requests no signature and
submits nothing, and yet it starts the poller and queries the ordering service;
so an empty update does not short-circuit the convergence polling. -/
theorem no_change_does_not_skip_polling :
    (reconcileFromCalculate (sampleEnv ["Org1MSP"] (convergedConfig ["Org1MSP"]))
        (sampleObject ["Org1MSP"]) [] (.error noDifferences) samplePass).pass.trace =
        [Event.startPoller, Event.queryConfigBlock 0, Event.configMapCreate "demo-config",
          Event.statusUpdate] ∧
      ¬ ShortCircuitsOnNoChange (sampleEnv ["Org1MSP"] (convergedConfig ["Org1MSP"]))
          (sampleObject ["Org1MSP"]) [] noDifferences samplePass := by
  refine ⟨by decide, ?_⟩
  intro h
  have h1 := h (by decide)
    [Event.startPoller, Event.queryConfigBlock 0, Event.configMapCreate "demo-config",
      Event.statusUpdate] (by decide) Event.startPoller (by simp)
  exact absurd h1.2.2 (by decide)

/-- C6, amended: when the update computation reports no differences, the rest of
the pass (lines 420-608) requests no signature and calls `SaveChannel` never;
the convergence polling is still performed: the poller is started and the
ordering service is queried. -/
theorem no_change_skips_signing_and_submission (env : Env) (obj : FabricMainChannel)
    (resmgmtOptions : List String) (err : String) (p : Pass)
    (h : strContains err noDifferences = true) :
    ∃ added, (reconcileFromCalculate env obj resmgmtOptions (.error err) p).pass.trace
        = p.trace ++ Event.startPoller :: added ∧
      (∀ ev, ev ∈ added → ev.isSigning = false ∧ ev.isSubmission = false) ∧
      Event.queryConfigBlock (queryCount p) ∈ added := by
  have hd : diffStep env obj.Spec resmgmtOptions (.error err) p = Flow.next () p := by
    unfold diffStep
    simp only [h, Bool.not_true, Bool.false_eq_true, if_false]
  unfold reconcileFromCalculate
  rw [hd]
  exact poll_and_finish_trace env obj p

/-- Witness of C6 amended on the sample pass, with the no-differences error. -/
theorem no_change_skips_signing_and_submission_witness :
    strContains noDifferences noDifferences = true ∧
      ∃ added, (reconcileFromCalculate (sampleEnv ["Org1MSP"] (convergedConfig ["Org1MSP"]))
          (sampleObject ["Org1MSP"]) [] (.error noDifferences) samplePass).pass.trace
          = samplePass.trace ++ Event.startPoller :: added ∧
        (∀ ev, ev ∈ added → ev.isSigning = false ∧ ev.isSubmission = false) ∧
        Event.queryConfigBlock (queryCount samplePass) ∈ added :=
  ⟨by decide,
    no_change_skips_signing_and_submission (sampleEnv ["Org1MSP"] (convergedConfig ["Org1MSP"]))
      (sampleObject ["Org1MSP"]) [] noDifferences samplePass (by decide)⟩

/-- C7: when the update computation returns an error, the diff step (line 423)
marks the pass Failed exactly when the error text does not contain the
no-differences text: then the pass ends there with status Failed; when the text
is contained, the step leaves the status and the pass as they were and the
pass goes on. -/
theorem diff_error_fails_iff_not_no_differences (env : Env) (spec : FabricMainChannelSpec)
    (resmgmtOptions : List String) (err : String) (p : Pass)
    (hfresh : ∀ m, Event.setFailed 423 m ∉ p.trace) :
    ((∃ m, Event.setFailed 423 m ∈ (diffStep env spec resmgmtOptions (.error err) p).pass.trace)
        ↔ strContains err noDifferences = false) ∧
      (strContains err noDifferences = false →
        (diffStep env spec resmgmtOptions (.error err) p).ended = true ∧
          (diffStep env spec resmgmtOptions (.error err) p).pass.status.Status = FailedStatus) ∧
      (strContains err noDifferences = true →
        diffStep env spec resmgmtOptions (.error err) p = Flow.next () p) := by
  have hyes : strContains err noDifferences = true →
      diffStep env spec resmgmtOptions (.error err) p = Flow.next () p := by
    intro h
    unfold diffStep
    simp only [h, Bool.not_true, Bool.false_eq_true, if_false]
  have hno : strContains err noDifferences = false →
      diffStep env spec resmgmtOptions (.error err) p =
        failAt env p 423 (wrapf err "error calculating config update") := by
    intro h
    unfold diffStep
    simp only [h, Bool.not_false, if_true]
  refine ⟨⟨?_, ?_⟩, ?_, hyes⟩
  · rintro ⟨m, hm⟩
    cases hc : strContains err noDifferences with
    | false => rfl
    | true =>
      rw [hyes hc] at hm
      exact absurd hm (hfresh m)
  · intro hc
    rw [hno hc, failAt_trace]
    exact ⟨wrapf err "error calculating config update", by simp⟩
  · intro hc
    rw [hno hc]
    exact ⟨failAt_ended _ _ _ _, failAt_status _ _ _ _⟩

/-- Witness of C7 on the sample pass: an error that does not carry the
no-differences text fails the pass at line 423, and the library's wrapped
no-differences error does not. -/
theorem diff_error_fails_iff_not_no_differences_witness :
    strContains "channel ID is required" noDifferences = false ∧
      strContains ("compute update: " ++ noDifferences) noDifferences = true ∧
      (((∃ m, Event.setFailed 423 m ∈
            (diffStep (sampleEnv ["Org1MSP"] configAB) (sampleSpec ["Org1MSP"]) []
              (.error "channel ID is required") samplePass).pass.trace)
          ↔ strContains "channel ID is required" noDifferences = false) ∧
        (strContains "channel ID is required" noDifferences = false →
          (diffStep (sampleEnv ["Org1MSP"] configAB) (sampleSpec ["Org1MSP"]) []
              (.error "channel ID is required") samplePass).ended = true ∧
            (diffStep (sampleEnv ["Org1MSP"] configAB) (sampleSpec ["Org1MSP"]) []
              (.error "channel ID is required") samplePass).pass.status.Status
              = FailedStatus) ∧
        (strContains "channel ID is required" noDifferences = true →
          diffStep (sampleEnv ["Org1MSP"] configAB) (sampleSpec ["Org1MSP"]) []
              (.error "channel ID is required") samplePass = Flow.next () samplePass)) :=
  ⟨by decide, by decide,
    diff_error_fails_iff_not_no_differences (sampleEnv ["Org1MSP"] configAB)
      (sampleSpec ["Org1MSP"]) [] "channel ID is required" samplePass
      (fun _ h => by cases h)⟩

/-! ## The default ACL table and the default parameters: claims C11 to C13 -/

theorem mapToConfigTX_ok_acls (env : BuildEnv) (spec : FabricMainChannelSpec)
    (cfg : Channel) (h : mapToConfigTX env spec = .ok cfg) :
    cfg.Application.ACLs = defaultACLs ∧
      ∃ ordererOrgs consenters,
        applyOrdererOverrides env spec (baseOrderer spec ordererOrgs consenters)
          = .ok cfg.Orderer := by
  unfold mapToConfigTX at h
  cases h1 : consentersLoop env spec.Consenters [] with
  | error e => simp [h1] at h
  | ok consenters =>
    simp only [h1] at h
    cases h2 : env.GetClientKubeWithConf with
    | some e => simp [h2] at h
    | none =>
      simp only [h2] at h
      cases h3 : env.NewForConfig with
      | some e => simp [h3] at h
      | none =>
        simp only [h3] at h
        cases h4 : ordererOrgsLoop env spec.OrdererOrganizations [] with
        | error e => simp [h4] at h
        | ok ordererOrgs1 =>
          simp only [h4] at h
          cases h5 : externalOrdererOrgsLoop env spec.ExternalOrdererOrganizations
              ordererOrgs1 with
          | error e => simp [h5] at h
          | ok ordererOrgs =>
            simp only [h5] at h
            cases h6 : applyOrdererOverrides env spec
                (baseOrderer spec ordererOrgs consenters) with
            | error e => simp [h6] at h
            | ok ordConfigtx =>
              simp only [h6] at h
              cases h7 : peerOrgsLoop env spec.PeerOrganizations [] with
              | error e => simp [h7] at h
              | ok peerOrgs1 =>
                simp only [h7] at h
                cases h8 : externalPeerOrgsLoop env spec.ExternalPeerOrganizations
                    peerOrgs1 with
                | error e => simp [h8] at h
                | ok peerOrgs =>
                  simp only [h8, Except.ok.injEq] at h
                  subst h
                  exact ⟨rfl, ordererOrgs, consenters, h6⟩

/-- C11, refuted as stated: the table returned by `defaultACLs` does not have 17
entries. -/
theorem defaultACLs_not_seventeen : defaultACLs.length ≠ 17 := by decide

/-- C11, amended: the table returned by `defaultACLs` has exactly 19 entries, under
19 different keys, and `mapToConfigTX` installs it as the application ACLs of
every target configuration it builds. -/
theorem defaultACLs_nineteen_entries :
    defaultACLs.length = 19 ∧ (defaultACLs.map (fun e => e.1)).Nodup ∧
      ∀ (env : BuildEnv) (spec : FabricMainChannelSpec) (cfg : Channel),
        mapToConfigTX env spec = .ok cfg → cfg.Application.ACLs = defaultACLs :=
  ⟨by decide, by decide, fun env spec cfg h => (mapToConfigTX_ok_acls env spec cfg h).1⟩

/-- Witness of C11 amended, scenario A of the specification: the configuration
built for two peer organizations and one orderer organization carries the 19
entries. -/
theorem defaultACLs_nineteen_entries_witness :
    ∃ cfg, mapToConfigTX envOk (specWithAdmins [] none) = .ok cfg ∧
      cfg.Application.ACLs = defaultACLs ∧ cfg.Application.ACLs.length = 19 :=
  ⟨_, rfl, defaultACLs_nineteen_entries.2.2 envOk (specWithAdmins [] none) _ rfl, by decide⟩

/-- C12, refuted as stated: `_lifecycle/QueryChaincodeDefinition` is a query key,
its operation name beginning with `Query`, and the table maps it to the
writers; so the rule of the specification does not hold of the table. -/
theorem defaultACLs_query_maps_to_writers :
    isQueryKey "_lifecycle/QueryChaincodeDefinition" = true ∧
      defaultACLs.get "_lifecycle/QueryChaincodeDefinition" = some writersPath ∧
      readersForQueries defaultACLs = false := by
  refine ⟨by decide, by decide, by decide⟩

/-- C12, amended: in the table returned by `defaultACLs` every value is the readers
or the writers path; every key of the `lscc`, `qscc`, `cscc` and `event`
resources maps to the readers; every key of the `_lifecycle` and `peer`
resources maps to the writers, which covers `peer/Propose`,
`peer/ChaincodeToChaincode`, `_lifecycle/CommitChaincodeDefinition` and the two
`_lifecycle` query operations; and the table has no key of another resource. -/
theorem defaultACLs_readers_by_chaincode :
    readersByChaincode defaultACLs = true ∧
      defaultACLs.get "peer/Propose" = some writersPath ∧
      defaultACLs.get "peer/ChaincodeToChaincode" = some writersPath ∧
      defaultACLs.get "_lifecycle/CommitChaincodeDefinition" = some writersPath ∧
      defaultACLs.get "_lifecycle/QueryChaincodeDefinition" = some writersPath ∧
      defaultACLs.get "_lifecycle/QueryChaincodeDefinitions" = some writersPath ∧
      defaultACLs.get "lscc/ChaincodeExists" = some readersPath ∧
      defaultACLs.get "event/Block" = some readersPath ∧
      defaultACLs.get "event/FilteredBlock" = some readersPath := by
  refine ⟨by decide, by decide, by decide, by decide, by decide, by decide, by decide,
    by decide, by decide⟩

theorem applyOrdererOverrides_none (env : BuildEnv) (spec : FabricMainChannelSpec)
    (o : Orderer) (h : spec.ChannelConfig = none) :
    applyOrdererOverrides env spec o = .ok o := by
  unfold applyOrdererOverrides
  rw [h]

theorem etcdRaftOptionsOf_none (spec : FabricMainChannelSpec) (h : spec.ChannelConfig = none) :
    etcdRaftOptionsOf spec =
      { TickInterval := "500ms", ElectionTick := 10, HeartbeatTick := 1,
        MaxInflightBlocks := 5, SnapshotIntervalSize := 16 * 1024 * 1024 } := by
  unfold etcdRaftOptionsOf
  rw [h]

/-- C13: for a spec without channel-config override, the orderer section built by
`mapToConfigTX` has tick interval `500ms`, election tick 10, heartbeat tick 1,
max in-flight blocks 5, snapshot interval size 16*1024*1024, batch timeout 2
seconds (in nanoseconds), max message count 100, absolute max bytes 1024*1024
and preferred max bytes 512*1024. -/
theorem default_operational_parameters (env : BuildEnv) (spec : FabricMainChannelSpec)
    (cfg : Channel) (hnone : spec.ChannelConfig = none)
    (h : mapToConfigTX env spec = .ok cfg) :
    cfg.Orderer.EtcdRaft.Options.TickInterval = "500ms" ∧
      cfg.Orderer.EtcdRaft.Options.ElectionTick = 10 ∧
      cfg.Orderer.EtcdRaft.Options.HeartbeatTick = 1 ∧
      cfg.Orderer.EtcdRaft.Options.MaxInflightBlocks = 5 ∧
      cfg.Orderer.EtcdRaft.Options.SnapshotIntervalSize = 16 * 1024 * 1024 ∧
      cfg.Orderer.BatchTimeout = 2 * 1000000000 ∧
      cfg.Orderer.BatchSize.MaxMessageCount = 100 ∧
      cfg.Orderer.BatchSize.AbsoluteMaxBytes = 1024 * 1024 ∧
      cfg.Orderer.BatchSize.PreferredMaxBytes = 512 * 1024 := by
  obtain ⟨-, ordererOrgs, consenters, ho⟩ := mapToConfigTX_ok_acls env spec cfg h
  rw [applyOrdererOverrides_none env spec _ hnone] at ho
  have hc : cfg.Orderer = baseOrderer spec ordererOrgs consenters :=
    (Except.ok.inj ho).symm
  rw [hc]
  have he := etcdRaftOptionsOf_none spec hnone
  simp only [baseOrderer, he]
  decide

/-- Witness of C13 on the sample spec, which carries no channel-config override. -/
theorem default_operational_parameters_witness :
    ∃ cfg, mapToConfigTX envOk (specWithAdmins [] none) = .ok cfg ∧
      (cfg.Orderer.EtcdRaft.Options.TickInterval = "500ms" ∧
        cfg.Orderer.EtcdRaft.Options.ElectionTick = 10 ∧
        cfg.Orderer.EtcdRaft.Options.HeartbeatTick = 1 ∧
        cfg.Orderer.EtcdRaft.Options.MaxInflightBlocks = 5 ∧
        cfg.Orderer.EtcdRaft.Options.SnapshotIntervalSize = 16 * 1024 * 1024 ∧
        cfg.Orderer.BatchTimeout = 2 * 1000000000 ∧
        cfg.Orderer.BatchSize.MaxMessageCount = 100 ∧
        cfg.Orderer.BatchSize.AbsoluteMaxBytes = 1024 * 1024 ∧
        cfg.Orderer.BatchSize.PreferredMaxBytes = 512 * 1024) :=
  ⟨_, rfl, default_operational_parameters envOk (specWithAdmins [] none) _ rfl rfl⟩

/-! ## Lemmas on the join phase -/

theorem joinRequest_of_405 (env : Env) (channelName blockBytes osnUrl : String)
    (lines : Nat × Nat × Nat × Nat) (p : Pass) (resp : JoinResponse)
    (hj : env.Join (joinCount p) osnUrl blockBytes = .ok resp)
    (h405 : resp.StatusCode = 405) :
    joinRequest env channelName blockBytes osnUrl lines p = Flow.next () (p.afterJoin osnUrl) := by
  unfold joinRequest
  simp only [hj, h405]
  rfl

theorem joinRequest_of_201 (env : Env) (channelName blockBytes osnUrl : String)
    (lines : Nat × Nat × Nat × Nat) (p : Pass) (resp : JoinResponse) (data : String)
    (hj : env.Join (joinCount p) osnUrl blockBytes = .ok resp)
    (h201 : resp.StatusCode = 201) (hbody : resp.Body = .ok data) :
    joinRequest env channelName blockBytes osnUrl lines p =
      match env.jsonUnmarshalChannelInfo data with
      | some err => failAt env (p.afterJoin osnUrl) lines.2.2.2 err
      | none => Flow.next () (p.afterJoin osnUrl) := by
  unfold joinRequest
  simp only [hj, h201, hbody]
  rfl

theorem joinRequest_of_other (env : Env) (channelName blockBytes osnUrl : String)
    (lines : Nat × Nat × Nat × Nat) (p : Pass) (resp : JoinResponse) (data : String)
    (hj : env.Join (joinCount p) osnUrl blockBytes = .ok resp)
    (h201 : resp.StatusCode ≠ 201) (h405 : resp.StatusCode ≠ 405)
    (hbody : resp.Body = .ok data) :
    joinRequest env channelName blockBytes osnUrl lines p =
      failAt env (p.afterJoin osnUrl) lines.2.2.1
        (joinStatusError osnUrl channelName resp.StatusCode data) := by
  unfold joinRequest
  have c405 : (resp.StatusCode == 405) = false := by simpa using h405
  have c201 : (resp.StatusCode != 201) = true := by simpa using h201
  simp only [hj, hbody, c405, c201, Bool.false_eq_true, if_false, if_true]
  rfl

theorem joinExternalOrderers_next (env : Env) (channelName blockBytes : String)
    (cc : FabricMainChannelExternalOrdererNode)
    (rest : List FabricMainChannelExternalOrdererNode) (p q : Pass)
    (h : joinRequest env channelName blockBytes (osnUrlOf cc.Host cc.AdminPort)
      (202, 212, 218, 237) p = Flow.next () q) :
    joinExternalOrderers env channelName blockBytes (cc :: rest) p =
      joinExternalOrderers env channelName blockBytes rest q := by
  show (joinRequest env channelName blockBytes (osnUrlOf cc.Host cc.AdminPort)
    (202, 212, 218, 237) p).bind _ = _
  rw [h]
  rfl

theorem joinClusterOrderers_next (env : Env) (channelName blockBytes : String)
    (cc : FabricMainChannelOrdererNode) (rest : List FabricMainChannelOrdererNode)
    (p q : Pass) (node host : String) (port : Int)
    (hn : env.OrdererNodesGet cc.Namespace cc.Name = .ok node)
    (hp : env.GetOrdererAdminHostAndPort node = .ok (host, port))
    (h : joinRequest env channelName blockBytes (osnUrlOf host port)
      (257, 267, 272, 291) p = Flow.next () q) :
    joinClusterOrderers env channelName blockBytes (cc :: rest) p =
      joinClusterOrderers env channelName blockBytes rest q := by
  have hcons : joinClusterOrderers env channelName blockBytes (cc :: rest) p =
      (orFail env p 245 (env.OrdererNodesGet cc.Namespace cc.Name)).bind (fun ordererNode p1 =>
        (orFail env p1 250 (env.GetOrdererAdminHostAndPort ordererNode)).bind (fun hp p2 =>
          (joinRequest env channelName blockBytes
              ("https://" ++ hp.1 ++ ":" ++ toString hp.2) (257, 267, 272, 291) p2).bind
            (fun _ p3 => joinClusterOrderers env channelName blockBytes rest p3))) := rfl
  have h2 : joinRequest env channelName blockBytes ("https://" ++ host ++ ":" ++ toString port)
      (257, 267, 272, 291) p = Flow.next () q := h
  rw [hcons]
  simp only [hn, hp, orFail, Flow.bind, h2]

theorem joinExternalOrderers_fail (env : Env) (channelName blockBytes : String)
    (cc : FabricMainChannelExternalOrdererNode)
    (rest : List FabricMainChannelExternalOrdererNode) (p q : Pass) (line : Nat) (err : String)
    (h : joinRequest env channelName blockBytes (osnUrlOf cc.Host cc.AdminPort)
      (202, 212, 218, 237) p = failAt env q line err) :
    joinExternalOrderers env channelName blockBytes (cc :: rest) p = failAt env q line err := by
  show (joinRequest env channelName blockBytes (osnUrlOf cc.Host cc.AdminPort)
    (202, 212, 218, 237) p).bind _ = _
  rw [h]
  exact bind_failAt _ _ _ _ _

theorem joinClusterOrderers_fail (env : Env) (channelName blockBytes : String)
    (cc : FabricMainChannelOrdererNode) (rest : List FabricMainChannelOrdererNode)
    (p q : Pass) (line : Nat) (err : String) (node host : String) (port : Int)
    (hn : env.OrdererNodesGet cc.Namespace cc.Name = .ok node)
    (hp : env.GetOrdererAdminHostAndPort node = .ok (host, port))
    (h : joinRequest env channelName blockBytes (osnUrlOf host port)
      (257, 267, 272, 291) p = failAt env q line err) :
    joinClusterOrderers env channelName blockBytes (cc :: rest) p = failAt env q line err := by
  have hcons : joinClusterOrderers env channelName blockBytes (cc :: rest) p =
      (orFail env p 245 (env.OrdererNodesGet cc.Namespace cc.Name)).bind (fun ordererNode p1 =>
        (orFail env p1 250 (env.GetOrdererAdminHostAndPort ordererNode)).bind (fun hp p2 =>
          (joinRequest env channelName blockBytes
              ("https://" ++ hp.1 ++ ":" ++ toString hp.2) (257, 267, 272, 291) p2).bind
            (fun _ p3 => joinClusterOrderers env channelName blockBytes rest p3))) := rfl
  have h2 : joinRequest env channelName blockBytes ("https://" ++ host ++ ":" ++ toString port)
      (257, 267, 272, 291) p = failAt env q line err := h
  rw [hcons]
  simp only [hn, hp, orFail, Flow.bind, h2]
  rfl

/-! ## The join phase: claims C14 to C16 -/

/-- C14: when the admin endpoint of a node answers the join request with HTTP
405, the request leaves the status as it was and adds one request event and
nothing else, and the loop over the external nodes, as well as the loop over the
cluster nodes, goes on with the nodes that follow. -/
theorem already_joined_is_success (env : Env) (channelName blockBytes osnUrl : String)
    (lines : Nat × Nat × Nat × Nat) (p : Pass) (resp : JoinResponse)
    (hj : env.Join (joinCount p) osnUrl blockBytes = .ok resp)
    (h405 : resp.StatusCode = 405) :
    joinRequest env channelName blockBytes osnUrl lines p
        = Flow.next () (p.afterJoin osnUrl) ∧
      (p.afterJoin osnUrl).status = p.status ∧
      (p.afterJoin osnUrl).trace = p.trace ++ [Event.joinRequest osnUrl] ∧
      (∀ cc rest, osnUrlOf cc.Host cc.AdminPort = osnUrl →
        joinExternalOrderers env channelName blockBytes (cc :: rest) p =
          joinExternalOrderers env channelName blockBytes rest (p.afterJoin osnUrl)) ∧
      (∀ cc rest node host port,
        env.OrdererNodesGet cc.Namespace cc.Name = .ok node →
        env.GetOrdererAdminHostAndPort node = .ok (host, port) →
        osnUrlOf host port = osnUrl →
        joinClusterOrderers env channelName blockBytes (cc :: rest) p =
          joinClusterOrderers env channelName blockBytes rest (p.afterJoin osnUrl)) := by
  refine ⟨joinRequest_of_405 env _ _ _ lines p resp hj h405, rfl, rfl, ?_, ?_⟩
  · intro cc rest hu
    exact joinExternalOrderers_next env _ _ cc rest p _
      (by rw [hu]; exact joinRequest_of_405 env _ _ _ _ p resp hj h405)
  · intro cc rest node host port hn hp hu
    exact joinClusterOrderers_next env _ _ cc rest p _ node host port hn hp
      (by rw [hu]; exact joinRequest_of_405 env _ _ _ _ p resp hj h405)

/-- Witness of C14: in the sample pass whose first external node answers 405, that
node gets one request, the two nodes after it are asked in order and the pass
ends Running. -/
theorem already_joined_is_success_witness :
    (Reconcile (sampleJoinEnv "PENDING" firstAlreadyJoined)).2.trace =
        [Event.joinRequest "https://ext0:7053", Event.joinRequest "https://ext1:7053",
          Event.joinRequest "https://ord0:7053", Event.queryConfigBlock 0,
          Event.createSignature "Org1MSP" "envelope-update-mychannel",
          Event.saveChannel "mychannel" "envelope-update-mychannel"
            [ { Signer := { MSPID := "Org1MSP", Cert := "cert-org1-admin",
                            Key := "key-org1-admin" },
                Over := "envelope-update-mychannel" } ],
          Event.startPoller, Event.queryConfigBlock 1,
          Event.configMapCreate "demo-config", Event.statusUpdate] ∧
      (Reconcile (sampleJoinEnv "PENDING" firstAlreadyJoined)).2.status.Status = RunningStatus ∧
      joinRequest (sampleJoinEnv "PENDING" firstAlreadyJoined) "mychannel" "genesis-mychannel"
          "https://ext0:7053" (202, 212, 218, 237) samplePass
        = Flow.next () (samplePass.afterJoin "https://ext0:7053") :=
  ⟨by decide, by decide,
    (already_joined_is_success (sampleJoinEnv "PENDING" firstAlreadyJoined) "mychannel"
      "genesis-mychannel" "https://ext0:7053" (202, 212, 218, 237) samplePass
      { StatusCode := 405, Body := .ok "" } rfl rfl).1⟩

/-- C16, refuted as stated: a node that answers 201 with a body that does not parse
as channel information ends the pass at line 237, so a 201 does not mean Joined
whatever the body. -/
theorem created_with_unparsable_body_fails :
    (Reconcile (sampleJoinEnv "PENDING" firstCreatedUnparsable)).2.trace =
        [Event.joinRequest "https://ext0:7053", Event.setFailed 237 "invalid character",
          Event.statusPatch FailedStatus, Event.statusUpdate] ∧
      (Reconcile (sampleJoinEnv "PENDING" firstCreatedUnparsable)).2.status.Status
        = FailedStatus ∧
      ¬ JoinedOnCreated (sampleJoinEnv "PENDING" firstCreatedUnparsable) "mychannel"
          "genesis-mychannel" "https://ext0:7053" (202, 212, 218, 237) samplePass := by
  refine ⟨by decide, by decide, ?_⟩
  intro h
  have h1 := h { StatusCode := 201, Body := .ok "not-json" } rfl rfl
  have h2 : (joinRequest (sampleJoinEnv "PENDING" firstCreatedUnparsable) "mychannel"
      "genesis-mychannel" "https://ext0:7053" (202, 212, 218, 237) samplePass).ended
      = true := by decide
  rw [h1] at h2
  exact absurd h2 (by decide)

/-- C16, amended: for a join response with status 201 whose body is read, the
join is Joined exactly when the body parses as channel information: then the
status is as it was, one request event is added and both loops go on with the
nodes that follow; when the body does not parse, the request ends the pass at
its fourth failure site with status Failed, and the loop over the external
nodes, as well as the loop over the cluster nodes, ends there without a request
to a later node. -/
theorem created_is_joined_when_body_parses (env : Env)
    (channelName blockBytes osnUrl : String) (lines : Nat × Nat × Nat × Nat) (p : Pass)
    (resp : JoinResponse) (data : String)
    (hj : env.Join (joinCount p) osnUrl blockBytes = .ok resp)
    (h201 : resp.StatusCode = 201) (hbody : resp.Body = .ok data) :
    (env.jsonUnmarshalChannelInfo data = none →
        joinRequest env channelName blockBytes osnUrl lines p
            = Flow.next () (p.afterJoin osnUrl) ∧
          (p.afterJoin osnUrl).status = p.status ∧
          (∀ cc rest, osnUrlOf cc.Host cc.AdminPort = osnUrl →
            joinExternalOrderers env channelName blockBytes (cc :: rest) p =
              joinExternalOrderers env channelName blockBytes rest (p.afterJoin osnUrl)) ∧
          (∀ cc rest node host port,
            env.OrdererNodesGet cc.Namespace cc.Name = .ok node →
            env.GetOrdererAdminHostAndPort node = .ok (host, port) →
            osnUrlOf host port = osnUrl →
            joinClusterOrderers env channelName blockBytes (cc :: rest) p =
              joinClusterOrderers env channelName blockBytes rest (p.afterJoin osnUrl))) ∧
      (∀ err, env.jsonUnmarshalChannelInfo data = some err →
        joinRequest env channelName blockBytes osnUrl lines p
            = failAt env (p.afterJoin osnUrl) lines.2.2.2 err ∧
          (joinRequest env channelName blockBytes osnUrl lines p).ended = true ∧
          (joinRequest env channelName blockBytes osnUrl lines p).pass.status.Status
            = FailedStatus ∧
          joinCount (joinRequest env channelName blockBytes osnUrl lines p).pass
            = joinCount p + 1 ∧
          (∀ cc rest, osnUrlOf cc.Host cc.AdminPort = osnUrl →
            joinExternalOrderers env channelName blockBytes (cc :: rest) p =
              failAt env (p.afterJoin osnUrl) 237 err) ∧
          (∀ cc rest node host port,
            env.OrdererNodesGet cc.Namespace cc.Name = .ok node →
            env.GetOrdererAdminHostAndPort node = .ok (host, port) →
            osnUrlOf host port = osnUrl →
            joinClusterOrderers env channelName blockBytes (cc :: rest) p =
              failAt env (p.afterJoin osnUrl) 291 err)) := by
  have hreq := joinRequest_of_201 env channelName blockBytes osnUrl
  refine ⟨?_, ?_⟩
  · intro hjson
    have hnext : ∀ lines, joinRequest env channelName blockBytes osnUrl lines p
        = Flow.next () (p.afterJoin osnUrl) := by
      intro l
      rw [hreq l p resp data hj h201 hbody, hjson]
    refine ⟨hnext lines, rfl, ?_, ?_⟩
    · intro cc rest hu
      exact joinExternalOrderers_next env _ _ cc rest p _ (by rw [hu]; exact hnext _)
    · intro cc rest node host port hn hp hu
      exact joinClusterOrderers_next env _ _ cc rest p _ node host port hn hp
        (by rw [hu]; exact hnext _)
  · intro err herr
    have hfail : ∀ lines, joinRequest env channelName blockBytes osnUrl lines p
        = failAt env (p.afterJoin osnUrl) lines.2.2.2 err := by
      intro l
      rw [hreq l p resp data hj h201 hbody, herr]
    refine ⟨hfail lines, ?_, ?_, ?_, ?_, ?_⟩
    · rw [hfail lines]; exact failAt_ended _ _ _ _
    · rw [hfail lines]; exact failAt_status _ _ _ _
    · rw [hfail lines]
      unfold joinCount
      rw [failAt_trace]
      simp [Pass.afterJoin, List.filter_append]
    · intro cc rest hu
      exact joinExternalOrderers_fail env _ _ cc rest p _ _ _ (by rw [hu]; exact hfail _)
    · intro cc rest node host port hn hp hu
      exact joinClusterOrderers_fail env _ _ cc rest p _ _ _ node host port hn hp
        (by rw [hu]; exact hfail _)

/-- Witness of C16 amended: in the sample pass every node answers 201 with channel
information, the three nodes are asked in order and the pass ends Running; and
when the first node answers 201 with a body that does not parse, the request
ends the pass with status Failed after that one request. -/
theorem created_is_joined_when_body_parses_witness :
    (Reconcile (sampleJoinEnv "PENDING" allCreated)).2.trace =
        [Event.joinRequest "https://ext0:7053", Event.joinRequest "https://ext1:7053",
          Event.joinRequest "https://ord0:7053", Event.queryConfigBlock 0,
          Event.createSignature "Org1MSP" "envelope-update-mychannel",
          Event.saveChannel "mychannel" "envelope-update-mychannel"
            [ { Signer := { MSPID := "Org1MSP", Cert := "cert-org1-admin",
                            Key := "key-org1-admin" },
                Over := "envelope-update-mychannel" } ],
          Event.startPoller, Event.queryConfigBlock 1,
          Event.configMapCreate "demo-config", Event.statusUpdate] ∧
      joinRequest (sampleJoinEnv "PENDING" allCreated) "mychannel" "genesis-mychannel"
          "https://ext0:7053" (202, 212, 218, 237) samplePass
        = Flow.next () (samplePass.afterJoin "https://ext0:7053") ∧
      (joinRequest (sampleJoinEnv "PENDING" firstCreatedUnparsable) "mychannel"
          "genesis-mychannel" "https://ext0:7053" (202, 212, 218, 237) samplePass).ended
        = true ∧
      (joinRequest (sampleJoinEnv "PENDING" firstCreatedUnparsable) "mychannel"
          "genesis-mychannel" "https://ext0:7053" (202, 212, 218, 237)
          samplePass).pass.status.Status = FailedStatus ∧
      joinCount (joinRequest (sampleJoinEnv "PENDING" firstCreatedUnparsable) "mychannel"
          "genesis-mychannel" "https://ext0:7053" (202, 212, 218, 237) samplePass).pass
        = joinCount samplePass + 1 :=
  ⟨by decide,
    ((created_is_joined_when_body_parses (sampleJoinEnv "PENDING" allCreated) "mychannel"
      "genesis-mychannel" "https://ext0:7053" (202, 212, 218, 237) samplePass
      { StatusCode := 201, Body := .ok "ok" } "ok" rfl rfl rfl).1 rfl).1,
    ((created_is_joined_when_body_parses (sampleJoinEnv "PENDING" firstCreatedUnparsable)
      "mychannel" "genesis-mychannel" "https://ext0:7053" (202, 212, 218, 237) samplePass
      { StatusCode := 201, Body := .ok "not-json" } "not-json" rfl rfl rfl).2
        "invalid character" rfl).2.1,
    ((created_is_joined_when_body_parses (sampleJoinEnv "PENDING" firstCreatedUnparsable)
      "mychannel" "genesis-mychannel" "https://ext0:7053" (202, 212, 218, 237) samplePass
      { StatusCode := 201, Body := .ok "not-json" } "not-json" rfl rfl rfl).2
        "invalid character" rfl).2.2.1,
    ((created_is_joined_when_body_parses (sampleJoinEnv "PENDING" firstCreatedUnparsable)
      "mychannel" "genesis-mychannel" "https://ext0:7053" (202, 212, 218, 237) samplePass
      { StatusCode := 201, Body := .ok "not-json" } "not-json" rfl rfl rfl).2
        "invalid character" rfl).2.2.2.1⟩

/-- C15, the code at the failing input: a response that is neither 201 nor 405
ends the pass in the failure idiom with a diagnostic made of the status code
and the body, and in the sample pass no later node is asked and no later phase
runs; but when the object was not already Failed, the status patch result
overwrites the error inside `setConditionStatus`, and the pass ends with status
Failed and an empty message and condition, the diagnostic being recorded only
when the object was Failed before. -/
theorem join_failure_aborts_but_loses_diagnostic :
    (∀ (env : Env) (channelName blockBytes osnUrl : String) (lines : Nat × Nat × Nat × Nat)
        (p : Pass) (resp : JoinResponse) (data : String),
        env.Join (joinCount p) osnUrl blockBytes = .ok resp →
        resp.StatusCode ≠ 201 → resp.StatusCode ≠ 405 → resp.Body = .ok data →
        joinRequest env channelName blockBytes osnUrl lines p =
          failAt env (p.afterJoin osnUrl) lines.2.2.1
            (joinStatusError osnUrl channelName resp.StatusCode data)) ∧
      Reconcile (sampleJoinEnv "PENDING" firstFails) =
        (Return.returned { Requeue := false, RequeueAfter := 0 } none,
          { status :=
              { Status := FailedStatus, Message := "",
                Conditions :=
                  [ { CondType := FailedStatus, Status := "False", Reason := "",
                      Message := "" } ] },
            trace :=
              [Event.joinRequest "https://ext0:7053",
                Event.setFailed 218 sampleJoinDiagnostic,
                Event.statusPatch FailedStatus, Event.statusUpdate] }) ∧
      strContains sampleJoinDiagnostic "500" = true ∧
      strContains sampleJoinDiagnostic "boom" = true ∧
      (Reconcile (sampleJoinEnv "FAILED" firstFails)).2.status.Message
        = sampleJoinDiagnostic := by
  refine ⟨?_, by decide, by decide, by decide, by decide⟩
  intro env channelName blockBytes osnUrl lines p resp data hj h201 h405 hbody
  exact joinRequest_of_other env channelName blockBytes osnUrl lines p resp data hj h201 h405
    hbody

/-! ## The status sink: claim C20 -/

theorem conditionOf_SetCondition (l : List Condition) (c : Condition) :
    conditionOf (SetCondition l c).1 c.CondType = some c := by
  induction l with
  | nil => simp [SetCondition, conditionOf]
  | cons a l ih =>
    unfold SetCondition
    by_cases h : (a.CondType == c.CondType) = true
    · simp only [h, if_true]
      simp [conditionOf]
    · simp only [h, Bool.false_eq_true, if_false]
      unfold conditionOf at ih ⊢
      rw [List.find?_cons]
      have h2 : (a.CondType == c.CondType) = false := by simpa using h
      simp only [h2]
      exact ih

/-- C20, the code at the failing input: on an object whose status is not yet
Failed and whose status patch succeeds, `setConditionStatus` with `FailedStatus`
and the error `boom` leaves the status message as it was and records a Failed
condition with empty reason and message, for the result of the patch has
overwritten the error; the text of the error is reported only when the status
was Failed before the call. -/
theorem setConditionStatus_drops_error_on_status_change :
    (∀ (env : Env) (p : Pass) (e : String),
        p.status.Status ≠ FailedStatus → env.StatusPatch FailedStatus = none →
        (setConditionStatus env p FailedStatus false (some e) false).1.status.Message
            = p.status.Message ∧
          conditionOf (setConditionStatus env p FailedStatus false (some e) false).1.status.Conditions
              FailedStatus
            = some { CondType := FailedStatus, Status := "False", Reason := "",
                     Message := "" }) ∧
      (∀ (env : Env) (p : Pass) (e : String),
        p.status.Status = FailedStatus →
        (setConditionStatus env p FailedStatus false (some e) false).1.status.Message = e ∧
          conditionOf (setConditionStatus env p FailedStatus false (some e) false).1.status.Conditions
              FailedStatus
            = some { CondType := FailedStatus, Status := "False", Reason := e,
                     Message := e }) ∧
      (setConditionStatus (sampleEnv ["Org1MSP"] configAB) samplePass FailedStatus false
          (some "boom") false).1.status =
        { Status := FailedStatus, Message := "",
          Conditions :=
            [ { CondType := FailedStatus, Status := "False", Reason := "", Message := "" } ] } := by
  refine ⟨?_, ?_, by decide⟩
  · intro env p e hne hpatch
    have hch : (p.status.Status != FailedStatus) = true := by simpa using hne
    unfold setConditionStatus
    simp only [hch, if_true, hpatch, Bool.false_eq_true, if_false]
    exact ⟨trivial, conditionOf_SetCondition _
      { CondType := FailedStatus, Status := "False", Reason := "", Message := "" }⟩
  · intro env p e heq
    have hch : (p.status.Status != FailedStatus) = false := by simpa using heq
    unfold setConditionStatus
    simp only [hch, Bool.false_eq_true, if_false]
    exact ⟨trivial, conditionOf_SetCondition _
      { CondType := FailedStatus, Status := "False", Reason := e, Message := e }⟩

/-! ## Lemmas on the signature loop -/

theorem Adds.mono {P Q : Event → Prop} {p q : Pass} (h : Adds P p q)
    (hpq : ∀ ev, P ev → Q ev) : Adds Q p q := by
  obtain ⟨a, e, f⟩ := h
  exact ⟨a, e, fun ev hev => hpq ev (f ev hev)⟩

theorem Adds.mem {P : Event → Prop} {p q : Pass} (h : Adds P p q) (ev : Event)
    (hev : ev ∈ q.trace) : ev ∈ p.trace ∨ P ev := by
  obtain ⟨a, e, f⟩ := h
  rw [e] at hev
  rcases List.mem_append.1 hev with h1 | h1
  · exact Or.inl h1
  · exact Or.inr (f ev h1)

theorem failAt_fails {α : Type} (env : Env) (p : Pass) (line : Nat) (err : String) :
    Flow.FailsOrAdds NotSubmission p (failAt env p line err : Flow α) := by
  have h1 : Adds NotSubmission p (failAt env p line err : Flow α).pass :=
    (failAt_adds env p line err).mono (fun _ h => h.2)
  have h2 := failAt_status (α := α) env p line err
  exact ⟨h1, h2⟩

theorem FailsOrAdds.bind {α β : Type} {P : Event → Prop} {p : Pass} {f : Flow α}
    {g : α → Pass → Flow β} (hf : Flow.FailsOrAdds P p f)
    (hg : ∀ a q, f = Flow.next a q → Flow.FailsOrAdds P q (g a q)) :
    Flow.FailsOrAdds P p (f.bind g) := by
  cases f with
  | done r q => exact hf
  | next a q =>
    have h1 : Adds P p q := hf
    have h2 := hg a q rfl
    show Flow.FailsOrAdds P p (g a q)
    cases hgq : g a q with
    | next b r =>
      rw [hgq] at h2
      exact Adds.trans h1 h2
    | done s r =>
      rw [hgq] at h2
      exact ⟨Adds.trans h1 h2.1, h2.2⟩

theorem orFail_fails {α : Type} (env : Env) (p : Pass) (line : Nat) (r : Except String α) :
    Flow.FailsOrAdds NotSubmission p (orFail env p line r) := by
  cases r with
  | ok a => exact Adds.refl _ p
  | error e => exact failAt_fails env p line e

theorem orFailErr_fails (env : Env) (p : Pass) (line : Nat) (r : Option String) :
    Flow.FailsOrAdds NotSubmission p (orFailErr env p line r) := by
  cases r with
  | none => exact Adds.refl _ p
  | some e => exact failAt_fails env p line e

theorem resolveSigner_fails (env : Env) (spec : FabricMainChannelSpec) (mspID : String)
    (lines : List Nat) (p : Pass) :
    Flow.FailsOrAdds NotSubmission p (resolveSigner env spec mspID lines p) := by
  unfold resolveSigner
  split
  · exact failAt_fails _ _ _ _
  · refine FailsOrAdds.bind (orFail_fails _ _ _ _) (fun secret p1 _ => ?_)
    split
    · exact failAt_fails _ _ _ _
    · refine FailsOrAdds.bind (orFail_fails _ _ _ _) (fun id p2 _ => ?_)
      refine FailsOrAdds.bind (orFailErr_fails _ _ _ _) (fun _ p3 _ => ?_)
      refine FailsOrAdds.bind (orFailErr_fails _ _ _ _) (fun _ p4 _ => ?_)
      refine FailsOrAdds.bind (orFailErr_fails _ _ _ _) (fun _ p5 _ => ?_)
      refine FailsOrAdds.bind (orFailErr_fails _ _ _ _) (fun _ p6 _ => ?_)
      refine FailsOrAdds.bind (orFail_fails _ _ _ _) (fun si p7 _ => ?_)
      refine FailsOrAdds.bind (orFailErr_fails _ _ _ _) (fun _ p8 _ => ?_)
      exact Adds.refl _ p8

theorem Flow.bind_assoc {α β γ : Type} (f : Flow α) (g : α → Pass → Flow β)
    (k : β → Pass → Flow γ) :
    (f.bind g).bind k = f.bind (fun a p => (g a p).bind k) := by
  cases f <;> rfl

theorem collectSignatures_cons (env : Env) (spec : FabricMainChannelSpec) (bytes : String)
    (adminPeer : FabricMainChannelAdminPeerOrganizationSpec)
    (rest : List FabricMainChannelAdminPeerOrganizationSpec) (acc : List ConfigSignature)
    (p : Pass) :
    collectSignatures env spec bytes (adminPeer :: rest) acc p =
      (signFor env spec bytes adminPeer.MSPID p).bind (fun signature p3 =>
        collectSignatures env spec bytes rest (acc ++ [signature]) p3) := by
  unfold signFor
  rw [Flow.bind_assoc]
  rfl

theorem signFor_fails (env : Env) (spec : FabricMainChannelSpec) (bytes mspID : String)
    (p : Pass) : Flow.FailsOrAdds NotSubmission p (signFor env spec bytes mspID p) := by
  unfold signFor
  refine FailsOrAdds.bind (resolveSigner_fails _ _ _ _ _) (fun si p1 _ => ?_)
  have h1 : Adds NotSubmission p1
      { p1 with trace := p1.trace ++ [Event.createSignature mspID bytes] } :=
    Adds.step p1 p1.status _ rfl
  cases hc : env.CreateConfigSignatureFromReader si bytes with
  | ok sig => exact h1
  | error e =>
    have h2 := failAt_fails (α := ConfigSignature) env
      { p1 with trace := p1.trace ++ [Event.createSignature mspID bytes] } 499 e
    exact ⟨Adds.trans h1 h2.1, h2.2⟩

theorem collectSignatures_fails (env : Env) (spec : FabricMainChannelSpec) (bytes : String)
    (l : List FabricMainChannelAdminPeerOrganizationSpec) (acc : List ConfigSignature)
    (p : Pass) :
    Flow.FailsOrAdds NotSubmission p (collectSignatures env spec bytes l acc p) := by
  induction l generalizing acc p with
  | nil => exact Adds.refl _ p
  | cons a rest ih =>
    rw [collectSignatures_cons]
    exact FailsOrAdds.bind (signFor_fails _ _ _ _ _) (fun sig q _ => ih _ q)

theorem collectSignatures_ends_of_member (env : Env) (spec : FabricMainChannelSpec)
    (bytes : String) (l : List FabricMainChannelAdminPeerOrganizationSpec)
    (acc : List ConfigSignature) (p : Pass)
    (adminPeer : FabricMainChannelAdminPeerOrganizationSpec) (hmem : adminPeer ∈ l)
    (hfail : ∀ q, (signFor env spec bytes adminPeer.MSPID q).ended = true) :
    (collectSignatures env spec bytes l acc p).ended = true := by
  induction l generalizing acc p with
  | nil => simp at hmem
  | cons a rest ih =>
    rw [collectSignatures_cons]
    cases hs : signFor env spec bytes a.MSPID p with
    | done r q => rfl
    | next sig q =>
      rcases List.mem_cons.1 hmem with h | h
      · have := hfail p
        rw [h, hs] at this
        simp [Flow.ended] at this
      · exact ih _ q h

theorem collectSignatures_signed (env : Env) (spec : FabricMainChannelSpec) (bytes : String)
    (l : List FabricMainChannelAdminPeerOrganizationSpec) (acc sigs : List ConfigSignature)
    (p q : Pass) (h : collectSignatures env spec bytes l acc p = Flow.next sigs q) :
    ∃ new, sigs = acc ++ new ∧ List.Forall₂ (SignedBy env spec bytes) l new := by
  induction l generalizing acc p with
  | nil =>
    have : sigs = acc := by
      simp only [collectSignatures, Flow.next.injEq] at h
      exact h.1.symm
    exact ⟨[], by simp [this], List.Forall₂.nil⟩
  | cons a rest ih =>
    unfold collectSignatures at h
    cases hr : resolveSigner env spec a.MSPID signatureLoopLines p with
    | done r p1 => simp [hr, Flow.bind] at h
    | next si p1 =>
      simp only [hr, Flow.bind] at h
      cases hc : env.CreateConfigSignatureFromReader si bytes with
      | error e =>
        simp [hc, orFail, failAt] at h
      | ok sig =>
        simp only [hc, orFail] at h
        obtain ⟨new, e1, f1⟩ := ih _ _ h
        exact ⟨sig :: new, by rw [e1]; simp, List.Forall₂.cons ⟨p, si, p1, hr, hc⟩ f1⟩

/-! ## The signature loop and the submission: claims C17 and C18 -/

theorem diffStep_of_envelope_error (env : Env) (spec : FabricMainChannelSpec)
    (resmgmtOptions : List String) (update : ConfigUpdate) (p : Pass) (e : String)
    (h : CreateConfigUpdateEnvelope env spec.Name update = .error e) :
    diffStep env spec resmgmtOptions (.ok update) p =
      failAt env p 430 (wrapf e "error creating config update envelope") := by
  unfold diffStep
  simp only [h]

theorem diffStep_of_envelope_ok (env : Env) (spec : FabricMainChannelSpec)
    (resmgmtOptions : List String) (update : ConfigUpdate) (p : Pass) (bytes : String)
    (h : CreateConfigUpdateEnvelope env spec.Name update = .ok bytes) :
    diffStep env spec resmgmtOptions (.ok update) p =
      (collectSignatures env spec bytes spec.AdminPeerOrganizations [] p).bind
        (fun configSignatures p1 =>
          match env.SaveChannel spec.Name bytes configSignatures resmgmtOptions with
          | .error err =>
            failAt env
              { p1 with trace :=
                  p1.trace ++ [Event.saveChannel spec.Name bytes configSignatures] }
              518 (wrapf err "error saving application configuration")
          | .ok _ =>
            Flow.next ()
              { p1 with trace :=
                  p1.trace ++ [Event.saveChannel spec.Name bytes configSignatures] }) := by
  unfold diffStep
  simp only [h]

theorem signFor_ends_of_cannotSign (env : Env) (spec : FabricMainChannelSpec)
    (bytes mspID : String) (p : Pass) (h : CannotSign env spec bytes mspID) :
    (signFor env spec bytes mspID p).ended = true := by
  rcases h with h | ⟨idc, hid, h⟩
  · simp [signFor, resolveSigner, h, Flow.bind, Flow.ended, failAt]
  · rcases h with ⟨e, he⟩ | ⟨secret, hs, h⟩
    · simp [signFor, resolveSigner, hid, he, orFail, Flow.bind, Flow.ended, failAt]
    · rcases h with hk | ⟨data, hk, h⟩
      · simp [signFor, resolveSigner, hid, hs, hk, orFail, Flow.bind, Flow.ended, failAt]
      · rcases h with ⟨e, he⟩ | ⟨id, hy, h⟩
        · simp [signFor, resolveSigner, hid, hs, hk, he, orFail, Flow.bind, Flow.ended, failAt]
        · cases h4 : env.sdkConfig with
          | some e =>
            simp [signFor, resolveSigner, hid, hs, hk, hy, h4, orFail, orFailErr, Flow.bind,
              Flow.ended, failAt]
          | none =>
            cases h5 : env.GetSuiteByConfig with
            | some e =>
              simp [signFor, resolveSigner, hid, hs, hk, hy, h4, h5, orFail, orFailErr,
                Flow.bind, Flow.ended, failAt]
            | none =>
              cases h6 : env.ConfigFromBackend with
              | some e =>
                simp [signFor, resolveSigner, hid, hs, hk, hy, h4, h5, h6, orFail, orFailErr,
                  Flow.bind, Flow.ended, failAt]
              | none =>
                cases h7 : env.NewIdentityManager mspID with
                | some e =>
                  simp [signFor, resolveSigner, hid, hs, hk, hy, h4, h5, h6, h7, orFail,
                    orFailErr, Flow.bind, Flow.ended, failAt]
                | none =>
                  cases h8 : env.CreateSigningIdentity mspID id with
                  | error e =>
                    simp [signFor, resolveSigner, hid, hs, hk, hy, h4, h5, h6, h7, h8, orFail,
                      orFailErr, Flow.bind, Flow.ended, failAt]
                  | ok si =>
                    cases h9 : env.resmgmtNew si mspID with
                    | some e =>
                      simp [signFor, resolveSigner, hid, hs, hk, hy, h4, h5, h6, h7, h8, h9,
                        orFail, orFailErr, Flow.bind, Flow.ended, failAt]
                    | none =>
                      cases h10 : env.CreateConfigSignatureFromReader si bytes with
                      | error e =>
                        simp [signFor, resolveSigner, hid, hs, hk, hy, h4, h5, h6, h7, h8, h9,
                          h10, orFail, orFailErr, Flow.bind, Flow.ended, failAt]
                      | ok sig =>
                        exfalso
                        rcases h with ⟨e, he⟩ | ⟨e, he⟩ | ⟨e, he⟩ | ⟨e, he⟩ | ⟨e, he⟩ |
                          ⟨si2, hsi, hsf⟩
                        · rw [h4] at he; cases he
                        · rw [h5] at he; cases he
                        · rw [h6] at he; cases he
                        · rw [h7] at he; cases he
                        · rw [h8] at he; cases he
                        · rw [h8] at hsi
                          cases hsi
                          rcases hsf with ⟨e, he⟩ | ⟨e, he⟩
                          · rw [h9] at he; cases he
                          · rw [h10] at he; cases he

/-- C17: for a pass with a non-empty update, when some organization of the admin
peer list cannot sign (its identity entry is missing from the spec, its secret
cannot be read or lacks the key, the identity does not parse, the SDK or the
signing identity cannot be set up for it, or the signing call fails), the step
of lines 428-520 ends the pass with status Failed and adds no `SaveChannel`
call. -/
theorem partial_signature_set_is_never_submitted (env : Env) (spec : FabricMainChannelSpec)
    (resmgmtOptions : List String) (update : ConfigUpdate) (p : Pass)
    (adminPeer : FabricMainChannelAdminPeerOrganizationSpec)
    (hmem : adminPeer ∈ spec.AdminPeerOrganizations)
    (hcause : ∀ bytes, CreateConfigUpdateEnvelope env spec.Name update = .ok bytes →
      CannotSign env spec bytes adminPeer.MSPID) :
    (diffStep env spec resmgmtOptions (.ok update) p).ended = true ∧
      (diffStep env spec resmgmtOptions (.ok update) p).pass.status.Status = FailedStatus ∧
      ∃ added, (diffStep env spec resmgmtOptions (.ok update) p).pass.trace
          = p.trace ++ added ∧
        ∀ ev, ev ∈ added → ev.isSubmission = false := by
  cases henv : CreateConfigUpdateEnvelope env spec.Name update with
  | error e =>
    rw [diffStep_of_envelope_error env spec resmgmtOptions update p e henv]
    have h := failAt_fails (α := Unit) env p 430
      (wrapf e "error creating config update envelope")
    exact ⟨rfl, h.2, h.1⟩
  | ok bytes =>
    rw [diffStep_of_envelope_ok env spec resmgmtOptions update p bytes henv]
    have hend := collectSignatures_ends_of_member env spec bytes spec.AdminPeerOrganizations []
      p adminPeer hmem
      (fun q => signFor_ends_of_cannotSign env spec bytes adminPeer.MSPID q (hcause bytes henv))
    have hfa := collectSignatures_fails env spec bytes spec.AdminPeerOrganizations [] p
    cases hcs : collectSignatures env spec bytes spec.AdminPeerOrganizations [] p with
    | next sigs q =>
      rw [hcs] at hend
      simp [Flow.ended] at hend
    | done r q =>
      rw [hcs] at hfa
      exact ⟨rfl, hfa.2, hfa.1⟩

/-- Witness of C17: the admins are `Org1MSP` and `Org2MSP`, and `Org2MSP` cannot
sign, in turn because the spec has no identity entry for it, because its secret
cannot be read, because the secret lacks the key, because the identity does not
parse, and because the signing call fails; each pass signs for `Org1MSP`, fails
in the round of `Org2MSP` and never calls `SaveChannel`. -/
theorem partial_signature_set_is_never_submitted_witness :
    ((Reconcile sampleEnvMissingIdentity).2.trace =
        [Event.queryConfigBlock 0,
          Event.createSignature "Org1MSP" "envelope-update-mychannel",
          Event.setFailed 438 "identity not found for MSPID Org2MSP",
          Event.statusPatch FailedStatus, Event.statusUpdate] ∧
      (Reconcile sampleEnvMissingSecret).2.trace =
        [Event.queryConfigBlock 0,
          Event.createSignature "Org1MSP" "envelope-update-mychannel",
          Event.setFailed 443 "secret org2-admin not found",
          Event.statusPatch FailedStatus, Event.statusUpdate] ∧
      (Reconcile sampleEnvMissingKey).2.trace =
        [Event.queryConfigBlock 0,
          Event.createSignature "Org1MSP" "envelope-update-mychannel",
          Event.setFailed 448 "secret key user.yaml not found",
          Event.statusPatch FailedStatus, Event.statusUpdate] ∧
      (Reconcile sampleEnvUnparsableIdentity).2.trace =
        [Event.queryConfigBlock 0,
          Event.createSignature "Org1MSP" "envelope-update-mychannel",
          Event.setFailed 454 "yaml: unmarshal errors",
          Event.statusPatch FailedStatus, Event.statusUpdate] ∧
      (Reconcile sampleEnvSigningFails).2.trace =
        [Event.queryConfigBlock 0,
          Event.createSignature "Org1MSP" "envelope-update-mychannel",
          Event.createSignature "Org2MSP" "envelope-update-mychannel",
          Event.setFailed 499 "signing failed",
          Event.statusPatch FailedStatus, Event.statusUpdate]) ∧
      ((diffStep sampleEnvMissingIdentity specMissingIdentity [] (.ok sampleUpdate)
            samplePass).ended = true ∧
        (diffStep sampleEnvMissingIdentity specMissingIdentity [] (.ok sampleUpdate)
            samplePass).pass.status.Status = FailedStatus ∧
        ∃ added, (diffStep sampleEnvMissingIdentity specMissingIdentity [] (.ok sampleUpdate)
              samplePass).pass.trace = samplePass.trace ++ added ∧
          ∀ ev, ev ∈ added → ev.isSubmission = false) ∧
      ((diffStep sampleEnvMissingSecret (sampleSpec ["Org1MSP", "Org2MSP"]) []
            (.ok sampleUpdate) samplePass).ended = true ∧
        (diffStep sampleEnvMissingSecret (sampleSpec ["Org1MSP", "Org2MSP"]) []
            (.ok sampleUpdate) samplePass).pass.status.Status = FailedStatus ∧
        ∃ added, (diffStep sampleEnvMissingSecret (sampleSpec ["Org1MSP", "Org2MSP"]) []
              (.ok sampleUpdate) samplePass).pass.trace = samplePass.trace ++ added ∧
          ∀ ev, ev ∈ added → ev.isSubmission = false) ∧
      ((diffStep sampleEnvMissingKey (sampleSpec ["Org1MSP", "Org2MSP"]) []
            (.ok sampleUpdate) samplePass).ended = true ∧
        (diffStep sampleEnvMissingKey (sampleSpec ["Org1MSP", "Org2MSP"]) []
            (.ok sampleUpdate) samplePass).pass.status.Status = FailedStatus ∧
        ∃ added, (diffStep sampleEnvMissingKey (sampleSpec ["Org1MSP", "Org2MSP"]) []
              (.ok sampleUpdate) samplePass).pass.trace = samplePass.trace ++ added ∧
          ∀ ev, ev ∈ added → ev.isSubmission = false) ∧
      ((diffStep sampleEnvUnparsableIdentity (sampleSpec ["Org1MSP", "Org2MSP"]) []
            (.ok sampleUpdate) samplePass).ended = true ∧
        (diffStep sampleEnvUnparsableIdentity (sampleSpec ["Org1MSP", "Org2MSP"]) []
            (.ok sampleUpdate) samplePass).pass.status.Status = FailedStatus ∧
        ∃ added, (diffStep sampleEnvUnparsableIdentity (sampleSpec ["Org1MSP", "Org2MSP"]) []
              (.ok sampleUpdate) samplePass).pass.trace = samplePass.trace ++ added ∧
          ∀ ev, ev ∈ added → ev.isSubmission = false) ∧
      ((diffStep sampleEnvSigningFails (sampleSpec ["Org1MSP", "Org2MSP"]) []
            (.ok sampleUpdate) samplePass).ended = true ∧
        (diffStep sampleEnvSigningFails (sampleSpec ["Org1MSP", "Org2MSP"]) []
            (.ok sampleUpdate) samplePass).pass.status.Status = FailedStatus ∧
        ∃ added, (diffStep sampleEnvSigningFails (sampleSpec ["Org1MSP", "Org2MSP"]) []
              (.ok sampleUpdate) samplePass).pass.trace = samplePass.trace ++ added ∧
          ∀ ev, ev ∈ added → ev.isSubmission = false) :=
  ⟨⟨by decide, by decide, by decide, by decide, by decide⟩,
    partial_signature_set_is_never_submitted sampleEnvMissingIdentity specMissingIdentity []
      sampleUpdate samplePass { MSPID := "Org2MSP" } (by decide) (fun _ _ => Or.inl rfl),
    partial_signature_set_is_never_submitted sampleEnvMissingSecret
      (sampleSpec ["Org1MSP", "Org2MSP"]) [] sampleUpdate samplePass { MSPID := "Org2MSP" }
      (by decide)
      (fun _ _ => Or.inr
        ⟨{ SecretNamespace := "default", SecretName := "org2-admin", SecretKey := "user.yaml" },
          rfl, Or.inl ⟨"secret org2-admin not found", rfl⟩⟩),
    partial_signature_set_is_never_submitted sampleEnvMissingKey
      (sampleSpec ["Org1MSP", "Org2MSP"]) [] sampleUpdate samplePass { MSPID := "Org2MSP" }
      (by decide)
      (fun _ _ => Or.inr
        ⟨{ SecretNamespace := "default", SecretName := "org2-admin", SecretKey := "user.yaml" },
          rfl, Or.inr ⟨{ Data := [("other.yaml", "org2-admin")] }, rfl, Or.inl rfl⟩⟩),
    partial_signature_set_is_never_submitted sampleEnvUnparsableIdentity
      (sampleSpec ["Org1MSP", "Org2MSP"]) [] sampleUpdate samplePass { MSPID := "Org2MSP" }
      (by decide)
      (fun _ _ => Or.inr
        ⟨{ SecretNamespace := "default", SecretName := "org2-admin", SecretKey := "user.yaml" },
          rfl,
          Or.inr ⟨{ Data := [("user.yaml", "org2-admin")] }, rfl,
            Or.inr ⟨"org2-admin", rfl, Or.inl ⟨"yaml: unmarshal errors", rfl⟩⟩⟩⟩),
    partial_signature_set_is_never_submitted sampleEnvSigningFails
      (sampleSpec ["Org1MSP", "Org2MSP"]) [] sampleUpdate samplePass { MSPID := "Org2MSP" }
      (by decide)
      (fun _ _ => Or.inr
        ⟨{ SecretNamespace := "default", SecretName := "org2-admin", SecretKey := "user.yaml" },
          rfl,
          Or.inr ⟨{ Data := [("user.yaml", "org2-admin")] }, rfl,
            Or.inr ⟨"org2-admin", rfl,
              Or.inr ⟨{ Cert := "cert-org2-admin", Key := "key-org2-admin" }, rfl,
                Or.inr (Or.inr (Or.inr (Or.inr (Or.inr
                  ⟨{ MSPID := "Org2MSP", Cert := "cert-org2-admin", Key := "key-org2-admin" },
                    rfl, Or.inr ⟨"signing failed", rfl⟩⟩))))⟩⟩⟩⟩)⟩

/-- C18: when the step of lines 428-520 calls `SaveChannel`, the channel is the
spec's, the bytes submitted are the envelope bytes of the update, and the
signatures passed are, position by position, those of the admin peer
organizations: as many as the list has, the i-th made with the resolved identity
of the i-th organization over the submitted bytes. -/
theorem submitted_signatures_follow_admin_list (env : Env) (spec : FabricMainChannelSpec)
    (resmgmtOptions : List String) (update : ConfigUpdate) (p : Pass)
    (channelID payload : String) (signatures : List ConfigSignature)
    (hfresh : ∀ ev, ev ∈ p.trace → ev.isSubmission = false)
    (hsub : Event.saveChannel channelID payload signatures ∈
      (diffStep env spec resmgmtOptions (.ok update) p).pass.trace) :
    channelID = spec.Name ∧
      CreateConfigUpdateEnvelope env spec.Name update = .ok payload ∧
      signatures.length = spec.AdminPeerOrganizations.length ∧
      List.Forall₂ (SignedBy env spec payload) spec.AdminPeerOrganizations signatures := by
  have hnot : ∀ q, Adds NotSubmission p q →
      Event.saveChannel channelID payload signatures ∉ q.trace := by
    intro q hq hm
    rcases hq.mem _ hm with h | h
    · exact absurd (hfresh _ h) (by simp [Event.isSubmission])
    · exact absurd h (by simp [NotSubmission, Event.isSubmission])
  cases henv : CreateConfigUpdateEnvelope env spec.Name update with
  | error e =>
    rw [diffStep_of_envelope_error env spec resmgmtOptions update p e henv] at hsub
    exact absurd hsub (hnot _ (failAt_fails (α := Unit) env p 430 _).1)
  | ok bytes =>
    rw [diffStep_of_envelope_ok env spec resmgmtOptions update p bytes henv] at hsub
    have hfa := collectSignatures_fails env spec bytes spec.AdminPeerOrganizations [] p
    cases hcs : collectSignatures env spec bytes spec.AdminPeerOrganizations [] p with
    | done r q =>
      rw [hcs] at hfa hsub
      exact absurd hsub (hnot _ hfa.1)
    | next sigs q =>
      rw [hcs] at hfa hsub
      simp only [Flow.bind] at hsub
      have hq : Event.saveChannel channelID payload signatures ∉ q.trace := hnot _ hfa
      have hev : Event.saveChannel channelID payload signatures
          = Event.saveChannel spec.Name bytes sigs := by
        cases hsave : env.SaveChannel spec.Name bytes sigs resmgmtOptions with
        | ok tx =>
          simp only [hsave, Flow.pass, List.mem_append, List.mem_singleton] at hsub
          rcases hsub with h | h
          · exact absurd h hq
          · exact h
        | error e =>
          simp only [hsave] at hsub
          rw [failAt_trace] at hsub
          rcases List.mem_append.1 hsub with h | h
          · rcases List.mem_append.1 h with h | h
            · exact absurd h hq
            · exact List.mem_singleton.1 h
          · rcases List.mem_cons.1 h with h | h
            · cases h
            · rcases List.mem_append.1 h with h | h
              · split at h
                · simp at h
                · simp at h
              · simp at h
      injection hev with h1 h2 h3
      subst h1 h2 h3
      obtain ⟨new, e1, f1⟩ := collectSignatures_signed env spec _ _ [] _ p q hcs
      simp only [List.nil_append] at e1
      subst e1
      exact ⟨rfl, rfl, f1.length_eq.symm, f1⟩

/-- Witness of C18: in the sample pass with the admins `Org1MSP` and `Org2MSP`, the
two signatures submitted are those of `Org1MSP` and `Org2MSP`, in that order,
over the submitted envelope bytes. -/
theorem submitted_signatures_follow_admin_list_witness :
    Event.saveChannel "mychannel" "envelope-update-mychannel"
        [ { Signer := { MSPID := "Org1MSP", Cert := "cert-org1-admin", Key := "key-org1-admin" },
            Over := "envelope-update-mychannel" },
          { Signer := { MSPID := "Org2MSP", Cert := "cert-org2-admin", Key := "key-org2-admin" },
            Over := "envelope-update-mychannel" } ]
        ∈ (Reconcile (sampleEnv ["Org1MSP", "Org2MSP"] configAB)).2.trace ∧
      ("mychannel" = (sampleSpec ["Org1MSP", "Org2MSP"]).Name ∧
        CreateConfigUpdateEnvelope (sampleEnv ["Org1MSP", "Org2MSP"] configAB)
            (sampleSpec ["Org1MSP", "Org2MSP"]).Name sampleUpdate
          = .ok "envelope-update-mychannel" ∧
        [ ({ Signer := { MSPID := "Org1MSP", Cert := "cert-org1-admin",
                         Key := "key-org1-admin" },
             Over := "envelope-update-mychannel" } : ConfigSignature),
          { Signer := { MSPID := "Org2MSP", Cert := "cert-org2-admin", Key := "key-org2-admin" },
            Over := "envelope-update-mychannel" } ].length
          = (sampleSpec ["Org1MSP", "Org2MSP"]).AdminPeerOrganizations.length ∧
        List.Forall₂
          (SignedBy (sampleEnv ["Org1MSP", "Org2MSP"] configAB)
            (sampleSpec ["Org1MSP", "Org2MSP"]) "envelope-update-mychannel")
          (sampleSpec ["Org1MSP", "Org2MSP"]).AdminPeerOrganizations
          [ { Signer := { MSPID := "Org1MSP", Cert := "cert-org1-admin",
                          Key := "key-org1-admin" },
              Over := "envelope-update-mychannel" },
            { Signer := { MSPID := "Org2MSP", Cert := "cert-org2-admin",
                          Key := "key-org2-admin" },
              Over := "envelope-update-mychannel" } ]) :=
  ⟨by decide,
    submitted_signatures_follow_admin_list (sampleEnv ["Org1MSP", "Org2MSP"] configAB)
      (sampleSpec ["Org1MSP", "Org2MSP"]) [] sampleUpdate samplePass "mychannel"
      "envelope-update-mychannel" _ (fun _ h => by cases h) (by decide)⟩

/-! ## The result of a failed pass and the organization mappers: claims C21 to C23, C30 -/

/-- C21: `updateCRStatusOrFailReconcile` returns a result that requests no requeue
(`Requeue` false, `RequeueAfter` zero) together with the outcome of the status
update, nil when the update succeeds and its error otherwise; and the failure
idiom of `Reconcile` ends the pass with exactly that return. -/
theorem failure_paths_request_no_requeue (env : Env) (p : Pass) :
    (updateCRStatusOrFailReconcile env p).1 =
        Return.returned { Requeue := false, RequeueAfter := 0 } (env.StatusUpdate p.status) ∧
      (env.StatusUpdate p.status = none →
        (updateCRStatusOrFailReconcile env p).1 =
          Return.returned { Requeue := false, RequeueAfter := 0 } none) ∧
      (∀ (line : Nat) (err : String),
        (failAt env p line err : Flow Unit) =
          Flow.done
            (Return.returned { Requeue := false, RequeueAfter := 0 }
              (env.StatusUpdate
                (setConditionStatus env
                  { p with trace := p.trace ++ [Event.setFailed line err] }
                  FailedStatus false (some err) false).1.status))
            (failAt env p line err : Flow Unit).pass) := by
  have h1 : ∀ q : Pass, (updateCRStatusOrFailReconcile env q).1 =
      Return.returned { Requeue := false, RequeueAfter := 0 } (env.StatusUpdate q.status) := by
    intro q
    unfold updateCRStatusOrFailReconcile
    cases env.StatusUpdate q.status <;> rfl
  refine ⟨h1 p, ?_, ?_⟩
  · intro hs
    rw [h1 p, hs]
  · intro line err
    show Flow.done (updateCRStatusOrFailReconcile env _).1 (updateCRStatusOrFailReconcile env _).2
      = _
    rw [h1]
    rfl

/-- C22: the organizations returned by `mapPeerOrg` and `mapOrdererOrg` carry the
MSP identifier as name and as MSP name, the signing CA certificate as the only
root certificate, the TLS CA certificate as the only TLS root certificate, and
enabled NodeOUs whose client, peer, admin and orderer identifiers are `client`,
`peer`, `admin` and `orderer`, each bound to the signing CA certificate. -/
theorem mappers_enable_node_ous (mspID : String) (ordererEndpoints : List String)
    (caCert tlsCACert : Option Certificate) :
    (∀ org, org = mapPeerOrg mspID caCert tlsCACert ∨
        org = mapOrdererOrg mspID ordererEndpoints caCert tlsCACert →
      org.Name = mspID ∧ org.MSP.Name = mspID ∧
        org.MSP.RootCerts = [caCert] ∧ org.MSP.TLSRootCerts = [tlsCACert] ∧
        org.MSP.NodeOUs.Enable = true ∧
        org.MSP.NodeOUs.ClientOUIdentifier =
          { Certificate := caCert, OrganizationalUnitIdentifier := "client" } ∧
        org.MSP.NodeOUs.PeerOUIdentifier =
          { Certificate := caCert, OrganizationalUnitIdentifier := "peer" } ∧
        org.MSP.NodeOUs.AdminOUIdentifier =
          { Certificate := caCert, OrganizationalUnitIdentifier := "admin" } ∧
        org.MSP.NodeOUs.OrdererOUIdentifier =
          { Certificate := caCert, OrganizationalUnitIdentifier := "orderer" }) := by
  intro org h
  rcases h with h | h <;> subst h <;> exact ⟨rfl, rfl, rfl, rfl, rfl, rfl, rfl, rfl, rfl⟩

/-- C23: the policies of the organization returned by `mapPeerOrg`, and by
`mapOrdererOrg`, have exactly the four keys Readers, Writers, Admins and
Endorsement, each once, all of type Signature, with the Admins rule
`OR('<mspID>.admin')` and the rule `OR('<mspID>.member')` for the other three. -/
theorem mappers_policy_set (mspID : String) (ordererEndpoints : List String)
    (caCert tlsCACert : Option Certificate) :
    (∀ org, org = mapPeerOrg mspID caCert tlsCACert ∨
        org = mapOrdererOrg mspID ordererEndpoints caCert tlsCACert →
      (∀ k, k ∈ org.Policies.map (fun e => e.1) ↔
          (k = "Readers" ∨ k = "Writers" ∨ k = "Admins" ∨ k = "Endorsement")) ∧
        org.Policies.length = 4 ∧
        org.Policies.get "Admins" =
          some { PolicyType := "Signature", Rule := "OR('" ++ mspID ++ ".admin')" } ∧
        org.Policies.get "Readers" =
          some { PolicyType := "Signature", Rule := "OR('" ++ mspID ++ ".member')" } ∧
        org.Policies.get "Writers" =
          some { PolicyType := "Signature", Rule := "OR('" ++ mspID ++ ".member')" } ∧
        org.Policies.get "Endorsement" =
          some { PolicyType := "Signature", Rule := "OR('" ++ mspID ++ ".member')" }) := by
  intro org h
  have hkeys : ∀ k, k ∈ ["Admins", "Readers", "Writers", "Endorsement"] ↔
      (k = "Readers" ∨ k = "Writers" ∨ k = "Admins" ∨ k = "Endorsement") := by
    intro k
    simp only [List.mem_cons, List.mem_singleton, List.not_mem_nil, or_false]
    constructor
    · rintro (h | h | h | h)
      · exact Or.inr (Or.inr (Or.inl h))
      · exact Or.inl h
      · exact Or.inr (Or.inl h)
      · exact Or.inr (Or.inr (Or.inr h))
    · rintro (h | h | h | h)
      · exact Or.inr (Or.inl h)
      · exact Or.inr (Or.inr (Or.inl h))
      · exact Or.inl h
      · exact Or.inr (Or.inr (Or.inr h))
  rcases h with h | h <;> subst h <;>
    exact ⟨hkeys, rfl, rfl, rfl, rfl, rfl⟩

/-- C30: `mapOrdererOrg` gives the organization of `mapPeerOrg` with the orderer
endpoints put in place of the empty list, every other field being equal; with
an empty endpoint list the two organizations are equal. -/
theorem mappers_agree_up_to_endpoints (mspID : String) (ordererEndpoints : List String)
    (caCert tlsCACert : Option Certificate) :
    mapOrdererOrg mspID ordererEndpoints caCert tlsCACert =
        { mapPeerOrg mspID caCert tlsCACert with OrdererEndpoints := ordererEndpoints } ∧
      (mapPeerOrg mspID caCert tlsCACert).OrdererEndpoints = [] ∧
      (mapOrdererOrg mspID ordererEndpoints caCert tlsCACert).OrdererEndpoints
        = ordererEndpoints ∧
      mapOrdererOrg mspID [] caCert tlsCACert = mapPeerOrg mspID caCert tlsCACert :=
  ⟨rfl, rfl, rfl, rfl⟩

/-! ## Unresolvable organizations: claim C25 -/

/-- C25, the code at the failing input: for a spec whose orderer organization gives
neither a CA name and namespace nor the two inline certificates, `mapToConfigTX`
returns a channel configuration, not an error, and the organization in it has a
nil root certificate and a nil TLS root certificate. -/
theorem unresolvable_orderer_org_is_mapped :
    ∃ cfg, mapToConfigTX envOk specUnresolvableOrderer = .ok cfg ∧
      cfg.Orderer.Organizations = [mapOrdererOrg "OrdererMSP" ["ord0:7050"] none none] ∧
      (cfg.Orderer.Organizations.map (fun o => o.MSP.RootCerts)) = [[none]] ∧
      (cfg.Orderer.Organizations.map (fun o => o.MSP.TLSRootCerts)) = [[none]] :=
  ⟨_, rfl, by decide, by decide, by decide⟩

/-- Witness of C22: the peer mapping of `Org1MSP` and the orderer mapping of
`OrdererMSP` both enable NodeOUs and carry the MSP identifier as name. -/
theorem mappers_enable_node_ous_witness :
    ((mapPeerOrg "Org1MSP" (some ⟨"ca-pem"⟩) (some ⟨"tls-pem"⟩)).MSP.NodeOUs.Enable = true ∧
        (mapPeerOrg "Org1MSP" (some ⟨"ca-pem"⟩) (some ⟨"tls-pem"⟩)).MSP.RootCerts
          = [some ⟨"ca-pem"⟩]) ∧
      (mapOrdererOrg "OrdererMSP" ["ord0:7050"] (some ⟨"ca-pem"⟩) (some ⟨"tls-pem"⟩)).Name
        = "OrdererMSP" :=
  ⟨⟨(mappers_enable_node_ous "Org1MSP" [] (some ⟨"ca-pem"⟩) (some ⟨"tls-pem"⟩) _
        (Or.inl rfl)).2.2.2.2.1,
      (mappers_enable_node_ous "Org1MSP" [] (some ⟨"ca-pem"⟩) (some ⟨"tls-pem"⟩) _
        (Or.inl rfl)).2.2.1⟩,
    (mappers_enable_node_ous "OrdererMSP" ["ord0:7050"] (some ⟨"ca-pem"⟩) (some ⟨"tls-pem"⟩) _
      (Or.inr rfl)).1⟩

/-- Witness of C23: the Admins rule of the peer mapping of `Org1MSP` and the
Readers rule of the orderer mapping of `OrdererMSP`. -/
theorem mappers_policy_set_witness :
    (mapPeerOrg "Org1MSP" none none).Policies.get "Admins" =
        some { PolicyType := "Signature", Rule := "OR('Org1MSP.admin')" } ∧
      (mapOrdererOrg "OrdererMSP" ["ord0:7050"] none none).Policies.get "Readers" =
        some { PolicyType := "Signature", Rule := "OR('OrdererMSP.member')" } ∧
      (mapPeerOrg "Org1MSP" none none).Policies.length = 4 :=
  ⟨(mappers_policy_set "Org1MSP" [] none none _ (Or.inl rfl)).2.2.1,
    (mappers_policy_set "OrdererMSP" ["ord0:7050"] none none _ (Or.inr rfl)).2.2.2.1,
    (mappers_policy_set "Org1MSP" [] none none _ (Or.inl rfl)).2.1⟩

/-! ## Overrides and parse errors in the builder: claims C24 and C28 -/

theorem mapToConfigTX_ok_loops (env : BuildEnv) (spec : FabricMainChannelSpec)
    (cfg : Channel) (h : mapToConfigTX env spec = .ok cfg) :
    ∃ consenters ordererOrgs1 ordererOrgs peerOrgs1 peerOrgs,
      consentersLoop env spec.Consenters [] = .ok consenters ∧
      ordererOrgsLoop env spec.OrdererOrganizations [] = .ok ordererOrgs1 ∧
      externalOrdererOrgsLoop env spec.ExternalOrdererOrganizations ordererOrgs1
        = .ok ordererOrgs ∧
      applyOrdererOverrides env spec (baseOrderer spec ordererOrgs consenters)
        = .ok cfg.Orderer ∧
      peerOrgsLoop env spec.PeerOrganizations [] = .ok peerOrgs1 ∧
      externalPeerOrgsLoop env spec.ExternalPeerOrganizations peerOrgs1 = .ok peerOrgs ∧
      cfg.Application.Organizations = peerOrgs := by
  unfold mapToConfigTX at h
  cases h1 : consentersLoop env spec.Consenters [] with
  | error e => simp [h1] at h
  | ok consenters =>
    simp only [h1] at h
    cases h2 : env.GetClientKubeWithConf with
    | some e => simp [h2] at h
    | none =>
      simp only [h2] at h
      cases h3 : env.NewForConfig with
      | some e => simp [h3] at h
      | none =>
        simp only [h3] at h
        cases h4 : ordererOrgsLoop env spec.OrdererOrganizations [] with
        | error e => simp [h4] at h
        | ok ordererOrgs1 =>
          simp only [h4] at h
          cases h5 : externalOrdererOrgsLoop env spec.ExternalOrdererOrganizations
              ordererOrgs1 with
          | error e => simp [h5] at h
          | ok ordererOrgs =>
            simp only [h5] at h
            cases h6 : applyOrdererOverrides env spec
                (baseOrderer spec ordererOrgs consenters) with
            | error e => simp [h6] at h
            | ok ordConfigtx =>
              simp only [h6] at h
              cases h7 : peerOrgsLoop env spec.PeerOrganizations [] with
              | error e => simp [h7] at h
              | ok peerOrgs1 =>
                simp only [h7] at h
                cases h8 : externalPeerOrgsLoop env spec.ExternalPeerOrganizations
                    peerOrgs1 with
                | error e => simp [h8] at h
                | ok peerOrgs =>
                  simp only [h8, Except.ok.injEq] at h
                  subst h
                  exact ⟨consenters, ordererOrgs1, ordererOrgs, peerOrgs1, peerOrgs,
                    rfl, rfl, h5, h6, rfl, h8, rfl⟩

theorem applyOrdererOverrides_some (env : BuildEnv) (spec : FabricMainChannelSpec)
    (cc : FabricMainChannelConfig) (oc : FabricMainChannelOrdererConfig) (o : Orderer)
    (hcc : spec.ChannelConfig = some cc) (hco : cc.Orderer = some oc) :
    applyOrdererOverrides env spec o =
      match (if oc.BatchTimeout != "" then
              match env.ParseDuration oc.BatchTimeout with
              | .error err => (.error err : Except String Orderer)
              | .ok batchTimeout => .ok { o with BatchTimeout := batchTimeout }
            else .ok o) with
      | .error err => .error err
      | .ok ord1 =>
        match oc.BatchSize with
        | none => .ok ord1
        | some batchSize =>
          .ok { ord1 with
                  BatchSize :=
                    { MaxMessageCount := toUint32 batchSize.MaxMessageCount,
                      AbsoluteMaxBytes := toUint32 batchSize.AbsoluteMaxBytes,
                      PreferredMaxBytes := toUint32 batchSize.PreferredMaxBytes } } := by
  unfold applyOrdererOverrides
  simp only [hcc, hco]

theorem applyOrdererOverrides_etcdRaft (env : BuildEnv) (spec : FabricMainChannelSpec)
    (o o2 : Orderer) (h : applyOrdererOverrides env spec o = .ok o2) :
    o2.EtcdRaft = o.EtcdRaft := by
  cases hcc : spec.ChannelConfig with
  | none =>
    rw [applyOrdererOverrides_none env spec o hcc] at h
    exact (congrArg Orderer.EtcdRaft (Except.ok.inj h)).symm
  | some cc =>
    cases hco : cc.Orderer with
    | none =>
      unfold applyOrdererOverrides at h
      simp only [hcc, hco, Except.ok.injEq] at h
      rw [← h]
    | some oc =>
      rw [applyOrdererOverrides_some env spec cc oc o hcc hco] at h
      by_cases hbt : (oc.BatchTimeout != "") = true
      · simp only [hbt, if_true] at h
        cases hpd : env.ParseDuration oc.BatchTimeout with
        | error e => simp [hpd] at h
        | ok d =>
          simp only [hpd] at h
          cases hbs : oc.BatchSize with
          | none => simp only [hbs, Except.ok.injEq] at h; rw [← h]
          | some bs => simp only [hbs, Except.ok.injEq] at h; rw [← h]
      · simp only [hbt, Bool.false_eq_true, if_false] at h
        cases hbs : oc.BatchSize with
        | none => simp only [hbs, Except.ok.injEq] at h; rw [← h]
        | some bs => simp only [hbs, Except.ok.injEq] at h; rw [← h]

/-- C28: for a spec with an orderer override block, an etcdraft options block
replaces all five consensus parameters by its values, whatever they are; a
batch-size block replaces all three batch-size values by its values converted
to `uint32`; an empty batch-timeout string keeps the timeout of 2 seconds, a
string that parses gives the parsed duration, and a non-empty string that does
not parse makes `mapToConfigTX` return an error. -/
theorem overrides_are_block_wise (env : BuildEnv) (spec : FabricMainChannelSpec)
    (cc : FabricMainChannelConfig) (oc : FabricMainChannelOrdererConfig)
    (hcc : spec.ChannelConfig = some cc) (hco : cc.Orderer = some oc) :
    (∀ cfg er opts, oc.EtcdRaft = some er → er.Options = some opts →
        mapToConfigTX env spec = .ok cfg →
        cfg.Orderer.EtcdRaft.Options =
          { TickInterval := opts.TickInterval, ElectionTick := opts.ElectionTick,
            HeartbeatTick := opts.HeartbeatTick,
            MaxInflightBlocks := opts.MaxInflightBlocks,
            SnapshotIntervalSize := opts.SnapshotIntervalSize }) ∧
      (∀ cfg bs, oc.BatchSize = some bs → mapToConfigTX env spec = .ok cfg →
        cfg.Orderer.BatchSize =
          { MaxMessageCount := toUint32 bs.MaxMessageCount,
            AbsoluteMaxBytes := toUint32 bs.AbsoluteMaxBytes,
            PreferredMaxBytes := toUint32 bs.PreferredMaxBytes }) ∧
      (∀ cfg, oc.BatchTimeout = "" → mapToConfigTX env spec = .ok cfg →
        cfg.Orderer.BatchTimeout = 2 * 1000000000) ∧
      (∀ cfg d, oc.BatchTimeout ≠ "" → env.ParseDuration oc.BatchTimeout = .ok d →
        mapToConfigTX env spec = .ok cfg → cfg.Orderer.BatchTimeout = d) ∧
      (∀ e, oc.BatchTimeout ≠ "" → env.ParseDuration oc.BatchTimeout = .error e →
        ∃ e2, mapToConfigTX env spec = .error e2) := by
  refine ⟨?_, ?_, ?_, ?_, ?_⟩
  · intro cfg er opts her hopts h
    obtain ⟨consenters, _, ordererOrgs, _, _, -, -, -, ho, -⟩ := mapToConfigTX_ok_loops env spec cfg h
    rw [applyOrdererOverrides_etcdRaft env spec _ _ ho]
    show etcdRaftOptionsOf spec = _
    unfold etcdRaftOptionsOf
    simp only [hcc, hco, her, hopts]
  · intro cfg bs hbs h
    obtain ⟨consenters, _, ordererOrgs, _, _, -, -, -, ho, -⟩ := mapToConfigTX_ok_loops env spec cfg h
    rw [applyOrdererOverrides_some env spec cc oc _ hcc hco] at ho
    by_cases hbt : (oc.BatchTimeout != "") = true
    · simp only [hbt, if_true] at ho
      cases hpd : env.ParseDuration oc.BatchTimeout with
      | error e => simp [hpd] at ho
      | ok d =>
        simp only [hpd, hbs, Except.ok.injEq] at ho
        rw [← ho]
    · simp only [hbt, Bool.false_eq_true, if_false, hbs, Except.ok.injEq] at ho
      rw [← ho]
  · intro cfg hempty h
    obtain ⟨consenters, _, ordererOrgs, _, _, -, -, -, ho, -⟩ := mapToConfigTX_ok_loops env spec cfg h
    rw [applyOrdererOverrides_some env spec cc oc _ hcc hco] at ho
    have hbt : (oc.BatchTimeout != "") = false := by simp [hempty]
    simp only [hbt, Bool.false_eq_true, if_false] at ho
    cases hbs : oc.BatchSize with
    | none => simp only [hbs, Except.ok.injEq] at ho; rw [← ho]; rfl
    | some bs => simp only [hbs, Except.ok.injEq] at ho; rw [← ho]; rfl
  · intro cfg d hne hpd h
    obtain ⟨consenters, _, ordererOrgs, _, _, -, -, -, ho, -⟩ := mapToConfigTX_ok_loops env spec cfg h
    rw [applyOrdererOverrides_some env spec cc oc _ hcc hco] at ho
    have hbt : (oc.BatchTimeout != "") = true := by simpa using hne
    simp only [hbt, if_true, hpd] at ho
    cases hbs : oc.BatchSize with
    | none => simp only [hbs, Except.ok.injEq] at ho; rw [← ho]
    | some bs => simp only [hbs, Except.ok.injEq] at ho; rw [← ho]
  · intro e hne hpd
    cases hm : mapToConfigTX env spec with
    | error e2 => exact ⟨e2, rfl⟩
    | ok cfg =>
      obtain ⟨consenters, _, ordererOrgs, _, _, -, -, -, ho, -⟩ :=
        mapToConfigTX_ok_loops env spec cfg hm
      rw [applyOrdererOverrides_some env spec cc oc _ hcc hco] at ho
      have hbt : (oc.BatchTimeout != "") = true := by simpa using hne
      simp [hbt, hpd] at ho

/-- Witness of C28: an options block of empty and zero values and a batch-size
block with a negative and an oversized value reach the configuration as they
are, converted to `uint32`; the empty batch timeout keeps 2 seconds, and the
timeout `soon` is refused. -/
theorem overrides_are_block_wise_witness :
    (∃ cfg, mapToConfigTX envOk (specWithOverrides "") = .ok cfg ∧
        cfg.Orderer.EtcdRaft.Options =
          { TickInterval := "", ElectionTick := 0, HeartbeatTick := 0,
            MaxInflightBlocks := 0, SnapshotIntervalSize := 0 } ∧
        cfg.Orderer.BatchSize =
          { MaxMessageCount := 10, AbsoluteMaxBytes := 4294967295, PreferredMaxBytes := 5 } ∧
        cfg.Orderer.BatchTimeout = 2 * 1000000000) ∧
      (∃ e2, mapToConfigTX envOk (specWithOverrides "soon") = .error e2) :=
  ⟨⟨_, rfl, by decide, by decide,
      (overrides_are_block_wise envOk (specWithOverrides "") _ _ rfl rfl).2.2.1 _ rfl rfl⟩,
    (overrides_are_block_wise envOk (specWithOverrides "soon") _ _ rfl rfl).2.2.2.2
      "time: invalid duration" (by decide) rfl⟩

theorem consentersLoop_ok_parses (env : BuildEnv) (l : List FabricMainChannelConsenter)
    (acc r : List Consenter) (h : consentersLoop env l acc = .ok r) :
    ∀ c, c ∈ l → ¬ ParserRejects env c.TLSCert := by
  induction l generalizing acc with
  | nil => intro c hc; simp at hc
  | cons a rest ih =>
    unfold consentersLoop at h
    cases hp : env.ParseX509Certificate a.TLSCert with
    | error e => simp [hp] at h
    | ok cert =>
      simp only [hp] at h
      intro c hc
      rcases List.mem_cons.1 hc with hc | hc
      · subst hc
        rintro ⟨e, he⟩
        rw [hp] at he
        cases he
      · exact ih _ h c hc

theorem externalOrdererOrgsLoop_ok_parses (env : BuildEnv)
    (l : List FabricMainChannelExternalOrdererOrganization) (acc r : List Organization)
    (h : externalOrdererOrgsLoop env l acc = .ok r) :
    ∀ o, o ∈ l → ¬ ParserRejects env o.TLSRootCert ∧ ¬ ParserRejects env o.SignRootCert := by
  induction l generalizing acc with
  | nil => intro o ho; simp at ho
  | cons a rest ih =>
    unfold externalOrdererOrgsLoop at h
    cases hp : env.ParseX509Certificate a.TLSRootCert with
    | error e => simp [hp] at h
    | ok tls =>
      simp only [hp] at h
      cases hq : env.ParseX509Certificate a.SignRootCert with
      | error e => simp [hq] at h
      | ok ca =>
        simp only [hq] at h
        intro o ho
        rcases List.mem_cons.1 ho with ho | ho
        · subst ho
          refine ⟨?_, ?_⟩
          · rintro ⟨e, he⟩; rw [hp] at he; cases he
          · rintro ⟨e, he⟩; rw [hq] at he; cases he
        · exact ih _ h o ho

theorem externalPeerOrgsLoop_ok_parses (env : BuildEnv)
    (l : List FabricMainChannelExternalPeerOrganization) (acc r : List Organization)
    (h : externalPeerOrgsLoop env l acc = .ok r) :
    ∀ o, o ∈ l → ¬ ParserRejects env o.TLSRootCert ∧ ¬ ParserRejects env o.SignRootCert := by
  induction l generalizing acc with
  | nil => intro o ho; simp at ho
  | cons a rest ih =>
    unfold externalPeerOrgsLoop at h
    cases hp : env.ParseX509Certificate a.TLSRootCert with
    | error e => simp [hp] at h
    | ok tls =>
      simp only [hp] at h
      cases hq : env.ParseX509Certificate a.SignRootCert with
      | error e => simp [hq] at h
      | ok ca =>
        simp only [hq] at h
        intro o ho
        rcases List.mem_cons.1 ho with ho | ho
        · subst ho
          refine ⟨?_, ?_⟩
          · rintro ⟨e, he⟩; rw [hp] at he; cases he
          · rintro ⟨e, he⟩; rw [hq] at he; cases he
        · exact ih _ h o ho

theorem ordererOrgCerts_inline_parses (env : BuildEnv)
    (o : FabricMainChannelOrdererOrganization)
    (certs : Option Certificate × Option Certificate)
    (hca : ¬ (o.CAName ≠ "" ∧ o.CANamespace ≠ ""))
    (hinline : o.TLSCACert ≠ "" ∧ o.SignCACert ≠ "")
    (h : ordererOrgCerts env o = .ok certs) :
    ¬ ParserRejects env o.TLSCACert ∧ ¬ ParserRejects env o.SignCACert := by
  have c1 : (o.CAName != "" && o.CANamespace != "") = false := by
    by_cases h1 : o.CAName = ""
    · simp [h1]
    · by_cases h2 : o.CANamespace = ""
      · simp [h2]
      · exact absurd ⟨h1, h2⟩ hca
  have c2 : (o.TLSCACert != "" && o.SignCACert != "") = true := by
    simp [hinline.1, hinline.2]
  unfold ordererOrgCerts at h
  simp only [c1, c2, Bool.false_eq_true, if_false, if_true] at h
  cases hp : env.ParseX509Certificate o.TLSCACert with
  | error e => simp [hp] at h
  | ok tls =>
    simp only [hp] at h
    cases hq : env.ParseX509Certificate o.SignCACert with
    | error e => simp [hq] at h
    | ok ca =>
      refine ⟨?_, ?_⟩
      · rintro ⟨e, he⟩; rw [hp] at he; cases he
      · rintro ⟨e, he⟩; rw [hq] at he; cases he

theorem ordererOrgsLoop_ok_certs (env : BuildEnv)
    (l : List FabricMainChannelOrdererOrganization) (acc r : List Organization)
    (h : ordererOrgsLoop env l acc = .ok r) :
    ∀ o, o ∈ l → ∃ certs, ordererOrgCerts env o = .ok certs := by
  induction l generalizing acc with
  | nil => intro o ho; simp at ho
  | cons a rest ih =>
    unfold ordererOrgsLoop at h
    cases hp : ordererOrgCerts env a with
    | error e => simp [hp] at h
    | ok certs =>
      simp only [hp] at h
      intro o ho
      rcases List.mem_cons.1 ho with ho | ho
      · subst ho
        exact ⟨certs, hp⟩
      · exact ih _ h o ho

/-- C24, refuted as stated: an orderer organization that names its certificate
authority is resolved through it, and its two inline certificates, though
supplied and refused by the parser, are never parsed: `mapToConfigTX` returns a
channel configuration. -/
theorem ignored_inline_certificates_do_not_fail :
    ParserRejects envParse badCertificate ∧
      (∃ cfg, mapToConfigTX envParse specIgnoredInlineCerts = .ok cfg) ∧
      ¬ SuppliedOrdererCertErrorsPropagate envParse specIgnoredInlineCerts := by
  have hm : ParserRejects envParse badCertificate := ⟨"x509: malformed certificate", rfl⟩
  refine ⟨hm, ⟨_, rfl⟩, ?_⟩
  intro h
  obtain ⟨e, he⟩ := h ⟨_, List.mem_singleton.2 rfl, Or.inl ⟨by decide, hm⟩⟩
  have hok : ∃ cfg, mapToConfigTX envParse specIgnoredInlineCerts = .ok cfg := ⟨_, rfl⟩
  obtain ⟨cfg, hcfg⟩ := hok
  rw [hcfg] at he
  cases he

/-- C24, amended: in an environment whose certificate parser returns on every
text, `mapToConfigTX` returns an error, and no channel configuration, when the
parser returns an error for the TLS certificate of some consenter, or for the
signing or TLS root certificate of some external peer or external orderer
organization, or for an inline certificate of some orderer organization that is
resolved through its inline certificates (no CA name with namespace, and both
inline certificates given). -/
theorem certificate_parse_errors_propagate (env : BuildEnv) (spec : FabricMainChannelSpec)
    (h : (∃ c, c ∈ spec.Consenters ∧ ParserRejects env c.TLSCert) ∨
      (∃ o, o ∈ spec.ExternalPeerOrganizations ∧
        (ParserRejects env o.TLSRootCert ∨ ParserRejects env o.SignRootCert)) ∨
      (∃ o, o ∈ spec.ExternalOrdererOrganizations ∧
        (ParserRejects env o.TLSRootCert ∨ ParserRejects env o.SignRootCert)) ∨
      (∃ o, o ∈ spec.OrdererOrganizations ∧
        ¬ (o.CAName ≠ "" ∧ o.CANamespace ≠ "") ∧
        (o.TLSCACert ≠ "" ∧ o.SignCACert ≠ "") ∧
        (ParserRejects env o.TLSCACert ∨ ParserRejects env o.SignCACert))) :
    (∃ err, mapToConfigTX env spec = .error err) ∧
      ∀ cfg, mapToConfigTX env spec ≠ .ok cfg := by
  have hno : ∀ cfg, mapToConfigTX env spec ≠ .ok cfg := by
    intro cfg hm
    obtain ⟨consenters, o1, o2, p1, p2, hc, ho1, ho2, -, -, hp2, -⟩ :=
      mapToConfigTX_ok_loops env spec cfg hm
    rcases h with ⟨c, hc1, hc2⟩ | ⟨o, ho, hbad⟩ | ⟨o, ho, hbad⟩ | ⟨o, ho, hca, hin, hbad⟩
    · exact consentersLoop_ok_parses env _ _ _ hc c hc1 hc2
    · have := externalPeerOrgsLoop_ok_parses env _ _ _ hp2 o ho
      rcases hbad with hb | hb
      · exact this.1 hb
      · exact this.2 hb
    · have := externalOrdererOrgsLoop_ok_parses env _ _ _ ho2 o ho
      rcases hbad with hb | hb
      · exact this.1 hb
      · exact this.2 hb
    · obtain ⟨certs, hcerts⟩ := ordererOrgsLoop_ok_certs env _ _ _ ho1 o ho
      have := ordererOrgCerts_inline_parses env o certs hca hin hcerts
      rcases hbad with hb | hb
      · exact this.1 hb
      · exact this.2 hb
  refine ⟨?_, hno⟩
  cases hm : mapToConfigTX env spec with
  | error e => exact ⟨e, rfl⟩
  | ok cfg => exact absurd hm (hno cfg)

/-- Witness of C24 amended: a consenter whose TLS certificate is a PEM block that
the parser refuses makes the builder return the parse error, and so does a
refused signing certificate of an orderer organization resolved through its
inline certificates. -/
theorem certificate_parse_errors_propagate_witness :
    (mapToConfigTX envParse specBadConsenter = .error "x509: malformed certificate" ∧
        ((∃ err, mapToConfigTX envParse specBadConsenter = .error err) ∧
          ∀ cfg, mapToConfigTX envParse specBadConsenter ≠ .ok cfg)) ∧
      (mapToConfigTX envParse specBadInlineCert = .error "x509: malformed certificate" ∧
        ((∃ err, mapToConfigTX envParse specBadInlineCert = .error err) ∧
          ∀ cfg, mapToConfigTX envParse specBadInlineCert ≠ .ok cfg)) :=
  ⟨⟨rfl,
      certificate_parse_errors_propagate envParse specBadConsenter
        (Or.inl ⟨{ Host := "ord0", Port := 7050, TLSCert := badCertificate },
          List.mem_singleton.2 rfl, ⟨"x509: malformed certificate", rfl⟩⟩)⟩,
    ⟨rfl,
      certificate_parse_errors_propagate envParse specBadInlineCert
        (Or.inr (Or.inr (Or.inr
          ⟨_, List.mem_singleton.2 rfl, by decide, by decide,
            Or.inr ⟨"x509: malformed certificate", rfl⟩⟩)))⟩⟩

/-! ## The fetch of the current block: claim C29 -/

theorem queryCount_append_query (p : Pass) (idx : Nat) :
    queryCount { p with trace := p.trace ++ [Event.queryConfigBlock idx] } = queryCount p + 1 := by
  simp [queryCount, List.filter_append]

theorem queryCount_append_query_sleep (p : Pass) (idx millis : Nat) :
    queryCount
        { p with trace := (p.trace ++ [Event.queryConfigBlock idx]) ++ [Event.sleep millis] }
      = queryCount p + 1 := by
  simp [queryCount, List.filter_append]

theorem fetchLoop_ok (env : Env) (n : Nat) (p : Pass) (b : Block)
    (h : env.QueryConfigBlockFromOrderer (queryCount p) = .ok b) :
    fetchLoop env n p =
      (.ok b, { p with trace := p.trace ++ [Event.queryConfigBlock (queryCount p)] }) := by
  cases n <;> (unfold fetchLoop; simp only [h])

theorem fetchLoop_error_zero (env : Env) (p : Pass) (e : String)
    (h : env.QueryConfigBlockFromOrderer (queryCount p) = .error e) :
    fetchLoop env 0 p =
      (.error e, { p with trace := p.trace ++ [Event.queryConfigBlock (queryCount p)] }) := by
  unfold fetchLoop; simp only [h]

theorem fetchLoop_error_succ (env : Env) (n : Nat) (p : Pass) (e : String)
    (h : env.QueryConfigBlockFromOrderer (queryCount p) = .error e) :
    fetchLoop env (n + 1) p =
      fetchLoop env n
        { p with trace :=
            (p.trace ++ [Event.queryConfigBlock (queryCount p)]) ++ [Event.sleep 1500] } := by
  rw [fetchLoop]; simp only [h]

/-- The fetch with `n` attempts left retries `k ≤ n` times: the queries before the
last all fail, each followed by the pause, a result is the answer of the last
query, and an error is returned only after `n` retries. -/
theorem fetchLoop_bounded (env : Env) (n : Nat) (p : Pass) :
    ∃ k, k ≤ n ∧
      (fetchLoop env n p).2 =
        { p with trace := p.trace ++ fetchEvents (queryCount p) k } ∧
      (∀ j, j < k → ∃ e, env.QueryConfigBlockFromOrderer (queryCount p + j) = .error e) ∧
      (∀ b, (fetchLoop env n p).1 = .ok b →
        env.QueryConfigBlockFromOrderer (queryCount p + k) = .ok b) ∧
      (∀ e, (fetchLoop env n p).1 = .error e →
        k = n ∧ env.QueryConfigBlockFromOrderer (queryCount p + k) = .error e) := by
  induction n generalizing p with
  | zero =>
    refine ⟨0, le_refl _, ?_, ?_, ?_, ?_⟩
    · cases h : env.QueryConfigBlockFromOrderer (queryCount p) with
      | ok b => rw [fetchLoop_ok env 0 p b h]; rfl
      | error e => rw [fetchLoop_error_zero env p e h]; rfl
    · intro j hj; exact absurd hj (Nat.not_lt_zero j)
    · intro b hb
      cases h : env.QueryConfigBlockFromOrderer (queryCount p) with
      | ok b2 =>
        rw [fetchLoop_ok env 0 p b2 h] at hb
        rw [Nat.add_zero, h]
        exact hb
      | error e =>
        rw [fetchLoop_error_zero env p e h] at hb
        cases hb
    · intro e he
      cases h : env.QueryConfigBlockFromOrderer (queryCount p) with
      | ok b2 =>
        rw [fetchLoop_ok env 0 p b2 h] at he
        cases he
      | error e2 =>
        rw [fetchLoop_error_zero env p e2 h] at he
        rw [Nat.add_zero, h]
        exact ⟨rfl, he⟩
  | succ n ih =>
    cases h : env.QueryConfigBlockFromOrderer (queryCount p) with
    | ok b =>
      refine ⟨0, Nat.zero_le _, ?_, ?_, ?_, ?_⟩
      · rw [fetchLoop_ok env _ p b h]; rfl
      · intro j hj; exact absurd hj (Nat.not_lt_zero j)
      · intro b2 hb
        rw [fetchLoop_ok env _ p b h] at hb
        rw [Nat.add_zero, h]
        exact hb
      · intro e he
        rw [fetchLoop_ok env _ p b h] at he
        cases he
    | error e =>
      have hq := queryCount_append_query_sleep p (queryCount p) 1500
      obtain ⟨k, hk, htrace, hfail, hok, herr⟩ := ih
        { p with trace :=
            (p.trace ++ [Event.queryConfigBlock (queryCount p)]) ++ [Event.sleep 1500] }
      rw [hq] at htrace hfail hok herr
      rw [← fetchLoop_error_succ env n p e h] at htrace hok herr
      refine ⟨k + 1, Nat.succ_le_succ hk, ?_, ?_, ?_, ?_⟩
      · rw [htrace]
        simp [fetchEvents, List.append_assoc]
      · intro j hj
        cases j with
        | zero => exact ⟨e, by rw [Nat.add_zero]; exact h⟩
        | succ j =>
          have := hfail j (Nat.lt_of_succ_lt_succ hj)
          rw [Nat.add_assoc, Nat.add_comm 1 j] at this
          exact this
      · intro b hb
        have := hok b hb
        rw [Nat.add_assoc, Nat.add_comm 1 k] at this
        exact this
      · intro e2 he
        obtain ⟨h1, h2⟩ := herr e2 he
        rw [Nat.add_assoc, Nat.add_comm 1 k] at h2
        exact ⟨by rw [h1], h2⟩

theorem fetchEvents_queries (base k : Nat) :
    ((fetchEvents base k).filter (fun e => match e with
      | Event.queryConfigBlock _ => true
      | _ => false)).length = k + 1 := by
  induction k generalizing base with
  | zero => rfl
  | succ k ih => simp [fetchEvents, ih]

theorem fetchEvents_sleeps (base k : Nat) :
    ((fetchEvents base k).filter (fun e => match e with
      | Event.sleep _ => true
      | _ => false)).length = k := by
  induction k generalizing base with
  | zero => rfl
  | succ k ih => simp [fetchEvents, ih]

theorem fetchAndDiff_of_fetch_error (env : Env) (spec : FabricMainChannelSpec) (p : Pass)
    (e : String) (h : (fetchLoop env 5 p).1 = .error e) :
    fetchAndDiff env spec p =
      failAt env (fetchLoop env 5 p).2 392
        (wrapf e ("failed to get block from channel " ++ spec.Name)) := by
  unfold fetchAndDiff
  rcases hf : fetchLoop env 5 p with ⟨r, p1⟩
  rw [hf] at h
  simp only at h
  subst h
  rfl

/-- C29, the code at the failing input: the fetch before the diff stops at the
first query that succeeds, issues at most 6 queries (5 retries, each after a
pause of 1500 ms), and when all 6 fail the pass ends in the failure idiom with
the error `failed to get block from channel <name>`; but on an object that was
not already Failed the status patch result overwrites that error inside
`setConditionStatus`, so the pass ends with status Failed and an empty message
and condition, the text being recorded only when the object was Failed
before. -/
theorem fetch_is_bounded_but_loses_diagnostic :
    (∀ (env : Env) (p : Pass),
        ∃ k, k ≤ 5 ∧
          (fetchLoop env 5 p).2 =
            { p with trace := p.trace ++ fetchEvents (queryCount p) k } ∧
          queryCount (fetchLoop env 5 p).2 = queryCount p + (k + 1) ∧
          sleepCount (fetchLoop env 5 p).2 = sleepCount p + k ∧
          (∀ j, j < k → ∃ e, env.QueryConfigBlockFromOrderer (queryCount p + j) = .error e) ∧
          (∀ b, (fetchLoop env 5 p).1 = .ok b →
            env.QueryConfigBlockFromOrderer (queryCount p + k) = .ok b) ∧
          (∀ e, (fetchLoop env 5 p).1 = .error e →
            k = 5 ∧ env.QueryConfigBlockFromOrderer (queryCount p + k) = .error e) ∧
          ((∀ j, j ≤ 5 → ∃ e, env.QueryConfigBlockFromOrderer (queryCount p + j) = .error e) →
            ∃ e, (fetchLoop env 5 p).1 = .error e)) ∧
      (∀ (env : Env) (spec : FabricMainChannelSpec) (p : Pass) (e : String),
        (fetchLoop env 5 p).1 = .error e →
        fetchAndDiff env spec p =
          failAt env (fetchLoop env 5 p).2 392
            (wrapf e ("failed to get block from channel " ++ spec.Name))) ∧
      Reconcile (sampleEnvQueries "PENDING" allQueriesFail) =
        (Return.returned { Requeue := false, RequeueAfter := 0 } none,
          { status :=
              { Status := FailedStatus, Message := "",
                Conditions :=
                  [ { CondType := FailedStatus, Status := "False", Reason := "",
                      Message := "" } ] },
            trace :=
              fetchEvents 0 5 ++
                [Event.setFailed 392 sampleFetchDiagnostic,
                  Event.statusPatch FailedStatus, Event.statusUpdate] }) ∧
      strContains sampleFetchDiagnostic "failed to get block from channel" = true ∧
      (Reconcile (sampleEnvQueries "FAILED" allQueriesFail)).2.status.Message
        = sampleFetchDiagnostic ∧
      (Reconcile (sampleEnvQueries "PENDING" thirdQueryAnswers)).2.trace.take 5
        = fetchEvents 0 2 := by
  refine ⟨?_, ?_, by decide, by decide, by decide, by decide⟩
  · intro env p
    obtain ⟨k, hk, htrace, hfail, hok, herr⟩ := fetchLoop_bounded env 5 p
    refine ⟨k, hk, htrace, ?_, ?_, hfail, hok, herr, ?_⟩
    · rw [htrace]
      unfold queryCount
      simp only [List.filter_append, List.length_append]
      rw [fetchEvents_queries]
    · rw [htrace]
      unfold sleepCount
      simp only [List.filter_append, List.length_append]
      rw [fetchEvents_sleeps]
    · intro hall
      cases hr : (fetchLoop env 5 p).1 with
      | error e => exact ⟨e, rfl⟩
      | ok b =>
        obtain ⟨e, he⟩ := hall k hk
        rw [hok b hr] at he
        cases he
  · intro env spec p e h
    exact fetchAndDiff_of_fetch_error env spec p e h

/-! ## The generated fake client: claim C26 -/

theorem FakeFabricCAs.List_of_nil (c : FakeFabricCAs) (testing : Testing) (opts : ListOptions)
    (err : Option String) (h : c.Invokes c.ns opts = (none, err)) :
    c.List testing opts = ListReturn.returned none err := by
  unfold FakeFabricCAs.List
  rw [h]

theorem FakeFabricCAs.List_of_list (c : FakeFabricCAs) (testing : Testing) (opts : ListOptions)
    (obj : FabricCAList) (err : Option String) (extracted : Extracted)
    (h : c.Invokes c.ns opts = (some obj, err))
    (hex : testing.ExtractFromListOptions opts = .ok extracted) :
    c.List testing opts =
      ListReturn.returned
        (some
          { ListMeta := obj.ListMeta,
            Items := obj.Items.filter (fun item =>
              extracted.labelOrEverything.Matches item.Labels) })
        err := by
  unfold FakeFabricCAs.List
  rw [h]
  simp only [hex]
  rfl

/-- C26, the code at the failing input: with the field selector
`metadata.name=ca1` and no label selector, `List` returns both sample items,
`ca2` included, whereas filtering by the label selector and the field selector,
which the comment above the method announces, keeps `ca1` alone. -/
theorem fake_list_ignores_field_selector :
    (sampleFake "default").List sampleTesting optsFieldName
        = ListReturn.returned (some sampleCAs) none ∧
      ¬ ListFiltersByBothSelectors (sampleFake "default") sampleTesting optsFieldName := by
  refine ⟨by decide, ?_⟩
  intro h
  have h2 := h sampleCAs none
    { label := some Everything,
      field := some
        { Matches := fun set =>
            set.get (String.mk ("metadata.name=ca1".toList.takeWhile (fun ch => ch != '=')))
              == some (String.mk ("metadata.name=ca1".toList.dropWhile
                  (fun ch => ch != '=')).tail) },
      resourceVersion := "" } rfl rfl
  revert h2
  decide

/-- What `List` does: when the underlying fake returns no object, it returns nil
together with the error; when it returns a list and the selectors of the options
are extracted, `List` returns, with the same error and the same list metadata,
exactly the items whose labels match the label selector (every item when that
selector is nil or matches everything), in their original order, whatever the
field selector. -/
theorem fake_list_filters_by_label_only (c : FakeFabricCAs) (testing : Testing)
    (opts : ListOptions) :
    (∀ err, c.Invokes c.ns opts = (none, err) →
        c.List testing opts = ListReturn.returned none err) ∧
      (∀ obj err extracted,
        c.Invokes c.ns opts = (some obj, err) →
        testing.ExtractFromListOptions opts = .ok extracted →
        ∃ items,
          c.List testing opts =
              ListReturn.returned (some { ListMeta := obj.ListMeta, Items := items }) err ∧
            items = obj.Items.filter (fun item =>
              extracted.labelOrEverything.Matches item.Labels) ∧
            List.Sublist items obj.Items ∧
            (∀ item, item ∈ items ↔
              (item ∈ obj.Items ∧ extracted.labelOrEverything.Matches item.Labels = true)) ∧
            ((∀ item, item ∈ obj.Items →
                extracted.labelOrEverything.Matches item.Labels = true) →
              items = obj.Items) ∧
            (extracted.label = none → items = obj.Items)) := by
  refine ⟨fun err h => FakeFabricCAs.List_of_nil c testing opts err h, ?_⟩
  intro obj err extracted h hex
  refine ⟨_, FakeFabricCAs.List_of_list c testing opts obj err extracted h hex, rfl,
    List.filter_sublist _, ?_, ?_, ?_⟩
  · intro item
    exact List.mem_filter
  · intro hall
    exact List.filter_eq_self.2 hall
  · intro hnil
    apply List.filter_eq_self.2
    intro item _
    unfold Extracted.labelOrEverything
    rw [hnil]
    rfl

/-- Sample of the label filter: in the sample namespace the label selector
`org=org2` keeps the second item only, and in a namespace without objects `List`
returns nil with the error of the fake. -/
theorem fake_list_label_filter_sample :
    (sampleFake "default").List sampleTesting optsLabelOrg =
        ListReturn.returned (some { sampleCAs with Items := sampleCAs.Items.drop 1 }) none ∧
      (sampleFake "other").List sampleTesting optsLabelOrg =
        ListReturn.returned none (some "no reaction") :=
  ⟨by decide,
    (fake_list_filters_by_label_only (sampleFake "other") sampleTesting optsLabelOrg).1
      (some "no reaction") rfl⟩

/-! ## The end of a pass and the empty admin list: claim C27 -/

theorem updateCRStatusOrFailReconcile_returned (env : Env) (p : Pass) :
    (updateCRStatusOrFailReconcile env p).1 =
      Return.returned { Requeue := false, RequeueAfter := 0 } (env.StatusUpdate p.status) := by
  unfold updateCRStatusOrFailReconcile
  cases env.StatusUpdate p.status <;> rfl

theorem failAt_endsDoneOrFailed {α : Type} (env : Env) (p : Pass) (line : Nat) (err : String) :
    (failAt env p line err : Flow α).EndsDoneOrFailed := by
  have hs := failAt_status (α := α) env p line err
  exact ⟨⟨_, _, updateCRStatusOrFailReconcile_returned env _⟩, Or.inl hs⟩

theorem endsDoneOrFailed_bind {α β : Type} {f : Flow α} {g : α → Pass → Flow β}
    (hf : f.EndsDoneOrFailed) (hg : ∀ a q, (g a q).EndsDoneOrFailed) :
    (f.bind g).EndsDoneOrFailed := by
  cases f with
  | next a q => exact hg a q
  | done r q => exact hf

theorem orFail_endsDoneOrFailed {α : Type} (env : Env) (p : Pass) (line : Nat)
    (r : Except String α) : (orFail env p line r).EndsDoneOrFailed := by
  cases r with
  | ok a => trivial
  | error e => exact failAt_endsDoneOrFailed env p line e

theorem orFailErr_endsDoneOrFailed (env : Env) (p : Pass) (line : Nat) (r : Option String) :
    (orFailErr env p line r).EndsDoneOrFailed := by
  cases r with
  | none => trivial
  | some e => exact failAt_endsDoneOrFailed env p line e

theorem genesisStep_endsDoneOrFailed (env : Env) (spec : FabricMainChannelSpec) (p : Pass) :
    (genesisStep env spec p).EndsDoneOrFailed := by
  unfold genesisStep
  refine endsDoneOrFailed_bind (orFailErr_endsDoneOrFailed _ _ _ _) (fun _ p1 => ?_)
  refine endsDoneOrFailed_bind (orFailErr_endsDoneOrFailed _ _ _ _) (fun _ p2 => ?_)
  refine endsDoneOrFailed_bind (orFail_endsDoneOrFailed _ _ _ _) (fun _ p3 => ?_)
  refine endsDoneOrFailed_bind (orFail_endsDoneOrFailed _ _ _ _) (fun _ p4 => ?_)
  exact orFail_endsDoneOrFailed _ _ _ _

theorem joinRequest_endsDoneOrFailed (env : Env) (channelName blockBytes osnUrl : String)
    (lines : Nat × Nat × Nat × Nat) (p : Pass) :
    (joinRequest env channelName blockBytes osnUrl lines p).EndsDoneOrFailed := by
  unfold joinRequest
  simp only
  split
  · exact failAt_endsDoneOrFailed _ _ _ _
  · split
    · trivial
    · split
      · exact failAt_endsDoneOrFailed _ _ _ _
      · split
        · exact failAt_endsDoneOrFailed _ _ _ _
        · split
          · exact failAt_endsDoneOrFailed _ _ _ _
          · trivial

theorem joinExternalOrderers_endsDoneOrFailed (env : Env) (channelName blockBytes : String)
    (l : List FabricMainChannelExternalOrdererNode) (p : Pass) :
    (joinExternalOrderers env channelName blockBytes l p).EndsDoneOrFailed := by
  induction l generalizing p with
  | nil => trivial
  | cons cc rest ih =>
    unfold joinExternalOrderers
    exact endsDoneOrFailed_bind (joinRequest_endsDoneOrFailed _ _ _ _ _ _) (fun _ q => ih q)

theorem joinClusterOrderers_endsDoneOrFailed (env : Env) (channelName blockBytes : String)
    (l : List FabricMainChannelOrdererNode) (p : Pass) :
    (joinClusterOrderers env channelName blockBytes l p).EndsDoneOrFailed := by
  induction l generalizing p with
  | nil => trivial
  | cons cc rest ih =>
    unfold joinClusterOrderers
    refine endsDoneOrFailed_bind (orFail_endsDoneOrFailed _ _ _ _) (fun _ p1 => ?_)
    refine endsDoneOrFailed_bind (orFail_endsDoneOrFailed _ _ _ _) (fun _ p2 => ?_)
    exact endsDoneOrFailed_bind (joinRequest_endsDoneOrFailed _ _ _ _ _ _) (fun _ q => ih q)

theorem joinTLSCACert_endsDoneOrFailed (env : Env)
    (ordererOrg : FabricMainChannelOrdererOrganization) (p : Pass) :
    (joinTLSCACert env ordererOrg p).EndsDoneOrFailed := by
  unfold joinTLSCACert
  split
  · exact endsDoneOrFailed_bind (orFail_endsDoneOrFailed _ _ _ _) (fun _ _ => trivial)
  · split
    · trivial
    · trivial

theorem joinOrdererOrg_endsDoneOrFailed (env : Env) (spec : FabricMainChannelSpec)
    (blockBytes : String) (ordererOrg : FabricMainChannelOrdererOrganization) (p : Pass) :
    (joinOrdererOrg env spec blockBytes ordererOrg p).EndsDoneOrFailed := by
  unfold joinOrdererOrg
  refine endsDoneOrFailed_bind (joinTLSCACert_endsDoneOrFailed _ _ _) (fun tls p1 => ?_)
  split
  · exact failAt_endsDoneOrFailed _ _ _ _
  · split
    · exact failAt_endsDoneOrFailed _ _ _ _
    · refine endsDoneOrFailed_bind (orFail_endsDoneOrFailed _ _ _ _) (fun secret p2 => ?_)
      split
      · exact failAt_endsDoneOrFailed _ _ _ _
      · refine endsDoneOrFailed_bind (orFail_endsDoneOrFailed _ _ _ _) (fun _ p3 => ?_)
        refine endsDoneOrFailed_bind (joinExternalOrderers_endsDoneOrFailed _ _ _ _ _)
          (fun _ p4 => ?_)
        exact joinClusterOrderers_endsDoneOrFailed _ _ _ _ _

theorem joinOrderers_endsDoneOrFailed (env : Env) (spec : FabricMainChannelSpec)
    (blockBytes : String) (l : List FabricMainChannelOrdererOrganization) (p : Pass) :
    (joinOrderers env spec blockBytes l p).EndsDoneOrFailed := by
  induction l generalizing p with
  | nil => trivial
  | cons o rest ih =>
    unfold joinOrderers
    exact endsDoneOrFailed_bind (joinOrdererOrg_endsDoneOrFailed _ _ _ _ _) (fun _ q => ih q)

theorem resolveSigner_endsDoneOrFailed (env : Env) (spec : FabricMainChannelSpec)
    (mspID : String) (lines : List Nat) (p : Pass) :
    (resolveSigner env spec mspID lines p).EndsDoneOrFailed := by
  unfold resolveSigner
  split
  · exact failAt_endsDoneOrFailed _ _ _ _
  · refine endsDoneOrFailed_bind (orFail_endsDoneOrFailed _ _ _ _) (fun secret p1 => ?_)
    split
    · exact failAt_endsDoneOrFailed _ _ _ _
    · refine endsDoneOrFailed_bind (orFail_endsDoneOrFailed _ _ _ _) (fun id p2 => ?_)
      refine endsDoneOrFailed_bind (orFailErr_endsDoneOrFailed _ _ _ _) (fun _ p3 => ?_)
      refine endsDoneOrFailed_bind (orFailErr_endsDoneOrFailed _ _ _ _) (fun _ p4 => ?_)
      refine endsDoneOrFailed_bind (orFailErr_endsDoneOrFailed _ _ _ _) (fun _ p5 => ?_)
      refine endsDoneOrFailed_bind (orFailErr_endsDoneOrFailed _ _ _ _) (fun _ p6 => ?_)
      refine endsDoneOrFailed_bind (orFail_endsDoneOrFailed _ _ _ _) (fun si p7 => ?_)
      refine endsDoneOrFailed_bind (orFailErr_endsDoneOrFailed _ _ _ _) (fun _ p8 => ?_)
      trivial

theorem firstAdminStep_endsDoneOrFailed (env : Env) (spec : FabricMainChannelSpec) (p : Pass)
    (h : spec.AdminPeerOrganizations ≠ []) :
    (firstAdminStep env spec p).EndsDoneOrFailed := by
  unfold firstAdminStep
  split
  · exact failAt_endsDoneOrFailed _ _ _ _
  · refine endsDoneOrFailed_bind (orFailErr_endsDoneOrFailed _ _ _ _) (fun _ p1 => ?_)
    split
    · rename_i hnil
      exact absurd hnil h
    · exact resolveSigner_endsDoneOrFailed _ _ _ _ _

theorem fetchAndDiff_endsDoneOrFailed (env : Env) (spec : FabricMainChannelSpec) (p : Pass) :
    (fetchAndDiff env spec p).EndsDoneOrFailed := by
  unfold fetchAndDiff
  split
  · exact failAt_endsDoneOrFailed _ _ _ _
  · split
    · exact failAt_endsDoneOrFailed _ _ _ _
    · split
      · exact failAt_endsDoneOrFailed _ _ _ _
      · split
        · exact failAt_endsDoneOrFailed _ _ _ _
        · split
          · exact failAt_endsDoneOrFailed _ _ _ _
          · trivial

theorem collectSignatures_endsDoneOrFailed (env : Env) (spec : FabricMainChannelSpec)
    (bytes : String) (l : List FabricMainChannelAdminPeerOrganizationSpec)
    (acc : List ConfigSignature) (p : Pass) :
    (collectSignatures env spec bytes l acc p).EndsDoneOrFailed := by
  induction l generalizing acc p with
  | nil => trivial
  | cons a rest ih =>
    unfold collectSignatures
    refine endsDoneOrFailed_bind (resolveSigner_endsDoneOrFailed _ _ _ _ _) (fun si p1 => ?_)
    exact endsDoneOrFailed_bind (orFail_endsDoneOrFailed _ _ _ _) (fun sig p3 => ih _ p3)

theorem diffStep_endsDoneOrFailed (env : Env) (spec : FabricMainChannelSpec)
    (resmgmtOptions : List String) (computed : Except String ConfigUpdate) (p : Pass) :
    (diffStep env spec resmgmtOptions computed p).EndsDoneOrFailed := by
  unfold diffStep
  split
  · split
    · exact failAt_endsDoneOrFailed _ _ _ _
    · trivial
  · split
    · exact failAt_endsDoneOrFailed _ _ _ _
    · refine endsDoneOrFailed_bind (collectSignatures_endsDoneOrFailed _ _ _ _ _ _)
        (fun sigs p1 => ?_)
      simp only
      split
      · exact failAt_endsDoneOrFailed _ _ _ _
      · trivial

theorem pollStep_endsDoneOrFailed (env : Env) (p : Pass) :
    (pollStep env p).EndsDoneOrFailed := by
  unfold pollStep
  simp only
  split
  · trivial
  · exact failAt_endsDoneOrFailed _ _ _ _

theorem markRunning_endsDoneOrFailed (env : Env) (p : Pass) :
    (markRunning env p).EndsDoneOrFailed := by
  unfold markRunning
  simp only
  split
  · exact failAt_endsDoneOrFailed _ _ _ _
  · exact ⟨⟨_, _, rfl⟩, Or.inr rfl⟩

theorem markRunning_ended (env : Env) (p : Pass) : (markRunning env p).ended = true := by
  unfold markRunning
  simp only
  split
  · exact failAt_ended _ _ _ _
  · rfl

theorem finishStep_endsDoneOrFailed (env : Env) (obj : FabricMainChannel) (b : Block)
    (p : Pass) : (finishStep env obj b p).EndsDoneOrFailed := by
  unfold finishStep
  split
  · exact failAt_endsDoneOrFailed _ _ _ _
  · split
    · exact failAt_endsDoneOrFailed _ _ _ _
    · simp only
      split
      · exact failAt_endsDoneOrFailed _ _ _ _
      · split
        · exact failAt_endsDoneOrFailed _ _ _ _
        · exact markRunning_endsDoneOrFailed _ _
      · split
        · exact failAt_endsDoneOrFailed _ _ _ _
        · exact markRunning_endsDoneOrFailed _ _

theorem finishStep_ended (env : Env) (obj : FabricMainChannel) (b : Block) (p : Pass) :
    (finishStep env obj b p).ended = true := by
  unfold finishStep
  split
  · exact failAt_ended _ _ _ _
  · split
    · exact failAt_ended _ _ _ _
    · simp only
      split
      · exact failAt_ended _ _ _ _
      · split
        · exact failAt_ended _ _ _ _
        · exact markRunning_ended _ _
      · split
        · exact failAt_ended _ _ _ _
        · exact markRunning_ended _ _

theorem bind_ended {α β : Type} (f : Flow α) (g : α → Pass → Flow β)
    (hg : ∀ a q, (g a q).ended = true) : (f.bind g).ended = true := by
  cases f with
  | next a q => exact hg a q
  | done r q => rfl

theorem reconcileFromCalculate_endsDoneOrFailed (env : Env) (obj : FabricMainChannel)
    (resmgmtOptions : List String) (computed : Except String ConfigUpdate) (p : Pass) :
    (reconcileFromCalculate env obj resmgmtOptions computed p).EndsDoneOrFailed ∧
      (reconcileFromCalculate env obj resmgmtOptions computed p).ended = true := by
  unfold reconcileFromCalculate
  refine ⟨?_, ?_⟩
  · refine endsDoneOrFailed_bind (diffStep_endsDoneOrFailed _ _ _ _ _) (fun _ p1 => ?_)
    exact endsDoneOrFailed_bind (pollStep_endsDoneOrFailed _ _)
      (fun b p2 => finishStep_endsDoneOrFailed _ _ _ _)
  · exact bind_ended _ _ (fun _ p1 => bind_ended _ _ (fun b p2 => finishStep_ended _ _ _ _))

theorem reconcileObject_ended (env : Env) (obj : FabricMainChannel) (p : Pass) :
    (reconcileObject env obj p).ended = true := by
  unfold reconcileObject
  exact bind_ended _ _ (fun _ p1 => bind_ended _ _ (fun _ p2 => bind_ended _ _ (fun _ p3 =>
    bind_ended _ _ (fun cur p4 =>
      (reconcileFromCalculate_endsDoneOrFailed env obj _ _ p4).2))))

theorem genesisStep_of_empty_admin_list (env : Env) (spec : FabricMainChannelSpec) (p : Pass)
    (hgen : GenesisRefusesMajoritySignature env) (h0 : spec.AdminPeerOrganizations = []) :
    ∃ line err, genesisStep env spec p = failAt env p line err ∧ line ≤ 139 := by
  unfold genesisStep
  cases h1 : env.build.GetClientKubeWithConf with
  | some e => exact ⟨124, e, rfl, by decide⟩
  | none =>
    cases h2 : env.build.NewForConfig with
    | some e => exact ⟨129, e, rfl, by decide⟩
    | none =>
      cases h3 : mapToConfigTX env.build spec with
      | error e => exact ⟨134, e, rfl, by decide⟩
      | ok cfg =>
        have hrule : adminAppPolicyOf spec = "MAJORITY Admins" := by
          unfold adminAppPolicyOf
          rw [h0]
          rfl
        have hadm : cfg.Application.Policies.get "Admins" = some majoritySignature := by
          rw [(mapToConfigTX_ok_policies env.build spec cfg h3).1, hrule]
          rfl
        obtain ⟨e, he⟩ := hgen cfg spec.Name hadm
        refine ⟨139, e, ?_, by decide⟩
        simp only [orFailErr, orFail, Flow.bind, he]
        rfl

theorem sampleGenesisBlock_refuses (adminPeers : List String) (current : Config) :
    GenesisRefusesMajoritySignature (sampleEnv adminPeers current) := by
  intro channel name h
  refine ⟨"invalid signature policy rule: 'MAJORITY Admins'", ?_⟩
  show sampleGenesisBlock channel name = _
  unfold sampleGenesisBlock
  simp [h]

/-- C27: in an environment whose genesis-block constructor refuses a Signature
policy with the rule `MAJORITY Admins`, as the library does, the pass over an
object (lines 122-608) always returns, without a panic, with status Failed or
Running; and when the admin peer organization list is empty, the pass fails at
line 139 at the latest, on the genesis block of the configuration that
`mapToConfigTX` builds for the empty list, so the read of element 0 at line 308
is not reached. -/
theorem empty_admin_list_is_never_read (env : Env) (obj : FabricMainChannel) (p : Pass)
    (hgen : GenesisRefusesMajoritySignature env) :
    (∃ result err q, reconcileObject env obj p = Flow.done (Return.returned result err) q ∧
        (q.status.Status = FailedStatus ∨ q.status.Status = RunningStatus)) ∧
      (obj.Spec.AdminPeerOrganizations = [] →
        ∃ line err, reconcileObject env obj p = failAt env p line err ∧ line ≤ 139) := by
  have hempty : obj.Spec.AdminPeerOrganizations = [] →
      ∃ line err, reconcileObject env obj p = failAt env p line err ∧ line ≤ 139 := by
    intro h0
    obtain ⟨line, err, hg, hl⟩ := genesisStep_of_empty_admin_list env obj.Spec p hgen h0
    refine ⟨line, err, ?_, hl⟩
    unfold reconcileObject
    rw [hg]
    rfl
  have hends : (reconcileObject env obj p).EndsDoneOrFailed := by
    by_cases h0 : obj.Spec.AdminPeerOrganizations = []
    · obtain ⟨line, err, hr, -⟩ := hempty h0
      rw [hr]
      exact failAt_endsDoneOrFailed _ _ _ _
    · unfold reconcileObject
      refine endsDoneOrFailed_bind (genesisStep_endsDoneOrFailed _ _ _) (fun _ p1 => ?_)
      refine endsDoneOrFailed_bind (joinOrderers_endsDoneOrFailed _ _ _ _ _) (fun _ p2 => ?_)
      refine endsDoneOrFailed_bind (firstAdminStep_endsDoneOrFailed _ _ _ h0) (fun _ p3 => ?_)
      refine endsDoneOrFailed_bind (fetchAndDiff_endsDoneOrFailed _ _ _) (fun cur p4 => ?_)
      exact (reconcileFromCalculate_endsDoneOrFailed env obj _ _ p4).1
  refine ⟨?_, hempty⟩
  have hend := reconcileObject_ended env obj p
  cases hr : reconcileObject env obj p with
  | next a q =>
    rw [hr] at hend
    simp [Flow.ended] at hend
  | done r q =>
    rw [hr] at hends
    obtain ⟨⟨result, err, hret⟩, hst⟩ := hends
    exact ⟨result, err, q, by rw [hret], hst⟩

/-- Witness of C27: the sample pass over an object with an empty admin peer list;
`mapToConfigTX` builds the Signature policy `MAJORITY Admins`, the genesis block
is refused at line 139 and the pass ends Failed without reaching line 308. -/
theorem empty_admin_list_is_never_read_witness :
    GenesisRefusesMajoritySignature (sampleEnv [] configAB) ∧
      Reconcile (sampleEnv [] configAB) =
        (Return.returned { Requeue := false, RequeueAfter := 0 } none,
          { status :=
              { Status := FailedStatus, Message := "",
                Conditions :=
                  [ { CondType := FailedStatus, Status := "False", Reason := "",
                      Message := "" } ] },
            trace :=
              [Event.setFailed 139 "invalid signature policy rule: 'MAJORITY Admins'",
                Event.statusPatch FailedStatus, Event.statusUpdate] }) ∧
      ((∃ result err q,
          reconcileObject (sampleEnv [] configAB) (sampleObject []) samplePass
            = Flow.done (Return.returned result err) q ∧
          (q.status.Status = FailedStatus ∨ q.status.Status = RunningStatus)) ∧
        ((sampleObject []).Spec.AdminPeerOrganizations = [] →
          ∃ line err,
            reconcileObject (sampleEnv [] configAB) (sampleObject []) samplePass
              = failAt (sampleEnv [] configAB) samplePass line err ∧ line ≤ 139)) :=
  ⟨sampleGenesisBlock_refuses [] configAB, by decide,
    empty_admin_list_is_never_read (sampleEnv [] configAB) (sampleObject []) samplePass
      (sampleGenesisBlock_refuses [] configAB)⟩

end MainChannel
